import Mathlib

set_option maxHeartbeats 1000000
set_option maxRecDepth 10000

/-!
Verification development for the MCP brand-service adapter
(`src/mcp/mcp-brand-service.js`, stdio transport variant, and its
companion HTTP variant `src/mcp/mcp-http-server.js`).

The JavaScript source is shallowly embedded: JavaScript values are the
inductive `Js`, the process-wide token cache is `Session`, one tool
invocation performs at most one HTTP call whose outcome (success
response or axios-style error shape) is an input `World`, and each
handler function of the source becomes a Lean function of the same name
returning a `HandlerRun` (console-error lines, issued HTTP requests,
thrown-or-returned value, updated session).  The `CallToolRequestSchema`
dispatcher becomes `callTool`.  Template-literal interpolation,
truthiness, `||` / `??`, `encodeURIComponent`, `JSON.stringify` and
base64 are modelled by executable functions below.
-/

/-- JavaScript runtime values, as far as the adapter manipulates them:
`undefined`, `null`, booleans, (integer) numbers, strings, arrays and
plain objects. -/
inductive Js : Type where
  | undefined : Js
  | null : Js
  | bool : Bool → Js
  | num : Int → Js
  | str : String → Js
  | arr : List Js → Js
  | obj : List (String × Js) → Js

/-- JavaScript truthiness (`undefined`, `null`, `false`, `0` and the
empty string are falsy; arrays and objects are truthy). -/
def Js.truthy : Js → Bool
  | .undefined => false
  | .null => false
  | .bool b => b
  | .num n => n != 0
  | .str s => s != ""
  | .arr _ => true
  | .obj _ => true

/-- Property access `v?.k` / destructuring: a missing key or a
non-object base yields `undefined`. -/
def Js.get : Js → String → Js
  | .obj fields, k => ((fields.find? (fun f => f.1 == k)).map (fun f => f.2)).getD .undefined
  | _, _ => .undefined

/-- JavaScript `a || b`. -/
def jsOr (a b : Js) : Js := if a.truthy then a else b

/-- JavaScript `a ?? b` (nullish coalescing). -/
def jsNullish (a b : Js) : Js :=
  match a with
  | .undefined => b
  | .null => b
  | x => x

/-- Destructuring default (`{ x = d } = o` applies `d` only for
`undefined`). -/
def jsDefault (v d : Js) : Js :=
  match v with
  | .undefined => d
  | x => x

mutual

/-- String coercion as performed by template literals: `String(v)`. -/
def Js.toStr : Js → String
  | .undefined => "undefined"
  | .null => "null"
  | .bool true => "true"
  | .bool false => "false"
  | .num n => toString n
  | .str s => s
  | .arr xs => String.intercalate "," (Js.arrElemStrs xs)
  | .obj _ => "[object Object]"

/-- Array elements under `Array.prototype.toString` (`null` and
`undefined` render empty). -/
def Js.arrElemStrs : List Js → List String
  | [] => []
  | .undefined :: xs => "" :: Js.arrElemStrs xs
  | .null :: xs => "" :: Js.arrElemStrs xs
  | x :: xs => Js.toStr x :: Js.arrElemStrs xs

end

/-- The hexadecimal digits used by `JSON.stringify` escapes. -/
def hexDigitLower (n : Nat) : Char := "0123456789abcdef".toList.getD n '0'

/-- Four lower-case hex digits. -/
def hex4 (n : Nat) : String :=
  ⟨[hexDigitLower (n / 4096 % 16), hexDigitLower (n / 256 % 16),
    hexDigitLower (n / 16 % 16), hexDigitLower (n % 16)]⟩

/-- JSON string escaping of one character. -/
def jsonEscChar (c : Char) : String :=
  if c = Char.ofNat 34 then "\\\""
  else if c = '\\' then "\\\\"
  else if c = Char.ofNat 10 then "\\n"
  else if c = Char.ofNat 13 then "\\r"
  else if c = Char.ofNat 9 then "\\t"
  else if c.toNat < 32 then "\\u" ++ hex4 c.toNat
  else String.singleton c

/-- JSON string quoting. -/
def jsonQuote (s : String) : String :=
  "\"" ++ String.join (s.toList.map jsonEscChar) ++ "\""

mutual

/-- `JSON.stringify`; `none` models the JavaScript result `undefined`
(for input `undefined`).  Object entries whose value serializes to
`undefined` are omitted, array entries render as `null`. -/
def jsonStringifyOpt : Js → Option String
  | .undefined => none
  | .null => some "null"
  | .bool true => some "true"
  | .bool false => some "false"
  | .num n => some (toString n)
  | .str s => some (jsonQuote s)
  | .arr xs => some ("[" ++ String.intercalate "," (jsonArrElems xs) ++ "]")
  | .obj fs => some ("\x7b" ++ String.intercalate "," (jsonObjFields fs) ++ "\x7d")

/-- Array elements for `jsonStringifyOpt`. -/
def jsonArrElems : List Js → List String
  | [] => []
  | x :: xs => (jsonStringifyOpt x).getD "null" :: jsonArrElems xs

/-- Object fields for `jsonStringifyOpt`. -/
def jsonObjFields : List (String × Js) → List String
  | [] => []
  | (k, v) :: fs =>
    match jsonStringifyOpt v with
    | some sv => (jsonQuote k ++ ":" ++ sv) :: jsonObjFields fs
    | none => jsonObjFields fs

end

/-- `JSON.stringify` as interpolated into a template literal (the
JavaScript value `undefined` interpolates as the text `undefined`). -/
def jsonStringify (v : Js) : String := (jsonStringifyOpt v).getD "undefined"

/-- Characters `encodeURIComponent` leaves unescaped. -/
def uriUnreserved (c : Char) : Bool :=
  ('A' ≤ c && c ≤ 'Z') || ('a' ≤ c && c ≤ 'z') || ('0' ≤ c && c ≤ '9') ||
  c == '-' || c == '_' || c == '.' || c == '!' || c == Char.ofNat 126 ||
  c == '*' || c == Char.ofNat 39 || c == '(' || c == ')'

/-- The upper-case hexadecimal digits used by percent-encoding. -/
def hexDigitUpper (n : Nat) : Char := "0123456789ABCDEF".toList.getD n '0'

/-- Percent-encoding of one byte. -/
def pctByte (b : Nat) : String :=
  ⟨['%', hexDigitUpper (b / 16 % 16), hexDigitUpper (b % 16)]⟩

/-- UTF-8 encoding of one character's code point. -/
def utf8Bytes (c : Char) : List Nat :=
  let n := c.toNat
  if n < 128 then [n]
  else if n < 2048 then [192 + n / 64, 128 + n % 64]
  else if n < 65536 then [224 + n / 4096, 128 + n / 64 % 64, 128 + n % 64]
  else [240 + n / 262144, 128 + n / 4096 % 64, 128 + n / 64 % 64, 128 + n % 64]

/-- JavaScript `encodeURIComponent` (UTF-8 percent-encoding of all
characters outside the unreserved set). -/
def encodeURIComponent (s : String) : String :=
  String.join (s.toList.map (fun c =>
    if uriUnreserved c then String.singleton c
    else String.join ((utf8Bytes c).map pctByte)))

/-- Substring containment, used to state that a rendered message carries
a given text. -/
def ContainsStr (s pat : String) : Prop := pat.toList <:+: s.toList

instance (s pat : String) : Decidable (ContainsStr s pat) :=
  inferInstanceAs (Decidable (pat.toList <:+: s.toList))

theorem containsStr_of_eq_append (s a pat b : String)
    (h : s = a ++ (pat ++ b)) : ContainsStr s pat := by
  subst h
  show pat.toList <:+: (a ++ (pat ++ b)).toList
  have : (a ++ (pat ++ b)).toList = a.toList ++ (pat.toList ++ b.toList) := by
    simp [String.toList, String.data_append]
  rw [this]
  exact ⟨a.toList, b.toList, by simp⟩

example : Js.truthy (.num 0) = false := by decide
example : Js.truthy (.str "x") = true := by decide
example : (Js.obj [("a", .num 1)]).get "a" = .num 1 := by rfl
example : (Js.num 0).toStr = "0" := by rfl
example : encodeURIComponent "a b" = "a%20b" := by decide
example : jsonStringify (.obj [("a", .str "x"), ("b", .undefined)]) = "\x7b\"a\":\"x\"\x7d" := by rfl
example : ContainsStr "hello world" "lo wo" := by decide
example : ¬ ContainsStr "hello" "z" := by decide

/-- The base64 alphabet (RFC 4648, as used by `Buffer.toString("base64")`). -/
def b64Chars : List Char :=
  "ABCDEFGHIJKLMNOPQRSTUVWXYZabcdefghijklmnopqrstuvwxyz0123456789+/".toList

/-- Sextet to base64 character. -/
def b64Char (n : Nat) : Char := b64Chars.getD n 'A'

/-- Lookup helper for decoding. -/
def b64ValAux : List Char → Nat → Char → Option Nat
  | [], _, _ => none
  | x :: xs, i, c => if x == c then some i else b64ValAux xs (i + 1) c

/-- Base64 character to sextet. -/
def b64Val (c : Char) : Option Nat := b64ValAux b64Chars 0 c

/-- Base64 encoding of a byte list (`Buffer.prototype.toString("base64")`). -/
def base64EncodeChars : List Nat → List Char
  | [] => []
  | [a] => [b64Char (a / 4), b64Char (a % 4 * 16), '=', '=']
  | [a, b] => [b64Char (a / 4), b64Char (a % 4 * 16 + b / 16), b64Char (b % 16 * 4), '=']
  | a :: b :: c :: rest =>
    b64Char (a / 4) :: b64Char (a % 4 * 16 + b / 16) ::
    b64Char (b % 16 * 4 + c / 64) :: b64Char (c % 64) :: base64EncodeChars rest

/-- Base64 decoding (strict: padding only in a final complete group). -/
def base64DecodeChars : List Char → Option (List Nat)
  | [] => some []
  | c1 :: c2 :: c3 :: c4 :: rest =>
    match b64Val c1, b64Val c2 with
    | some s1, some s2 =>
      if c3 = '=' then
        if c4 = '=' ∧ rest = [] then some [s1 * 4 + s2 / 16] else none
      else
        match b64Val c3 with
        | some s3 =>
          if c4 = '=' then
            if rest = [] then some [s1 * 4 + s2 / 16, s2 % 16 * 16 + s3 / 4] else none
          else
            match b64Val c4 with
            | some s4 =>
              (base64DecodeChars rest).map
                (fun tail => (s1 * 4 + s2 / 16) :: (s2 % 16 * 16 + s3 / 4) :: (s3 % 4 * 64 + s4) :: tail)
            | none => none
        | none => none
    | _, _ => none
  | _ => none

/-- String form of the encoder. -/
def base64Encode (bs : List Nat) : String := ⟨base64EncodeChars bs⟩

/-- String form of the decoder. -/
def base64Decode (s : String) : Option (List Nat) := base64DecodeChars s.toList

theorem b64Val_b64Char : ∀ n < 64, b64Val (b64Char n) = some n := by decide

theorem b64Char_ne_pad : ∀ n < 64, ¬ (b64Char n = '=') := by decide

theorem base64_roundtrip : ∀ bs : List Nat, (∀ b ∈ bs, b < 256) →
    base64DecodeChars (base64EncodeChars bs) = some bs := by
  intro bs
  induction bs using base64EncodeChars.induct with
  | case1 =>
    intro _
    rfl
  | case2 a =>
    intro h
    have ha : a < 256 := h a (by simp)
    have h1 := b64Val_b64Char (a / 4) (by omega)
    have h2 := b64Val_b64Char (a % 4 * 16) (by omega)
    simp [base64EncodeChars, base64DecodeChars, h1, h2]
    omega
  | case3 a b =>
    intro h
    have ha : a < 256 := h a (by simp)
    have hb : b < 256 := h b (by simp)
    have h1 := b64Val_b64Char (a / 4) (by omega)
    have h2 := b64Val_b64Char (a % 4 * 16 + b / 16) (by omega)
    have h3 := b64Val_b64Char (b % 16 * 4) (by omega)
    have n3 := b64Char_ne_pad (b % 16 * 4) (by omega)
    simp [base64EncodeChars, base64DecodeChars, h1, h2, h3, n3]
    omega
  | case4 a b c rest ih =>
    intro h
    have ha : a < 256 := h a (by simp)
    have hb : b < 256 := h b (by simp)
    have hc : c < 256 := h c (by simp)
    have hrest : ∀ x ∈ rest, x < 256 := by
      intro x hx
      exact h x (by simp [hx])
    have h1 := b64Val_b64Char (a / 4) (by omega)
    have h2 := b64Val_b64Char (a % 4 * 16 + b / 16) (by omega)
    have h3 := b64Val_b64Char (b % 16 * 4 + c / 64) (by omega)
    have h4 := b64Val_b64Char (c % 64) (by omega)
    have n3 := b64Char_ne_pad (b % 16 * 4 + c / 64) (by omega)
    have n4 := b64Char_ne_pad (c % 64) (by omega)
    simp [base64EncodeChars, base64DecodeChars, h1, h2, h3, h4, n3, n4, ih hrest]
    omega

example : base64Encode [77, 97, 110] = "TWFu" := by decide
example : base64Encode [77, 97] = "TWE=" := by decide
example : base64Encode [77] = "TQ==" := by decide
example : base64Decode "TWFu" = some [77, 97, 110] := by decide

/-- Configuration read from `process.env`: `API_BASE_URL`, `API_KEY`,
optional `API_DOMAIN`, and the numeric value of
`Number(process.env.MCP_TOOL_TIMEOUT_MS || "15000")`. -/
structure Env where
  apiBaseUrl : String
  apiKey : String
  apiDomain : Option String
  timeoutMs : Nat

/-- The two module-level mutable variables `cachedToken` and
`cachedRefreshToken` (both initialised to `null`). -/
structure Session where
  cachedToken : Js
  cachedRefreshToken : Js

/-- Process start state: both caches `null`. -/
def initialSession : Session := { cachedToken := .null, cachedRefreshToken := .null }

/-- An HTTP response as seen through axios: status, status text, parsed
JSON body (`data`), raw bytes (for `responseType: "arraybuffer"`), and
response headers. -/
structure HttpResponse where
  status : Nat
  statusText : String
  data : Js
  bytes : List Nat
  headers : List (String × String)

/-- The shape of an axios error as probed by the handlers' catch blocks:
`err.response` (set when the server answered non-2xx), `err.request`
(set when the request was dispatched, including on timeouts),
`err.code`, `err.message`. -/
structure AxiosErrorShape where
  response : Option HttpResponse
  requestPresent : Bool
  code : Option String
  message : String

/-- Outcome of the (single) HTTP call a handler performs. -/
inductive HttpOutcome where
  | ok : HttpResponse → HttpOutcome
  | err : AxiosErrorShape → HttpOutcome

/-- Per-invocation external facts: the HTTP outcome (were a request
issued), whether `new URL(url)` succeeds for the handler's url argument,
and `new Date().toISOString()`. -/
structure World where
  outcome : HttpOutcome
  urlParses : Bool
  now : String

/-- An outbound HTTP request as configured in the source (method, url,
headers in source order, axios `params`, axios `data`, `responseType`). -/
structure HttpRequest where
  method : String
  url : String
  headers : List (String × String)
  params : List (String × Js) := []
  body : Option Js := none
  responseType : Option String := none

/-- Observable effects of running one handler: `console.error` lines,
issued HTTP requests, the thrown message or returned value, and the
session state after the call. -/
structure HandlerRun where
  logs : List String
  requests : List HttpRequest
  result : Except String Js
  session : Session

/-- A handler `throw new Error(msg)` before any I/O. -/
def throwRun (s : Session) (msg : String) : HandlerRun :=
  { logs := [], requests := [], result := .error msg, session := s }

/-- The four message builders of a handler's catch block. -/
structure ErrMsgs where
  onResponse : HttpResponse → String
  network : String
  onTimeout : String
  onOther : String → String

/-- The catch-block chain shared verbatim by every handler:
`if (err.response) ... else if (err.request) ... else if
(err.code === "ECONNABORTED") ... else ...`. -/
def classifyAxiosErr (m : ErrMsgs) (e : AxiosErrorShape) : String :=
  match e.response with
  | some r => m.onResponse r
  | none =>
    if e.requestPresent then m.network
    else if e.code == some "ECONNABORTED" then m.onTimeout
    else m.onOther e.message

/-- Issue one request and translate the outcome, leaving the session
unchanged (used by every handler except login/refresh, which also write
the token cache, and forward, which also logs). -/
def sendRequest (s : Session) (req : HttpRequest) (w : World) (m : ErrMsgs)
    (mkOk : HttpResponse → Js) : HandlerRun :=
  match w.outcome with
  | .ok r => { logs := [], requests := [req], result := .ok (mkOk r), session := s }
  | .err e => { logs := [], requests := [req], result := .error (classifyAxiosErr m e), session := s }

/-- The uniform authentication-precondition message. -/
def notAuthMsg : String := "Not authenticated. Please login first to obtain a token."

/-- Template literal `Bearer ${cachedToken}` (renders `Bearer null` when
the cache is unset). -/
def bearerOf (s : Session) : String := "Bearer " ++ s.cachedToken.toStr

/-- Template fragment `${v || statusText}`. -/
def orStatusText (v : Js) (r : HttpResponse) : String :=
  if v.truthy then v.toStr else r.statusText

/-- `err.response.data?.error || err.response.statusText`. -/
def dataErrOrStatus (r : HttpResponse) : String := orStatusText (r.data.get "error") r

/-- `err.response.data?.message || err.response.statusText`. -/
def dataMsgOrStatus (r : HttpResponse) : String := orStatusText (r.data.get "message") r

/-- `err.response.data?.error || err.response.data?.message ||
err.response.statusText`. -/
def dataErrOrMsgOrStatus (r : HttpResponse) : String :=
  orStatusText (jsOr (r.data.get "error") (r.data.get "message")) r

/-- Response header lookup (`resp.headers?.[k]`). -/
def headerLookup (hs : List (String × String)) (k : String) : Option String :=
  (hs.find? (fun h => h.1 == k)).map (fun h => h.2)

/-- Header value with falsy-default (`resp.headers?.[k] || d`). -/
def headerOr (hs : List (String × String)) (k d : String) : String :=
  match headerLookup hs k with
  | some v => if v == "" then d else v
  | none => d

/-- Array elements of a `Js` value (`[]` for non-arrays; JavaScript
would throw a `TypeError` mapping over a truthy non-array, a corner the
model does not reproduce). -/
def Js.elems : Js → List Js
  | .arr xs => xs
  | _ => []

/-- Strict equality with a string literal (`v === "s"`). -/
def jsIsStr (v : Js) (s : String) : Bool :=
  match v with
  | .str t => t == s
  | _ => false

/-- Strict equality with a number literal (`v === k`). -/
def jsIsNum (v : Js) (k : Int) : Bool :=
  match v with
  | .num n => n == k
  | _ => false

/-- Whether the value is exactly `undefined`. -/
def Js.isUndef : Js → Bool
  | .undefined => true
  | _ => false

/-- Whether the value is `undefined` or `null`. -/
def Js.isNullish : Js → Bool
  | .undefined => true
  | .null => true
  | _ => false

/-- Whether the value is an array (`Array.isArray`). -/
def Js.isArray : Js → Bool
  | .arr _ => true
  | _ => false

/-- `Number.isInteger(v) && v >= k`, for the integer-typed model. -/
def jsIntGE (v : Js) (k : Int) : Bool :=
  match v with
  | .num n => k ≤ n
  | _ => false

/-- Parse a non-negative decimal numeral. -/
def decimalToNat? (s : String) : Option Nat :=
  if s ≠ "" && s.toList.all Char.isDigit then
    some (s.toList.foldl (fun a c => a * 10 + (c.toNat - 48)) 0)
  else none

/-- JavaScript `Number(v)` where `none` models `NaN` (string parsing is
modelled for unsigned decimal numerals; other exotic coercions do not
occur in the adapter's inputs of interest). -/
def jsToNumberOpt : Js → Option Int
  | .num n => some n
  | .bool true => some 1
  | .bool false => some 0
  | .null => some 0
  | .str s => if s.trim = "" then some 0 else (decimalToNat? s.trim).map Int.ofNat
  | _ => none

/-- Template fragment `${v ?? d}` for a string default. -/
def nullishStr (v : Js) (d : String) : String :=
  match v with
  | .undefined => d
  | .null => d
  | x => x.toStr

/-- `Object.keys(v).length` (string and array inputs count their
indices; primitives have no own keys). -/
def jsKeysLength : Js → Nat
  | .obj fs => fs.length
  | .arr xs => xs.length
  | .str s => s.length
  | _ => 0

/-- Handler `fetchBrandDetails(url)`: POST `/api/secure/rivofetch` with
API key and domain headers (no session token, no auth check). -/
def fetchBrandDetails (env : Env) (s : Session) (url : Js) (w : World) : HandlerRun :=
  if !url.truthy then throwRun s "Missing required input: url"
  else if !w.urlParses then throwRun s "Invalid URL format provided"
  else
    let base := env.apiBaseUrl
    let domain := env.apiDomain.getD "tyedukondalu-brandsnap.com"
    sendRequest s
      { method := "POST", url := base ++ "/api/secure/rivofetch"
      , headers := [("x-api-key", env.apiKey), ("Origin", domain), ("Referer", domain),
                    ("Host", domain), ("Content-Type", "application/json"),
                    ("User-Agent", "BrandService-MCP/1.0.0")]
      , body := some (.obj [("url", url)]) } w
      { onResponse := fun r => "API Error (" ++ toString r.status ++ "): " ++ dataMsgOrStatus r
      , network := "Network Error: Unable to reach API at " ++ base
      , onTimeout := "Request timeout after " ++ toString env.timeoutMs ++ "ms"
      , onOther := fun m => "Request failed: " ++ m }
      (fun r => .obj [("success", .bool true), ("data", r.data), ("url", url), ("timestamp", .str w.now)])

/-- Handler `authLogin({username, password, tenantId})`: POST
`/auth/login`; on success caches `token`/`refreshToken` from the
response body when truthy. -/
def authLogin (env : Env) (s : Session) (username password tenantId : Js) (w : World) : HandlerRun :=
  if !username.truthy || !password.truthy then
    throwRun s "Missing required inputs: username and password"
  else
    let base := env.apiBaseUrl
    let req : HttpRequest :=
      { method := "POST", url := base ++ "/auth/login"
      , headers := [("Content-Type", "application/json")]
      , body := some (.obj ([("username", username), ("password", password)] ++
          (if tenantId.truthy then [("tenantId", tenantId)] else []))) }
    match w.outcome with
    | .ok r =>
      let rd := jsOr r.data (.obj [])
      let token := rd.get "token"
      let refreshToken := rd.get "refreshToken"
      let s1 := if token.truthy then { s with cachedToken := token } else s
      let s2 := if refreshToken.truthy then { s1 with cachedRefreshToken := refreshToken } else s1
      { logs := [], requests := [req]
      , result := .ok (.obj [("success", .bool true), ("data", r.data), ("timestamp", .str w.now)])
      , session := s2 }
    | .err e =>
      { logs := [], requests := [req]
      , result := .error (classifyAxiosErr
          { onResponse := fun r => "Login failed (" ++ toString r.status ++ "): " ++ dataErrOrStatus r
          , network := "Network Error: Unable to reach API at " ++ base ++ "/auth/login"
          , onTimeout := "Login request timeout after " ++ toString env.timeoutMs ++ "ms"
          , onOther := fun m => "Login request failed: " ++ m } e)
      , session := s }

/-- Handler `refreshAuthToken({refreshToken})`: uses the supplied token
or the cached refresh token, fails before I/O when neither is truthy;
POST `/auth/refresh` (text/plain body); on success overwrites whichever
cached tokens appear truthy in the response. -/
def refreshAuthToken (env : Env) (s : Session) (refreshToken : Js) (w : World) : HandlerRun :=
  let tokenToUse := jsOr refreshToken s.cachedRefreshToken
  if !tokenToUse.truthy then
    throwRun s "Missing refreshToken and no cached refresh token available. Please provide refreshToken or login first."
  else
    let base := env.apiBaseUrl
    let req : HttpRequest :=
      { method := "POST", url := base ++ "/auth/refresh"
      , headers := [("Content-Type", "text/plain")]
      , body := some tokenToUse }
    match w.outcome with
    | .ok r =>
      let rd := jsOr r.data (.obj [])
      let token := rd.get "token"
      let newRefresh := rd.get "refreshToken"
      let s1 := if token.truthy then { s with cachedToken := token } else s
      let s2 := if newRefresh.truthy then { s1 with cachedRefreshToken := newRefresh } else s1
      { logs := [], requests := [req]
      , result := .ok (.obj [("success", .bool true), ("data", r.data), ("timestamp", .str w.now)])
      , session := s2 }
    | .err e =>
      { logs := [], requests := [req]
      , result := .error (classifyAxiosErr
          { onResponse := fun r => "Refresh failed (" ++ toString r.status ++ "): " ++ dataErrOrStatus r
          , network := "Network Error: Unable to reach API at " ++ base ++ "/auth/refresh"
          , onTimeout := "Refresh request timeout after " ++ toString env.timeoutMs ++ "ms"
          , onOther := fun m => "Refresh request failed: " ++ m } e)
      , session := s }

/-- Handler `forgotPassword({email})`: POST `/auth/forgot-password`. -/
def forgotPassword (env : Env) (s : Session) (email : Js) (w : World) : HandlerRun :=
  if !email.truthy then throwRun s "Missing required input: email"
  else
    let base := env.apiBaseUrl
    sendRequest s
      { method := "POST", url := base ++ "/auth/forgot-password"
      , headers := [("Content-Type", "application/json")]
      , body := some (.obj [("email", email)]) } w
      { onResponse := fun r => "Forgot-password failed (" ++ toString r.status ++ "): " ++ dataErrOrStatus r
      , network := "Network Error: Unable to reach API at " ++ base ++ "/auth/forgot-password"
      , onTimeout := "Forgot-password request timeout after " ++ toString env.timeoutMs ++ "ms"
      , onOther := fun m => "Forgot-password request failed: " ++ m }
      (fun r => .obj [("success", .bool true), ("data", r.data), ("timestamp", .str w.now)])

/-- Handler `resetPassword({token, newPassword})`: POST
`/auth/reset-password`. -/
def resetPassword (env : Env) (s : Session) (token newPassword : Js) (w : World) : HandlerRun :=
  if !token.truthy || !newPassword.truthy then
    throwRun s "Missing required inputs: token and newPassword"
  else
    let base := env.apiBaseUrl
    sendRequest s
      { method := "POST", url := base ++ "/auth/reset-password"
      , headers := [("Content-Type", "application/json")]
      , body := some (.obj [("token", token), ("newPassword", newPassword)]) } w
      { onResponse := fun r => "Reset-password failed (" ++ toString r.status ++ "): " ++ dataErrOrStatus r
      , network := "Network Error: Unable to reach API at " ++ base ++ "/auth/reset-password"
      , onTimeout := "Reset-password request timeout after " ++ toString env.timeoutMs ++ "ms"
      , onOther := fun m => "Reset-password request failed: " ++ m }
      (fun r => .obj [("success", .bool true), ("data", r.data), ("timestamp", .str w.now)])

/-- Handler `getUserById({id})`: auth-checked GET
`/api/users/userId/{id}` with bearer header. -/
def getUserById (env : Env) (s : Session) (id : Js) (w : World) : HandlerRun :=
  if !id.truthy then throwRun s "Missing required input: id"
  else if !s.cachedToken.truthy then throwRun s notAuthMsg
  else
    let base := env.apiBaseUrl
    sendRequest s
      { method := "GET", url := base ++ "/api/users/userId/" ++ encodeURIComponent id.toStr
      , headers := [("Authorization", bearerOf s), ("Accept", "application/json")] } w
      { onResponse := fun r => "Get user by ID failed (" ++ toString r.status ++ "): " ++ dataErrOrStatus r
      , network := "Network Error: Unable to reach API at " ++ base ++ "/api/users/userId/" ++ id.toStr
      , onTimeout := "Get user by ID request timeout after " ++ toString env.timeoutMs ++ "ms"
      , onOther := fun m => "Get user by ID request failed: " ++ m }
      (fun r => .obj [("success", .bool true), ("data", r.data), ("id", id), ("timestamp", .str w.now)])

/-- Handler `updateUserProfile(payload)`: auth-checked PUT
`/api/users/profile`. -/
def updateUserProfile (env : Env) (s : Session) (payload : Js) (w : World) : HandlerRun :=
  if !s.cachedToken.truthy then throwRun s notAuthMsg
  else
    let base := env.apiBaseUrl
    sendRequest s
      { method := "PUT", url := base ++ "/api/users/profile"
      , headers := [("Authorization", bearerOf s), ("Content-Type", "application/json"), ("Accept", "application/json")]
      , body := some payload } w
      { onResponse := fun r => "Update profile failed (" ++ toString r.status ++ "): " ++ dataErrOrStatus r
      , network := "Network Error: Unable to reach API at " ++ base ++ "/api/users/profile"
      , onTimeout := "Update profile request timeout after " ++ toString env.timeoutMs ++ "ms"
      , onOther := fun m => "Update profile request failed: " ++ m }
      (fun r => .obj [("success", .bool true), ("data", r.data), ("payload", payload), ("timestamp", .str w.now)])

/-- Handler `getBrandsPaged({page = 0, size = 20})`: GET `/api/brands`
with optional bearer header (no auth check). -/
def getBrandsPaged (env : Env) (s : Session) (pageArg sizeArg : Js) (w : World) : HandlerRun :=
  let page := jsDefault pageArg (.num 0)
  let size := jsDefault sizeArg (.num 20)
  let base := env.apiBaseUrl
  sendRequest s
    { method := "GET", url := base ++ "/api/brands"
    , headers := (if s.cachedToken.truthy then [("Authorization", bearerOf s)] else []) ++
        [("Accept", "application/json")]
    , params := [("page", page), ("size", size)] } w
    { onResponse := fun r => "Get brands (paged) failed (" ++ toString r.status ++ "): " ++ dataErrOrStatus r
    , network := "Network Error: Unable to reach API at " ++ base ++ "/api/brands"
    , onTimeout := "Get brands (paged) request timeout after " ++ toString env.timeoutMs ++ "ms"
    , onOther := fun m => "Get brands (paged) request failed: " ++ m }
    (fun r => .obj [("success", .bool true), ("data", r.data), ("page", page), ("size", size), ("timestamp", .str w.now)])

/-- Handler `getBrandDetailsById({id})`: auth-checked GET
`/api/brands/{id}`. -/
def getBrandDetailsById (env : Env) (s : Session) (id : Js) (w : World) : HandlerRun :=
  if !id.truthy then throwRun s "Missing required input: id"
  else if !s.cachedToken.truthy then throwRun s notAuthMsg
  else
    let base := env.apiBaseUrl
    sendRequest s
      { method := "GET", url := base ++ "/api/brands/" ++ encodeURIComponent id.toStr
      , headers := [("Authorization", bearerOf s), ("Accept", "application/json")] } w
      { onResponse := fun r => "Get brand by ID failed (" ++ toString r.status ++ "): " ++ dataErrOrStatus r
      , network := "Network Error: Unable to reach API at " ++ base ++ "/api/brands/" ++ encodeURIComponent id.toStr
      , onTimeout := "Get brand by ID request timeout after " ++ toString env.timeoutMs ++ "ms"
      , onOther := fun m => "Get brand by ID request failed: " ++ m }
      (fun r => .obj [("success", .bool true), ("data", r.data), ("id", id), ("timestamp", .str w.now)])

/-- Handler `getBrandByWebsite({website})`: auth-checked GET
`/api/brands/by-website`. -/
def getBrandByWebsite (env : Env) (s : Session) (website : Js) (w : World) : HandlerRun :=
  if !website.truthy then throwRun s "Missing required input: website"
  else if !s.cachedToken.truthy then throwRun s notAuthMsg
  else
    let base := env.apiBaseUrl
    sendRequest s
      { method := "GET", url := base ++ "/api/brands/by-website"
      , headers := [("Authorization", bearerOf s), ("Accept", "application/json")]
      , params := [("website", website)] } w
      { onResponse := fun r => "Get brand by website failed (" ++ toString r.status ++ "): " ++ dataErrOrStatus r
      , network := "Network Error: Unable to reach API at " ++ base ++ "/api/brands/by-website"
      , onTimeout := "Get brand by website request timeout after " ++ toString env.timeoutMs ++ "ms"
      , onOther := fun m => "Get brand by website request failed: " ++ m }
      (fun r => .obj [("success", .bool true), ("data", r.data), ("website", website), ("timestamp", .str w.now)])

/-- Handler `getBrandByName({name})`: auth-checked GET
`/api/brands/by-name`. -/
def getBrandByName (env : Env) (s : Session) (name : Js) (w : World) : HandlerRun :=
  if !name.truthy then throwRun s "Missing required input: name"
  else if !s.cachedToken.truthy then throwRun s notAuthMsg
  else
    let base := env.apiBaseUrl
    sendRequest s
      { method := "GET", url := base ++ "/api/brands/by-name"
      , headers := [("Authorization", bearerOf s), ("Accept", "application/json")]
      , params := [("name", name)] } w
      { onResponse := fun r => "Get brand by name failed (" ++ toString r.status ++ "): " ++ dataErrOrStatus r
      , network := "Network Error: Unable to reach API at " ++ base ++ "/api/brands/by-name"
      , onTimeout := "Get brand by name request timeout after " ++ toString env.timeoutMs ++ "ms"
      , onOther := fun m => "Get brand by name request failed: " ++ m }
      (fun r => .obj [("success", .bool true), ("data", r.data), ("name", name), ("timestamp", .str w.now)])

/-- Handler `searchBrands({q, page = 0, size = 20})`: auth-checked GET
`/api/brands/search`. -/
def searchBrands (env : Env) (s : Session) (q pageArg sizeArg : Js) (w : World) : HandlerRun :=
  let page := jsDefault pageArg (.num 0)
  let size := jsDefault sizeArg (.num 20)
  if !q.truthy then throwRun s "Missing required input: q"
  else if !s.cachedToken.truthy then throwRun s notAuthMsg
  else
    let base := env.apiBaseUrl
    sendRequest s
      { method := "GET", url := base ++ "/api/brands/search"
      , headers := [("Authorization", bearerOf s), ("Accept", "application/json")]
      , params := [("q", q), ("page", page), ("size", size)] } w
      { onResponse := fun r => "Search brands failed (" ++ toString r.status ++ "): " ++ dataErrOrStatus r
      , network := "Network Error: Unable to reach API at " ++ base ++ "/api/brands/search"
      , onTimeout := "Search brands request timeout after " ++ toString env.timeoutMs ++ "ms"
      , onOther := fun m => "Search brands request failed: " ++ m }
      (fun r => .obj [("success", .bool true), ("data", r.data), ("query", q), ("page", page), ("size", size), ("timestamp", .str w.now)])

/-- Handler `getBrandsByDomain({domain})`: auth-checked GET
`/api/brands/by-domain`. -/
def getBrandsByDomain (env : Env) (s : Session) (domain : Js) (w : World) : HandlerRun :=
  if !domain.truthy then throwRun s "Missing required input: domain"
  else if !s.cachedToken.truthy then throwRun s notAuthMsg
  else
    let base := env.apiBaseUrl
    sendRequest s
      { method := "GET", url := base ++ "/api/brands/by-domain"
      , headers := [("Authorization", bearerOf s), ("Accept", "application/json")]
      , params := [("domain", domain)] } w
      { onResponse := fun r => "Get brands by domain failed (" ++ toString r.status ++ "): " ++ dataErrOrStatus r
      , network := "Network Error: Unable to reach API at " ++ base ++ "/api/brands/by-domain"
      , onTimeout := "Get brands by domain request timeout after " ++ toString env.timeoutMs ++ "ms"
      , onOther := fun m => "Get brands by domain request failed: " ++ m }
      (fun r => .obj [("success", .bool true), ("data", r.data), ("domain", domain), ("timestamp", .str w.now)])

/-- Handler `getBrandStatistics()`: auth-checked GET
`/api/brands/statistics`. -/
def getBrandStatistics (env : Env) (s : Session) (w : World) : HandlerRun :=
  if !s.cachedToken.truthy then throwRun s notAuthMsg
  else
    let base := env.apiBaseUrl
    sendRequest s
      { method := "GET", url := base ++ "/api/brands/statistics"
      , headers := [("Authorization", bearerOf s), ("Accept", "application/json")] } w
      { onResponse := fun r => "Get brand statistics failed (" ++ toString r.status ++ "): " ++ dataErrOrStatus r
      , network := "Network Error: Unable to reach API at " ++ base ++ "/api/brands/statistics"
      , onTimeout := "Get brand statistics request timeout after " ++ toString env.timeoutMs ++ "ms"
      , onOther := fun m => "Get brand statistics request failed: " ++ m }
      (fun r => .obj [("success", .bool true), ("data", r.data), ("timestamp", .str w.now)])

/-- Handler `getBrandDashboardSummary()`: auth-checked GET
`/api/brands/dashboard/summary`. -/
def getBrandDashboardSummary (env : Env) (s : Session) (w : World) : HandlerRun :=
  if !s.cachedToken.truthy then throwRun s notAuthMsg
  else
    let base := env.apiBaseUrl
    sendRequest s
      { method := "GET", url := base ++ "/api/brands/dashboard/summary"
      , headers := [("Authorization", bearerOf s), ("Accept", "application/json")] } w
      { onResponse := fun r => "Get dashboard summary failed (" ++ toString r.status ++ "): " ++ dataErrOrStatus r
      , network := "Network Error: Unable to reach API at " ++ base ++ "/api/brands/dashboard/summary"
      , onTimeout := "Get dashboard summary request timeout after " ++ toString env.timeoutMs ++ "ms"
      , onOther := fun m => "Get dashboard summary request failed: " ++ m }
      (fun r => .obj [("success", .bool true), ("data", r.data), ("timestamp", .str w.now)])

/-- Handler `getBrandDashboardSearches({search, status, page = 0,
size = 5})`: auth-checked GET `/api/brands/dashboard/brands` with
conditionally-included `search`/`status` params. -/
def getBrandDashboardSearches (env : Env) (s : Session) (search status pageArg sizeArg : Js) (w : World) : HandlerRun :=
  let page := jsDefault pageArg (.num 0)
  let size := jsDefault sizeArg (.num 5)
  if !s.cachedToken.truthy then throwRun s notAuthMsg
  else
    let base := env.apiBaseUrl
    let searchIncluded := !search.isNullish && search.toStr.trim ≠ ""
    let statusIncluded := status.truthy
    sendRequest s
      { method := "GET", url := base ++ "/api/brands/dashboard/brands"
      , headers := [("Authorization", bearerOf s), ("Accept", "application/json")]
      , params := [("page", page), ("size", size)] ++
          (if searchIncluded then [("search", search)] else []) ++
          (if statusIncluded then [("status", status)] else []) } w
      { onResponse := fun r => "Get dashboard searches failed (" ++ toString r.status ++ "): " ++ dataErrOrStatus r
      , network := "Network Error: Unable to reach API at " ++ base ++ "/api/brands/dashboard/brands"
      , onTimeout := "Get dashboard searches request timeout after " ++ toString env.timeoutMs ++ "ms"
      , onOther := fun m => "Get dashboard searches request failed: " ++ m }
      (fun r => .obj [("success", .bool true), ("data", r.data), ("page", page), ("size", size),
        ("search", if searchIncluded then search else .null),
        ("status", if statusIncluded then status else .null), ("timestamp", .str w.now)])

/-- Handler `getBrandDashboardDetails({brandId})`: auth-checked GET
`/api/brands/dashboard/brands/{brandId}/details`. -/
def getBrandDashboardDetails (env : Env) (s : Session) (brandId : Js) (w : World) : HandlerRun :=
  if !brandId.truthy then throwRun s "Missing required input: brandId"
  else if !s.cachedToken.truthy then throwRun s notAuthMsg
  else
    let base := env.apiBaseUrl
    sendRequest s
      { method := "GET", url := base ++ "/api/brands/dashboard/brands/" ++ encodeURIComponent brandId.toStr ++ "/details"
      , headers := [("Authorization", bearerOf s), ("Accept", "application/json")] } w
      { onResponse := fun r => "Get dashboard brand details failed (" ++ toString r.status ++ "): " ++ dataErrOrStatus r
      , network := "Network Error: Unable to reach API at " ++ base ++ "/api/brands/dashboard/brands/" ++ encodeURIComponent brandId.toStr ++ "/details"
      , onTimeout := "Get dashboard brand details request timeout after " ++ toString env.timeoutMs ++ "ms"
      , onOther := fun m => "Get dashboard brand details request failed: " ++ m }
      (fun r => .obj [("success", .bool true), ("data", r.data), ("brandId", brandId), ("timestamp", .str w.now)])

/-- Handler `getAllBrandsWithSearch({search, paginated = false,
page = 0, size = 50})`: GET `/api/brands/all` with optional bearer
header (no auth check). -/
def getAllBrandsWithSearch (env : Env) (s : Session) (search paginatedArg pageArg sizeArg : Js) (w : World) : HandlerRun :=
  let paginated := jsDefault paginatedArg (.bool false)
  let page := jsDefault pageArg (.num 0)
  let size := jsDefault sizeArg (.num 50)
  let base := env.apiBaseUrl
  let searchIncluded := !search.isNullish && search.toStr.trim ≠ ""
  sendRequest s
    { method := "GET", url := base ++ "/api/brands/all"
    , headers := (if s.cachedToken.truthy then [("Authorization", bearerOf s)] else []) ++
        [("Accept", "application/json")]
    , params := [("paginated", paginated), ("page", page), ("size", size)] ++
        (if searchIncluded then [("search", search)] else []) } w
    { onResponse := fun r => "Get all brands (advanced) failed (" ++ toString r.status ++ "): " ++ dataErrOrStatus r
    , network := "Network Error: Unable to reach API at " ++ base ++ "/api/brands/all"
    , onTimeout := "Get all brands (advanced) request timeout after " ++ toString env.timeoutMs ++ "ms"
    , onOther := fun m => "Get all brands (advanced) request failed: " ++ m }
    (fun r => .obj [("success", .bool true), ("data", r.data), ("paginated", paginated), ("page", page), ("size", size),
      ("search", if searchIncluded then search else .null), ("timestamp", .str w.now)])

/-- Handler `getAllBrandsLegacy({paginated = false, page = 0,
size = 50})`: GET `/api/brands/all-brands` with optional bearer header
(no auth check). -/
def getAllBrandsLegacy (env : Env) (s : Session) (paginatedArg pageArg sizeArg : Js) (w : World) : HandlerRun :=
  let paginated := jsDefault paginatedArg (.bool false)
  let page := jsDefault pageArg (.num 0)
  let size := jsDefault sizeArg (.num 50)
  let base := env.apiBaseUrl
  sendRequest s
    { method := "GET", url := base ++ "/api/brands/all-brands"
    , headers := (if s.cachedToken.truthy then [("Authorization", bearerOf s)] else []) ++
        [("Accept", "application/json")]
    , params := [("paginated", paginated), ("page", page), ("size", size)] } w
    { onResponse := fun r => "Get all brands (legacy) failed (" ++ toString r.status ++ "): " ++ dataErrOrStatus r
    , network := "Network Error: Unable to reach API at " ++ base ++ "/api/brands/all-brands"
    , onTimeout := "Get all brands (legacy) request timeout after " ++ toString env.timeoutMs ++ "ms"
    , onOther := fun m => "Get all brands (legacy) request failed: " ++ m }
    (fun r => .obj [("success", .bool true), ("data", r.data), ("paginated", paginated), ("page", page), ("size", size), ("timestamp", .str w.now)])

/-- Handler `serveBrandAsset({assetId})`: GET `/api/brands/assets/{id}`
with `responseType: "arraybuffer"` (no headers, no auth check); returns
content type, content disposition and the base64 payload. -/
def serveBrandAsset (env : Env) (s : Session) (assetId : Js) (w : World) : HandlerRun :=
  if !assetId.truthy then throwRun s "Missing required input: assetId"
  else
    let base := env.apiBaseUrl
    sendRequest s
      { method := "GET", url := base ++ "/api/brands/assets/" ++ encodeURIComponent assetId.toStr
      , headers := []
      , responseType := some "arraybuffer" } w
      { onResponse := fun r => "Serve brand asset failed (" ++ toString r.status ++ "): " ++ dataErrOrStatus r
      , network := "Network Error: Unable to reach API at " ++ base ++ "/api/brands/assets/" ++ encodeURIComponent assetId.toStr
      , onTimeout := "Serve brand asset request timeout after " ++ toString env.timeoutMs ++ "ms"
      , onOther := fun m => "Serve brand asset request failed: " ++ m }
      (fun r => .obj [("success", .bool true), ("assetId", assetId),
        ("contentType", .str (headerOr r.headers "content-type" "application/octet-stream")),
        ("contentDisposition", (headerLookup r.headers "content-disposition").elim Js.null Js.str),
        ("dataBase64", .str (base64Encode r.bytes)), ("timestamp", .str w.now)])

/-- Handler `serveBrandImage({imageId})`: GET `/api/brands/images/{id}`
with `responseType: "arraybuffer"` (no auth check). -/
def serveBrandImage (env : Env) (s : Session) (imageId : Js) (w : World) : HandlerRun :=
  if !imageId.truthy then throwRun s "Missing required input: imageId"
  else
    let base := env.apiBaseUrl
    sendRequest s
      { method := "GET", url := base ++ "/api/brands/images/" ++ encodeURIComponent imageId.toStr
      , headers := []
      , responseType := some "arraybuffer" } w
      { onResponse := fun r => "Serve brand image failed (" ++ toString r.status ++ "): " ++ dataErrOrStatus r
      , network := "Network Error: Unable to reach API at " ++ base ++ "/api/brands/images/" ++ encodeURIComponent imageId.toStr
      , onTimeout := "Serve brand image request timeout after " ++ toString env.timeoutMs ++ "ms"
      , onOther := fun m => "Serve brand image request failed: " ++ m }
      (fun r => .obj [("success", .bool true), ("imageId", imageId),
        ("contentType", .str (headerOr r.headers "content-type" "application/octet-stream")),
        ("contentDisposition", (headerLookup r.headers "content-disposition").elim Js.null Js.str),
        ("dataBase64", .str (base64Encode r.bytes)), ("timestamp", .str w.now)])

/-- Handler `extractBrandData({url, mockResponse})`: auth-checked POST
`/api/brands/extract` with query params. -/
def extractBrandData (env : Env) (s : Session) (url mockResponse : Js) (w : World) : HandlerRun :=
  if !url.truthy then throwRun s "Missing required input: url"
  else if !s.cachedToken.truthy then throwRun s notAuthMsg
  else
    let base := env.apiBaseUrl
    let mockIncluded := !mockResponse.isNullish
    sendRequest s
      { method := "POST", url := base ++ "/api/brands/extract"
      , headers := [("Authorization", bearerOf s), ("Accept", "application/json")]
      , params := [("url", url)] ++ (if mockIncluded then [("mockResponse", mockResponse)] else [])
      , body := some .null } w
      { onResponse := fun r => "Extract brand data failed (" ++ toString r.status ++ "): " ++ dataErrOrStatus r
      , network := "Network Error: Unable to reach API at " ++ base ++ "/api/brands/extract"
      , onTimeout := "Extract brand data request timeout after " ++ toString env.timeoutMs ++ "ms"
      , onOther := fun m => "Extract brand data request failed: " ++ m }
      (fun r => .obj [("success", .bool true), ("data", r.data), ("url", url),
        ("hasMockResponse", .bool mockIncluded), ("timestamp", .str w.now)])

/-- Handler `claimBrand({id})`: auth-checked PUT
`/api/brands/{id}/claim`. -/
def claimBrand (env : Env) (s : Session) (id : Js) (w : World) : HandlerRun :=
  if !id.truthy then throwRun s "Missing required input: id"
  else if !s.cachedToken.truthy then throwRun s notAuthMsg
  else
    let base := env.apiBaseUrl
    sendRequest s
      { method := "PUT", url := base ++ "/api/brands/" ++ encodeURIComponent id.toStr ++ "/claim"
      , headers := [("Authorization", bearerOf s), ("Accept", "application/json")]
      , body := some (.obj []) } w
      { onResponse := fun r => "Claim brand failed (" ++ toString r.status ++ "): " ++ dataErrOrStatus r
      , network := "Network Error: Unable to reach API at " ++ base ++ "/api/brands/" ++ encodeURIComponent id.toStr ++ "/claim"
      , onTimeout := "Claim brand request timeout after " ++ toString env.timeoutMs ++ "ms"
      , onOther := fun m => "Claim brand request failed: " ++ m }
      (fun r => .obj [("success", .bool true), ("data", r.data), ("id", id), ("timestamp", .str w.now)])

/-- Handler `getBrandPerformanceTest()`: GET
`/api/brands/performance-test` with optional bearer header (no auth
check). -/
def getBrandPerformanceTest (env : Env) (s : Session) (w : World) : HandlerRun :=
  let base := env.apiBaseUrl
  sendRequest s
    { method := "GET", url := base ++ "/api/brands/performance-test"
    , headers := (if s.cachedToken.truthy then [("Authorization", bearerOf s)] else []) ++
        [("Accept", "application/json")] } w
    { onResponse := fun r => "Brand performance test failed (" ++ toString r.status ++ "): " ++ dataErrOrStatus r
    , network := "Network Error: Unable to reach API at " ++ base ++ "/api/brands/performance-test"
    , onTimeout := "Brand performance test request timeout after " ++ toString env.timeoutMs ++ "ms"
    , onOther := fun m => "Brand performance test request failed: " ++ m }
    (fun r => .obj [("success", .bool true), ("data", r.data), ("timestamp", .str w.now)])

/-- Handler `getBrandsByCategory({categoryId})`: required-argument check
treats the number `0` as present (`!categoryId && categoryId !== 0`);
auth-checked GET `/api/brands/category/{categoryId}`. -/
def getBrandsByCategory (env : Env) (s : Session) (categoryId : Js) (w : World) : HandlerRun :=
  if !categoryId.truthy && !(jsIsNum categoryId 0) then throwRun s "Missing required input: categoryId"
  else if !s.cachedToken.truthy then throwRun s notAuthMsg
  else
    let base := env.apiBaseUrl
    sendRequest s
      { method := "GET", url := base ++ "/api/brands/category/" ++ encodeURIComponent categoryId.toStr
      , headers := [("Authorization", bearerOf s), ("Accept", "application/json")] } w
      { onResponse := fun r => "Get brands by category failed (" ++ toString r.status ++ "): " ++ dataErrOrStatus r
      , network := "Network Error: Unable to reach API at " ++ base ++ "/api/brands/category/" ++ encodeURIComponent categoryId.toStr
      , onTimeout := "Get brands by category request timeout after " ++ toString env.timeoutMs ++ "ms"
      , onOther := fun m => "Get brands by category request failed: " ++ m }
      (fun r => .obj [("success", .bool true), ("data", r.data), ("categoryId", categoryId), ("timestamp", .str w.now)])

/-- Handler `getBrandsByCategoryAndSubcategory({categoryId,
subCategoryId})`: zero-tolerant required checks; auth-checked GET
`/api/brands/category/{categoryId}/subcategory/{subCategoryId}`. -/
def getBrandsByCategoryAndSubcategory (env : Env) (s : Session) (categoryId subCategoryId : Js) (w : World) : HandlerRun :=
  if !categoryId.truthy && !(jsIsNum categoryId 0) then throwRun s "Missing required input: categoryId"
  else if !subCategoryId.truthy && !(jsIsNum subCategoryId 0) then throwRun s "Missing required input: subCategoryId"
  else if !s.cachedToken.truthy then throwRun s notAuthMsg
  else
    let base := env.apiBaseUrl
    sendRequest s
      { method := "GET", url := base ++ "/api/brands/category/" ++ encodeURIComponent categoryId.toStr ++ "/subcategory/" ++ encodeURIComponent subCategoryId.toStr
      , headers := [("Authorization", bearerOf s), ("Accept", "application/json")] } w
      { onResponse := fun r => "Get brands by category and subcategory failed (" ++ toString r.status ++ "): " ++ dataErrOrStatus r
      , network := "Network Error: Unable to reach API at " ++ base ++ "/api/brands/category/" ++ encodeURIComponent categoryId.toStr ++ "/subcategory/" ++ encodeURIComponent subCategoryId.toStr
      , onTimeout := "Get brands by category and subcategory request timeout after " ++ toString env.timeoutMs ++ "ms"
      , onOther := fun m => "Get brands by category and subcategory request failed: " ++ m }
      (fun r => .obj [("success", .bool true), ("data", r.data), ("categoryId", categoryId), ("subCategoryId", subCategoryId), ("timestamp", .str w.now)])

/-- Handler `getBrandByIdCategoryAndSubcategory({id, categoryId,
subCategoryId})`: zero-tolerant required checks; auth-checked GET
`/api/brands/{id}/category/{categoryId}/subcategory/{subCategoryId}`. -/
def getBrandByIdCategoryAndSubcategory (env : Env) (s : Session) (id categoryId subCategoryId : Js) (w : World) : HandlerRun :=
  if !id.truthy && !(jsIsNum id 0) then throwRun s "Missing required input: id"
  else if !categoryId.truthy && !(jsIsNum categoryId 0) then throwRun s "Missing required input: categoryId"
  else if !subCategoryId.truthy && !(jsIsNum subCategoryId 0) then throwRun s "Missing required input: subCategoryId"
  else if !s.cachedToken.truthy then throwRun s notAuthMsg
  else
    let base := env.apiBaseUrl
    sendRequest s
      { method := "GET", url := base ++ "/api/brands/" ++ encodeURIComponent id.toStr ++ "/category/" ++ encodeURIComponent categoryId.toStr ++ "/subcategory/" ++ encodeURIComponent subCategoryId.toStr
      , headers := [("Authorization", bearerOf s), ("Accept", "application/json")] } w
      { onResponse := fun r => "Get brand by ID, category and subcategory failed (" ++ toString r.status ++ "): " ++ dataErrOrStatus r
      , network := "Network Error: Unable to reach API at " ++ base ++ "/api/brands/" ++ encodeURIComponent id.toStr ++ "/category/" ++ encodeURIComponent categoryId.toStr ++ "/subcategory/" ++ encodeURIComponent subCategoryId.toStr
      , onTimeout := "Get brand by ID, category and subcategory request timeout after " ++ toString env.timeoutMs ++ "ms"
      , onOther := fun m => "Get brand by ID, category and subcategory request failed: " ++ m }
      (fun r => .obj [("success", .bool true), ("data", r.data), ("id", id), ("categoryId", categoryId), ("subCategoryId", subCategoryId), ("timestamp", .str w.now)])

/-- Numeric comparison `v <= k` (modelled for numbers; non-numeric
comparands compare false, as NaN comparisons do). -/
def jsLeNum (v : Js) (k : Int) : Bool :=
  match v with
  | .num n => n ≤ k
  | _ => false

/-- Numeric comparison `v < k` (modelled for numbers). -/
def jsLtNum (v : Js) (k : Int) : Bool :=
  match v with
  | .num n => n < k
  | _ => false

/-- Handler `createRivoApiKey(...)`: auth-checked POST
`/api/v1/api-keys/rivo-create-api?environment=...`. -/
def createRivoApiKey (env : Env) (s : Session)
    (name registeredDomain description prefixArg expiresAt allowedIps allowedDomains rateLimitTier scopes environmentArg : Js)
    (w : World) : HandlerRun :=
  let environment := jsDefault environmentArg (.str "production")
  if !name.truthy || !registeredDomain.truthy then
    throwRun s "Missing required inputs: name and registeredDomain"
  else if !s.cachedToken.truthy then throwRun s notAuthMsg
  else
    let base := env.apiBaseUrl
    let payload := Js.obj ([("name", name), ("registeredDomain", registeredDomain)] ++
      (if description.truthy then [("description", description)] else []) ++
      (if prefixArg.truthy then [("prefix", prefixArg)] else []) ++
      (if expiresAt.truthy then [("expiresAt", expiresAt)] else []) ++
      (if allowedIps.isArray then [("allowedIps", allowedIps)] else []) ++
      (if allowedDomains.isArray then [("allowedDomains", allowedDomains)] else []) ++
      (if rateLimitTier.truthy then [("rateLimitTier", rateLimitTier)] else []) ++
      (if scopes.isArray then [("scopes", scopes)] else []))
    sendRequest s
      { method := "POST"
      , url := base ++ "/api/v1/api-keys/rivo-create-api?environment=" ++ encodeURIComponent environment.toStr
      , headers := [("Authorization", bearerOf s), ("Content-Type", "application/json")]
      , body := some payload } w
      { onResponse := fun r => "Create API Key failed (" ++ toString r.status ++ "): " ++ dataErrOrStatus r
      , network := "Network Error: Unable to reach API at " ++ base ++ "/api/v1/api-keys/rivo-create-api"
      , onTimeout := "Create API Key request timeout after " ++ toString env.timeoutMs ++ "ms"
      , onOther := fun m => "Create API Key request failed: " ++ m }
      (fun r => .obj [("success", .bool true), ("data", r.data), ("timestamp", .str w.now)])

/-- Handler `getRivoApiKeys()`: auth-checked GET `/api/v1/api-keys`. -/
def getRivoApiKeys (env : Env) (s : Session) (w : World) : HandlerRun :=
  if !s.cachedToken.truthy then throwRun s notAuthMsg
  else
    let base := env.apiBaseUrl
    sendRequest s
      { method := "GET", url := base ++ "/api/v1/api-keys"
      , headers := [("Authorization", bearerOf s), ("Accept", "application/json")] } w
      { onResponse := fun r => "Get API Keys failed (" ++ toString r.status ++ "): " ++ dataErrOrStatus r
      , network := "Network Error: Unable to reach API at " ++ base ++ "/api/v1/api-keys"
      , onTimeout := "Get API Keys request timeout after " ++ toString env.timeoutMs ++ "ms"
      , onOther := fun m => "Get API Keys request failed: " ++ m }
      (fun r => .obj [("success", .bool true), ("data", r.data), ("timestamp", .str w.now)])

/-- Handler `updateRivoApiKey({keyId, ...})`: auth-checked PUT
`/api/v1/api-keys/{keyId}`. -/
def updateRivoApiKey (env : Env) (s : Session)
    (keyId name description isActive expiresAt allowedIps allowedDomains rateLimitTier isDefaultKey : Js)
    (w : World) : HandlerRun :=
  if !keyId.truthy then throwRun s "Missing required input: keyId"
  else if !s.cachedToken.truthy then throwRun s notAuthMsg
  else
    let base := env.apiBaseUrl
    let payload := Js.obj (
      (if !name.isUndef then [("name", name)] else []) ++
      (if !description.isUndef then [("description", description)] else []) ++
      (if !isActive.isUndef then [("isActive", isActive)] else []) ++
      (if !expiresAt.isUndef then [("expiresAt", expiresAt)] else []) ++
      (if allowedIps.isArray then [("allowedIps", allowedIps)] else []) ++
      (if allowedDomains.isArray then [("allowedDomains", allowedDomains)] else []) ++
      (if !rateLimitTier.isUndef then [("rateLimitTier", rateLimitTier)] else []) ++
      (if !isDefaultKey.isUndef then [("isDefaultKey", isDefaultKey)] else []))
    sendRequest s
      { method := "PUT", url := base ++ "/api/v1/api-keys/" ++ encodeURIComponent keyId.toStr
      , headers := [("Authorization", bearerOf s), ("Content-Type", "application/json"), ("Accept", "application/json")]
      , body := some payload } w
      { onResponse := fun r => "Update API Key failed (" ++ toString r.status ++ "): " ++ dataErrOrStatus r
      , network := "Network Error: Unable to reach API at " ++ base ++ "/api/v1/api-keys/" ++ keyId.toStr
      , onTimeout := "Update API Key request timeout after " ++ toString env.timeoutMs ++ "ms"
      , onOther := fun m => "Update API Key request failed: " ++ m }
      (fun r => .obj [("success", .bool true), ("data", r.data), ("keyId", keyId), ("timestamp", .str w.now)])

/-- Handler `revokeRivoApiKey({keyId})`: auth-checked PATCH
`/api/v1/api-keys/{keyId}/revoke`. -/
def revokeRivoApiKey (env : Env) (s : Session) (keyId : Js) (w : World) : HandlerRun :=
  if !keyId.truthy then throwRun s "Missing required input: keyId"
  else if !s.cachedToken.truthy then throwRun s notAuthMsg
  else
    let base := env.apiBaseUrl
    sendRequest s
      { method := "PATCH", url := base ++ "/api/v1/api-keys/" ++ encodeURIComponent keyId.toStr ++ "/revoke"
      , headers := [("Authorization", bearerOf s), ("Accept", "application/json")]
      , body := some (.obj []) } w
      { onResponse := fun r => "Revoke API Key failed (" ++ toString r.status ++ "): " ++ dataMsgOrStatus r
      , network := "Network Error: Unable to reach API at " ++ base ++ "/api/v1/api-keys/" ++ keyId.toStr ++ "/revoke"
      , onTimeout := "Revoke API Key request timeout after " ++ toString env.timeoutMs ++ "ms"
      , onOther := fun m => "Revoke API Key request failed: " ++ m }
      (fun r => .obj [("success", .bool true), ("data", r.data), ("keyId", keyId), ("timestamp", .str w.now)])

/-- Handler `deleteRivoApiKey({keyId})`: auth-checked DELETE
`/api/v1/api-keys/{keyId}`. -/
def deleteRivoApiKey (env : Env) (s : Session) (keyId : Js) (w : World) : HandlerRun :=
  if !keyId.truthy then throwRun s "Missing required input: keyId"
  else if !s.cachedToken.truthy then throwRun s notAuthMsg
  else
    let base := env.apiBaseUrl
    sendRequest s
      { method := "DELETE", url := base ++ "/api/v1/api-keys/" ++ encodeURIComponent keyId.toStr
      , headers := [("Authorization", bearerOf s), ("Accept", "application/json")] } w
      { onResponse := fun r => "Delete API Key failed (" ++ toString r.status ++ "): " ++ dataMsgOrStatus r
      , network := "Network Error: Unable to reach API at " ++ base ++ "/api/v1/api-keys/" ++ keyId.toStr
      , onTimeout := "Delete API Key request timeout after " ++ toString env.timeoutMs ++ "ms"
      , onOther := fun m => "Delete API Key request failed: " ++ m }
      (fun r => .obj [("success", .bool true), ("data", r.data), ("keyId", keyId), ("timestamp", .str w.now)])

/-- Handler `regenerateRivoApiKey({keyId})`: auth-checked POST
`/api/v1/api-keys/{keyId}/regenerate`. -/
def regenerateRivoApiKey (env : Env) (s : Session) (keyId : Js) (w : World) : HandlerRun :=
  if !keyId.truthy then throwRun s "Missing required input: keyId"
  else if !s.cachedToken.truthy then throwRun s notAuthMsg
  else
    let base := env.apiBaseUrl
    sendRequest s
      { method := "POST", url := base ++ "/api/v1/api-keys/" ++ encodeURIComponent keyId.toStr ++ "/regenerate"
      , headers := [("Authorization", bearerOf s), ("Accept", "application/json"), ("Content-Type", "application/json")]
      , body := some (.obj []) } w
      { onResponse := fun r => "Regenerate API Key failed (" ++ toString r.status ++ "): " ++ dataErrOrStatus r
      , network := "Network Error: Unable to reach API at " ++ base ++ "/api/v1/api-keys/" ++ keyId.toStr ++ "/regenerate"
      , onTimeout := "Regenerate API Key request timeout after " ++ toString env.timeoutMs ++ "ms"
      , onOther := fun m => "Regenerate API Key request failed: " ++ m }
      (fun r => .obj [("success", .bool true), ("data", r.data), ("keyId", keyId), ("timestamp", .str w.now)])

/-- Handler `getRivoApiKeyById({keyId})`: auth-checked GET
`/api/v1/api-keys/{keyId}`. -/
def getRivoApiKeyById (env : Env) (s : Session) (keyId : Js) (w : World) : HandlerRun :=
  if !keyId.truthy then throwRun s "Missing required input: keyId"
  else if !s.cachedToken.truthy then throwRun s notAuthMsg
  else
    let base := env.apiBaseUrl
    sendRequest s
      { method := "GET", url := base ++ "/api/v1/api-keys/" ++ encodeURIComponent keyId.toStr
      , headers := [("Authorization", bearerOf s), ("Accept", "application/json")] } w
      { onResponse := fun r => "Get API Key by ID failed (" ++ toString r.status ++ "): " ++ dataErrOrStatus r
      , network := "Network Error: Unable to reach API at " ++ base ++ "/api/v1/api-keys/" ++ keyId.toStr
      , onTimeout := "Get API Key by ID request timeout after " ++ toString env.timeoutMs ++ "ms"
      , onOther := fun m => "Get API Key by ID request failed: " ++ m }
      (fun r => .obj [("success", .bool true), ("data", r.data), ("keyId", keyId), ("timestamp", .str w.now)])

/-- Handler `adminGetAllApiKeys()`: auth-checked GET
`/api/admin/api-keys/all`. -/
def adminGetAllApiKeys (env : Env) (s : Session) (w : World) : HandlerRun :=
  if !s.cachedToken.truthy then throwRun s notAuthMsg
  else
    let base := env.apiBaseUrl
    sendRequest s
      { method := "GET", url := base ++ "/api/admin/api-keys/all"
      , headers := [("Authorization", bearerOf s), ("Accept", "application/json")] } w
      { onResponse := fun r => "Admin get all API keys failed (" ++ toString r.status ++ "): " ++ dataErrOrStatus r
      , network := "Network Error: Unable to reach API at " ++ base ++ "/api/admin/api-keys/all"
      , onTimeout := "Admin get all API keys request timeout after " ++ toString env.timeoutMs ++ "ms"
      , onOther := fun m => "Admin get all API keys request failed: " ++ m }
      (fun r => .obj [("success", .bool true), ("data", r.data), ("timestamp", .str w.now)])

/-- Handler `adminGetApiKeysForUser({userId})`: auth-checked GET
`/api/admin/api-keys/user/{userId}`. -/
def adminGetApiKeysForUser (env : Env) (s : Session) (userId : Js) (w : World) : HandlerRun :=
  if !userId.truthy then throwRun s "Missing required input: userId"
  else if !s.cachedToken.truthy then throwRun s notAuthMsg
  else
    let base := env.apiBaseUrl
    sendRequest s
      { method := "GET", url := base ++ "/api/admin/api-keys/user/" ++ encodeURIComponent userId.toStr
      , headers := [("Authorization", bearerOf s), ("Accept", "application/json")] } w
      { onResponse := fun r => "Admin get API keys for user failed (" ++ toString r.status ++ "): " ++ dataErrOrStatus r
      , network := "Network Error: Unable to reach API at " ++ base ++ "/api/admin/api-keys/user/" ++ encodeURIComponent userId.toStr
      , onTimeout := "Admin get API keys for user request timeout after " ++ toString env.timeoutMs ++ "ms"
      , onOther := fun m => "Admin get API keys for user request failed: " ++ m }
      (fun r => .obj [("success", .bool true), ("data", r.data), ("userId", userId), ("timestamp", .str w.now)])

/-- Handler `adminCreateApiKeyForUser({userId, ...})`: auth-checked POST
`/api/admin/api-keys/user/{userId}`. -/
def adminCreateApiKeyForUser (env : Env) (s : Session)
    (userId name registeredDomain description prefixArg expiresAt allowedIps allowedDomains rateLimitTier scopes : Js)
    (w : World) : HandlerRun :=
  if !userId.truthy then throwRun s "Missing required input: userId"
  else if !name.truthy || !registeredDomain.truthy then
    throwRun s "Missing required inputs: name and registeredDomain"
  else if !s.cachedToken.truthy then throwRun s notAuthMsg
  else
    let base := env.apiBaseUrl
    let payload := Js.obj ([("name", name), ("registeredDomain", registeredDomain)] ++
      (if !description.isUndef then [("description", description)] else []) ++
      (if !prefixArg.isUndef then [("prefix", prefixArg)] else []) ++
      (if !expiresAt.isUndef then [("expiresAt", expiresAt)] else []) ++
      (if allowedIps.isArray then [("allowedIps", allowedIps)] else []) ++
      (if allowedDomains.isArray then [("allowedDomains", allowedDomains)] else []) ++
      (if !rateLimitTier.isUndef then [("rateLimitTier", rateLimitTier)] else []) ++
      (if scopes.isArray then [("scopes", scopes)] else []))
    sendRequest s
      { method := "POST", url := base ++ "/api/admin/api-keys/user/" ++ encodeURIComponent userId.toStr
      , headers := [("Authorization", bearerOf s), ("Content-Type", "application/json"), ("Accept", "application/json")]
      , body := some payload } w
      { onResponse := fun r => "Admin create API key for user failed (" ++ toString r.status ++ "): " ++ dataErrOrStatus r
      , network := "Network Error: Unable to reach API at " ++ base ++ "/api/admin/api-keys/user/" ++ encodeURIComponent userId.toStr
      , onTimeout := "Admin create API key for user request timeout after " ++ toString env.timeoutMs ++ "ms"
      , onOther := fun m => "Admin create API key for user request failed: " ++ m }
      (fun r => .obj [("success", .bool true), ("data", r.data), ("userId", userId), ("timestamp", .str w.now)])

/-- Handler `adminRevokeApiKey({keyId})`: auth-checked PATCH
`/api/admin/api-keys/{keyId}/revoke` (response body unused). -/
def adminRevokeApiKey (env : Env) (s : Session) (keyId : Js) (w : World) : HandlerRun :=
  if !keyId.truthy then throwRun s "Missing required input: keyId"
  else if !s.cachedToken.truthy then throwRun s notAuthMsg
  else
    let base := env.apiBaseUrl
    sendRequest s
      { method := "PATCH", url := base ++ "/api/admin/api-keys/" ++ encodeURIComponent keyId.toStr ++ "/revoke"
      , headers := [("Authorization", bearerOf s), ("Accept", "application/json")]
      , body := some .null } w
      { onResponse := fun r => "Admin revoke API key failed (" ++ toString r.status ++ "): " ++ dataErrOrStatus r
      , network := "Network Error: Unable to reach API at " ++ base ++ "/api/admin/api-keys/" ++ encodeURIComponent keyId.toStr ++ "/revoke"
      , onTimeout := "Admin revoke API key request timeout after " ++ toString env.timeoutMs ++ "ms"
      , onOther := fun m => "Admin revoke API key request failed: " ++ m }
      (fun _ => .obj [("success", .bool true), ("keyId", keyId), ("timestamp", .str w.now)])

/-- Handler `adminDeleteApiKey({keyId})`: auth-checked DELETE
`/api/admin/api-keys/{keyId}` (response body unused). -/
def adminDeleteApiKey (env : Env) (s : Session) (keyId : Js) (w : World) : HandlerRun :=
  if !keyId.truthy then throwRun s "Missing required input: keyId"
  else if !s.cachedToken.truthy then throwRun s notAuthMsg
  else
    let base := env.apiBaseUrl
    sendRequest s
      { method := "DELETE", url := base ++ "/api/admin/api-keys/" ++ encodeURIComponent keyId.toStr
      , headers := [("Authorization", bearerOf s), ("Accept", "application/json")] } w
      { onResponse := fun r => "Admin delete API key failed (" ++ toString r.status ++ "): " ++ dataErrOrStatus r
      , network := "Network Error: Unable to reach API at " ++ base ++ "/api/admin/api-keys/" ++ encodeURIComponent keyId.toStr
      , onTimeout := "Admin delete API key request timeout after " ++ toString env.timeoutMs ++ "ms"
      , onOther := fun m => "Admin delete API key request failed: " ++ m }
      (fun _ => .obj [("success", .bool true), ("keyId", keyId), ("timestamp", .str w.now)])

/-- Handler `adminGetApiKeyUsage({keyId})`: auth-checked GET
`/api/admin/api-keys/{keyId}/usage`. -/
def adminGetApiKeyUsage (env : Env) (s : Session) (keyId : Js) (w : World) : HandlerRun :=
  if !keyId.truthy then throwRun s "Missing required input: keyId"
  else if !s.cachedToken.truthy then throwRun s notAuthMsg
  else
    let base := env.apiBaseUrl
    sendRequest s
      { method := "GET", url := base ++ "/api/admin/api-keys/" ++ encodeURIComponent keyId.toStr ++ "/usage"
      , headers := [("Authorization", bearerOf s), ("Accept", "application/json")] } w
      { onResponse := fun r => "Admin get API key usage failed (" ++ toString r.status ++ "): " ++ dataErrOrMsgOrStatus r
      , network := "Network Error: Unable to reach API at " ++ base ++ "/api/admin/api-keys/" ++ encodeURIComponent keyId.toStr ++ "/usage"
      , onTimeout := "Admin get API key usage request timeout after " ++ toString env.timeoutMs ++ "ms"
      , onOther := fun m => "Admin get API key usage request failed: " ++ m }
      (fun r => .obj [("success", .bool true), ("data", r.data), ("keyId", keyId), ("timestamp", .str w.now)])

/-- Handler `adminGetApiKeySystemStats()`: auth-checked GET
`/api/admin/api-keys/stats`. -/
def adminGetApiKeySystemStats (env : Env) (s : Session) (w : World) : HandlerRun :=
  if !s.cachedToken.truthy then throwRun s notAuthMsg
  else
    let base := env.apiBaseUrl
    sendRequest s
      { method := "GET", url := base ++ "/api/admin/api-keys/stats"
      , headers := [("Authorization", bearerOf s), ("Accept", "application/json")] } w
      { onResponse := fun r => "Admin get API key system stats failed (" ++ toString r.status ++ "): " ++ dataErrOrMsgOrStatus r
      , network := "Network Error: Unable to reach API at " ++ base ++ "/api/admin/api-keys/stats"
      , onTimeout := "Admin get API key system stats request timeout after " ++ toString env.timeoutMs ++ "ms"
      , onOther := fun m => "Admin get API key system stats request failed: " ++ m }
      (fun r => .obj [("success", .bool true), ("data", r.data), ("timestamp", .str w.now)])

/-- Handler `adminResetApiKeyRateLimit({keyId})`: auth-checked POST
`/api/admin/api-keys/{keyId}/rate-limit/reset` (response body unused). -/
def adminResetApiKeyRateLimit (env : Env) (s : Session) (keyId : Js) (w : World) : HandlerRun :=
  if !keyId.truthy then throwRun s "Missing required input: keyId"
  else if !s.cachedToken.truthy then throwRun s notAuthMsg
  else
    let base := env.apiBaseUrl
    sendRequest s
      { method := "POST", url := base ++ "/api/admin/api-keys/" ++ encodeURIComponent keyId.toStr ++ "/rate-limit/reset"
      , headers := [("Authorization", bearerOf s), ("Accept", "application/json")]
      , body := some .null } w
      { onResponse := fun r => "Admin reset API key rate limit failed (" ++ toString r.status ++ "): " ++ dataErrOrStatus r
      , network := "Network Error: Unable to reach API at " ++ base ++ "/api/admin/api-keys/" ++ encodeURIComponent keyId.toStr ++ "/rate-limit/reset"
      , onTimeout := "Admin reset API key rate limit request timeout after " ++ toString env.timeoutMs ++ "ms"
      , onOther := fun m => "Admin reset API key rate limit request failed: " ++ m }
      (fun _ => .obj [("success", .bool true), ("keyId", keyId), ("timestamp", .str w.now)])

/-- Handler `adminUpdateApiKeyScopes({keyId, scopes})`: auth-checked PUT
`/api/admin/api-keys/{keyId}/scopes` with array scopes joined by
commas. -/
def adminUpdateApiKeyScopes (env : Env) (s : Session) (keyId scopes : Js) (w : World) : HandlerRun :=
  if !keyId.truthy then throwRun s "Missing required input: keyId"
  else if !scopes.truthy || (scopes.isArray && scopes.elems.length == 0) then
    throwRun s "Missing required input: scopes"
  else if !s.cachedToken.truthy then throwRun s notAuthMsg
  else
    let scopesValue : Js :=
      if scopes.isArray then .str (String.intercalate "," (Js.arrElemStrs scopes.elems)) else scopes
    match scopesValue with
    | .str sv =>
      if sv.trim = "" then throwRun s "Scopes must be a non-empty string or array of strings"
      else
        let base := env.apiBaseUrl
        sendRequest s
          { method := "PUT", url := base ++ "/api/admin/api-keys/" ++ encodeURIComponent keyId.toStr ++ "/scopes"
          , headers := [("Authorization", bearerOf s), ("Content-Type", "application/json"), ("Accept", "application/json")]
          , body := some (.obj [("scopes", .str sv)]) } w
          { onResponse := fun r => "Admin update API key scopes failed (" ++ toString r.status ++ "): " ++ dataErrOrStatus r
          , network := "Network Error: Unable to reach API at " ++ base ++ "/api/admin/api-keys/" ++ encodeURIComponent keyId.toStr ++ "/scopes"
          , onTimeout := "Admin update API key scopes request timeout after " ++ toString env.timeoutMs ++ "ms"
          , onOther := fun m => "Admin update API key scopes request failed: " ++ m }
          (fun r => .obj [("success", .bool true), ("data", r.data), ("keyId", keyId), ("scopes", .str sv), ("timestamp", .str w.now)])
    | _ => throwRun s "Scopes must be a non-empty string or array of strings"

/-- Handler `getAddOnPackages()`: auth-checked GET
`/api/v1/api-keys/addons/packages`. -/
def getAddOnPackages (env : Env) (s : Session) (w : World) : HandlerRun :=
  if !s.cachedToken.truthy then throwRun s notAuthMsg
  else
    let base := env.apiBaseUrl
    sendRequest s
      { method := "GET", url := base ++ "/api/v1/api-keys/addons/packages"
      , headers := [("Authorization", bearerOf s), ("Accept", "application/json")] } w
      { onResponse := fun r => "Get add-on packages failed (" ++ toString r.status ++ "): " ++ dataErrOrMsgOrStatus r
      , network := "Network Error: Unable to reach API at " ++ base ++ "/api/v1/api-keys/addons/packages"
      , onTimeout := "Get add-on packages request timeout after " ++ toString env.timeoutMs ++ "ms"
      , onOther := fun m => "Get add-on packages request failed: " ++ m }
      (fun r => .obj [("success", .bool true), ("data", r.data), ("timestamp", .str w.now)])

/-- Handler `purchaseAddOn({apiKeyId, addOnPackage, ...})`: auth-checked
POST `/api/v1/api-keys/addons/purchase` after numeric and
`ADDON_CUSTOM` validation. -/
def purchaseAddOn (env : Env) (s : Session)
    (apiKeyId addOnPackage durationMonths autoRenew reason customRequests customPrice : Js)
    (w : World) : HandlerRun :=
  if !apiKeyId.truthy || !addOnPackage.truthy then
    throwRun s "Missing required inputs: apiKeyId and addOnPackage"
  else if !s.cachedToken.truthy then throwRun s notAuthMsg
  else if !durationMonths.isUndef && !jsIntGE durationMonths 1 then
    throwRun s "durationMonths must be a positive integer"
  else if jsIsStr addOnPackage "ADDON_CUSTOM" && (customRequests.isNullish || jsLeNum customRequests 0) then
    throwRun s "customRequests must be provided and greater than 0 for ADDON_CUSTOM"
  else if jsIsStr addOnPackage "ADDON_CUSTOM" && (customPrice.isNullish || jsLtNum customPrice 0) then
    throwRun s "customPrice must be provided and non-negative for ADDON_CUSTOM"
  else
    let base := env.apiBaseUrl
    let payload := Js.obj ([("apiKeyId", apiKeyId), ("addOnPackage", addOnPackage)] ++
      (if !durationMonths.isUndef then [("durationMonths", durationMonths)] else []) ++
      (if !autoRenew.isUndef then [("autoRenew", .bool autoRenew.truthy)] else []) ++
      (if !reason.isUndef then [("reason", reason)] else []) ++
      (if !customRequests.isUndef then [("customRequests", customRequests)] else []) ++
      (if !customPrice.isUndef then [("customPrice", customPrice)] else []))
    sendRequest s
      { method := "POST", url := base ++ "/api/v1/api-keys/addons/purchase"
      , headers := [("Authorization", bearerOf s), ("Content-Type", "application/json"), ("Accept", "application/json")]
      , body := some payload } w
      { onResponse := fun r => "Purchase add-on failed (" ++ toString r.status ++ "): " ++ dataErrOrMsgOrStatus r
      , network := "Network Error: Unable to reach API at " ++ base ++ "/api/v1/api-keys/addons/purchase"
      , onTimeout := "Purchase add-on request timeout after " ++ toString env.timeoutMs ++ "ms"
      , onOther := fun m => "Purchase add-on request failed: " ++ m }
      (fun r => .obj [("success", .bool true), ("data", r.data), ("apiKeyId", apiKeyId), ("timestamp", .str w.now)])

/-- Handler `getAddOnsForApiKey({apiKeyId})`: auth-checked GET
`/api/v1/api-keys/addons/{apiKeyId}`. -/
def getAddOnsForApiKey (env : Env) (s : Session) (apiKeyId : Js) (w : World) : HandlerRun :=
  if !apiKeyId.truthy then throwRun s "Missing required input: apiKeyId"
  else if !s.cachedToken.truthy then throwRun s notAuthMsg
  else
    let base := env.apiBaseUrl
    sendRequest s
      { method := "GET", url := base ++ "/api/v1/api-keys/addons/" ++ encodeURIComponent apiKeyId.toStr
      , headers := [("Authorization", bearerOf s), ("Accept", "application/json")] } w
      { onResponse := fun r => "Get add-ons for API key failed (" ++ toString r.status ++ "): " ++ dataErrOrMsgOrStatus r
      , network := "Network Error: Unable to reach API at " ++ base ++ "/api/v1/api-keys/addons/" ++ encodeURIComponent apiKeyId.toStr
      , onTimeout := "Get add-ons for API key request timeout after " ++ toString env.timeoutMs ++ "ms"
      , onOther := fun m => "Get add-ons for API key request failed: " ++ m }
      (fun r => .obj [("success", .bool true), ("data", r.data), ("apiKeyId", apiKeyId), ("timestamp", .str w.now)])

/-- Handler `getActiveAddOnsForApiKey({apiKeyId})`: auth-checked GET
`/api/v1/api-keys/addons/{apiKeyId}/active`. -/
def getActiveAddOnsForApiKey (env : Env) (s : Session) (apiKeyId : Js) (w : World) : HandlerRun :=
  if !apiKeyId.truthy then throwRun s "Missing required input: apiKeyId"
  else if !s.cachedToken.truthy then throwRun s notAuthMsg
  else
    let base := env.apiBaseUrl
    sendRequest s
      { method := "GET", url := base ++ "/api/v1/api-keys/addons/" ++ encodeURIComponent apiKeyId.toStr ++ "/active"
      , headers := [("Authorization", bearerOf s), ("Accept", "application/json")] } w
      { onResponse := fun r => "Get active add-ons for API key failed (" ++ toString r.status ++ "): " ++ dataErrOrMsgOrStatus r
      , network := "Network Error: Unable to reach API at " ++ base ++ "/api/v1/api-keys/addons/" ++ encodeURIComponent apiKeyId.toStr ++ "/active"
      , onTimeout := "Get active add-ons for API key request timeout after " ++ toString env.timeoutMs ++ "ms"
      , onOther := fun m => "Get active add-ons for API key request failed: " ++ m }
      (fun r => .obj [("success", .bool true), ("data", r.data), ("apiKeyId", apiKeyId), ("timestamp", .str w.now)])

/-- Handler `getAddOnRecommendations({apiKeyId, overageRequests})`:
auth-checked GET `/api/v1/api-keys/addons/{apiKeyId}/recommendations`
after `Number(...)` validation. -/
def getAddOnRecommendations (env : Env) (s : Session) (apiKeyId overageRequests : Js) (w : World) : HandlerRun :=
  if !apiKeyId.truthy then throwRun s "Missing required input: apiKeyId"
  else if !s.cachedToken.truthy then throwRun s notAuthMsg
  else
    let overageParsed : Option Int :=
      if overageRequests.isUndef then none else jsToNumberOpt overageRequests
    if !overageRequests.isUndef && (overageParsed.isNone || overageParsed.getD 0 < 0) then
      throwRun s "overageRequests must be a non-negative number if provided"
    else
      let base := env.apiBaseUrl
      let params : List (String × Js) :=
        match overageParsed with
        | some n => [("overageRequests", .num n)]
        | none => []
      sendRequest s
        { method := "GET", url := base ++ "/api/v1/api-keys/addons/" ++ encodeURIComponent apiKeyId.toStr ++ "/recommendations"
        , headers := [("Authorization", bearerOf s), ("Accept", "application/json")]
        , params := params } w
        { onResponse := fun r => "Get add-on recommendations failed (" ++ toString r.status ++ "): " ++ dataErrOrMsgOrStatus r
        , network := "Network Error: Unable to reach API at " ++ base ++ "/api/v1/api-keys/addons/" ++ encodeURIComponent apiKeyId.toStr ++ "/recommendations"
        , onTimeout := "Get add-on recommendations request timeout after " ++ toString env.timeoutMs ++ "ms"
        , onOther := fun m => "Get add-on recommendations request failed: " ++ m }
        (fun r => .obj [("success", .bool true), ("data", r.data), ("apiKeyId", apiKeyId),
          ("overageRequests", match overageParsed with | some n => .num n | none => .num 0), ("timestamp", .str w.now)])

/-- Handler `cancelAddOn({addOnId, reason})`: auth-checked POST
`/api/v1/api-keys/addons/{addOnId}/cancel` with optional `reason`
param. -/
def cancelAddOn (env : Env) (s : Session) (addOnId reason : Js) (w : World) : HandlerRun :=
  if !addOnId.truthy then throwRun s "Missing required input: addOnId"
  else if !s.cachedToken.truthy then throwRun s notAuthMsg
  else
    let base := env.apiBaseUrl
    let reasonIncluded := !reason.isNullish && reason.toStr.trim.length > 0
    sendRequest s
      { method := "POST", url := base ++ "/api/v1/api-keys/addons/" ++ encodeURIComponent addOnId.toStr ++ "/cancel"
      , headers := [("Authorization", bearerOf s), ("Accept", "application/json")]
      , params := if reasonIncluded then [("reason", reason)] else []
      , body := some .null } w
      { onResponse := fun r => "Cancel add-on failed (" ++ toString r.status ++ "): " ++ dataErrOrMsgOrStatus r
      , network := "Network Error: Unable to reach API at " ++ base ++ "/api/v1/api-keys/addons/" ++ encodeURIComponent addOnId.toStr ++ "/cancel"
      , onTimeout := "Cancel add-on request timeout after " ++ toString env.timeoutMs ++ "ms"
      , onOther := fun m => "Cancel add-on request failed: " ++ m }
      (fun r => .obj [("success", .bool true), ("data", r.data), ("addOnId", addOnId),
        ("reason", if reasonIncluded then reason else .null), ("timestamp", .str w.now)])

/-- Handler `renewAddOn({addOnId, durationMonths})`: auth-checked POST
`/api/v1/api-keys/addons/{addOnId}/renew` with optional
`durationMonths` param. -/
def renewAddOn (env : Env) (s : Session) (addOnId durationMonths : Js) (w : World) : HandlerRun :=
  if !addOnId.truthy then throwRun s "Missing required input: addOnId"
  else if !s.cachedToken.truthy then throwRun s notAuthMsg
  else if !durationMonths.isUndef && !jsIntGE durationMonths 1 then
    throwRun s "durationMonths must be a positive integer if provided"
  else
    let base := env.apiBaseUrl
    sendRequest s
      { method := "POST", url := base ++ "/api/v1/api-keys/addons/" ++ encodeURIComponent addOnId.toStr ++ "/renew"
      , headers := [("Authorization", bearerOf s), ("Accept", "application/json")]
      , params := if !durationMonths.isUndef then [("durationMonths", durationMonths)] else []
      , body := some .null } w
      { onResponse := fun r => "Renew add-on failed (" ++ toString r.status ++ "): " ++ dataErrOrMsgOrStatus r
      , network := "Network Error: Unable to reach API at " ++ base ++ "/api/v1/api-keys/addons/" ++ encodeURIComponent addOnId.toStr ++ "/renew"
      , onTimeout := "Renew add-on request timeout after " ++ toString env.timeoutMs ++ "ms"
      , onOther := fun m => "Renew add-on request failed: " ++ m }
      (fun r => .obj [("success", .bool true), ("data", r.data), ("addOnId", addOnId),
        ("durationMonths", if !durationMonths.isUndef then durationMonths else .num 1), ("timestamp", .str w.now)])

/-- Handler `getExpiringAddOns()`: auth-checked GET
`/api/v1/api-keys/addons/expiring`. -/
def getExpiringAddOns (env : Env) (s : Session) (w : World) : HandlerRun :=
  if !s.cachedToken.truthy then throwRun s notAuthMsg
  else
    let base := env.apiBaseUrl
    sendRequest s
      { method := "GET", url := base ++ "/api/v1/api-keys/addons/expiring"
      , headers := [("Authorization", bearerOf s), ("Accept", "application/json")] } w
      { onResponse := fun r => "Get expiring add-ons failed (" ++ toString r.status ++ "): " ++ dataErrOrMsgOrStatus r
      , network := "Network Error: Unable to reach API at " ++ base ++ "/api/v1/api-keys/addons/expiring"
      , onTimeout := "Get expiring add-ons request timeout after " ++ toString env.timeoutMs ++ "ms"
      , onOther := fun m => "Get expiring add-ons request failed: " ++ m }
      (fun r => .obj [("success", .bool true), ("data", r.data), ("timestamp", .str w.now)])

/-- Handler `getNearlyExhaustedAddOns()`: auth-checked GET
`/api/v1/api-keys/addons/nearly-exhausted`. -/
def getNearlyExhaustedAddOns (env : Env) (s : Session) (w : World) : HandlerRun :=
  if !s.cachedToken.truthy then throwRun s notAuthMsg
  else
    let base := env.apiBaseUrl
    sendRequest s
      { method := "GET", url := base ++ "/api/v1/api-keys/addons/nearly-exhausted"
      , headers := [("Authorization", bearerOf s), ("Accept", "application/json")] } w
      { onResponse := fun r => "Get nearly exhausted add-ons failed (" ++ toString r.status ++ "): " ++ dataErrOrMsgOrStatus r
      , network := "Network Error: Unable to reach API at " ++ base ++ "/api/v1/api-keys/addons/nearly-exhausted"
      , onTimeout := "Get nearly exhausted add-ons request timeout after " ++ toString env.timeoutMs ++ "ms"
      , onOther := fun m => "Get nearly exhausted add-ons request failed: " ++ m }
      (fun r => .obj [("success", .bool true), ("data", r.data), ("timestamp", .str w.now)])

/-- Handler `processAutoRenewals()`: auth-checked POST
`/api/v1/api-keys/addons/process-auto-renewals`. -/
def processAutoRenewals (env : Env) (s : Session) (w : World) : HandlerRun :=
  if !s.cachedToken.truthy then throwRun s notAuthMsg
  else
    let base := env.apiBaseUrl
    sendRequest s
      { method := "POST", url := base ++ "/api/v1/api-keys/addons/process-auto-renewals"
      , headers := [("Authorization", bearerOf s), ("Accept", "application/json")]
      , body := some .null } w
      { onResponse := fun r => "Process auto-renewals failed (" ++ toString r.status ++ "): " ++ dataErrOrMsgOrStatus r
      , network := "Network Error: Unable to reach API at " ++ base ++ "/api/v1/api-keys/addons/process-auto-renewals"
      , onTimeout := "Process auto-renewals request timeout after " ++ toString env.timeoutMs ++ "ms"
      , onOther := fun m => "Process auto-renewals request failed: " ++ m }
      (fun r => .obj [("success", .bool true), ("data", r.data), ("timestamp", .str w.now)])

/-- Handler `cleanupExpiredAddOns()`: auth-checked POST
`/api/v1/api-keys/addons/cleanup-expired`. -/
def cleanupExpiredAddOns (env : Env) (s : Session) (w : World) : HandlerRun :=
  if !s.cachedToken.truthy then throwRun s notAuthMsg
  else
    let base := env.apiBaseUrl
    sendRequest s
      { method := "POST", url := base ++ "/api/v1/api-keys/addons/cleanup-expired"
      , headers := [("Authorization", bearerOf s), ("Accept", "application/json")]
      , body := some .null } w
      { onResponse := fun r => "Cleanup expired add-ons failed (" ++ toString r.status ++ "): " ++ dataErrOrMsgOrStatus r
      , network := "Network Error: Unable to reach API at " ++ base ++ "/api/v1/api-keys/addons/cleanup-expired"
      , onTimeout := "Cleanup expired add-ons request timeout after " ++ toString env.timeoutMs ++ "ms"
      , onOther := fun m => "Cleanup expired add-ons request failed: " ++ m }
      (fun r => .obj [("success", .bool true), ("data", r.data), ("timestamp", .str w.now)])

/-- Handler `forwardRequest(url)`: validates `url`, logs the cached
token via `console.error("check the token : ", cachedToken)`, then
POSTs `/forward` with `Authorization: Bearer <cachedToken>`
unconditionally — it performs NO authentication precondition check, so
an anonymous session sends the literal header value `Bearer null`. -/
def forwardRequest (env : Env) (s : Session) (url : Js) (w : World) : HandlerRun :=
  if !url.truthy then throwRun s "Missing required input: url"
  else if !w.urlParses then throwRun s "Invalid URL format provided"
  else
    let base := env.apiBaseUrl
    let logLine := "check the token : " ++ " " ++ s.cachedToken.toStr
    let req : HttpRequest :=
      { method := "POST", url := base ++ "/forward"
      , headers := [("Authorization", bearerOf s), ("Content-Type", "application/json")]
      , body := some (.obj [("url", url)]) }
    match w.outcome with
    | .ok r =>
      { logs := [logLine], requests := [req]
      , result := .ok (.obj [("success", .bool true), ("data", r.data), ("url", url), ("timestamp", .str w.now)])
      , session := s }
    | .err e =>
      { logs := [logLine], requests := [req]
      , result := .error (classifyAxiosErr
          { onResponse := fun r => "API Error (" ++ toString r.status ++ "): " ++ dataMsgOrStatus r
          , network := "Network Error: Unable to reach API at " ++ base
          , onTimeout := "Request timeout after " ++ toString env.timeoutMs ++ "ms"
          , onOther := fun m => "Request failed: " ++ m } e)
      , session := s }

/-- One MCP content block (`{ type: "text", text }`). -/
structure ContentBlock where
  text : String

/-- A call-tool response: content blocks plus the error flag (absent in
the source's success returns, modelled as `false`). -/
structure CallToolResult where
  content : List ContentBlock
  isError : Bool

/-- Full observable outcome of one dispatch: the MCP result, the session
afterwards, the outbound requests and stderr lines, and — for stating
the dispatcher's catch behaviour — the message of the exception the
invoked handler threw, if any. -/
structure DispatchOut where
  result : CallToolResult
  session : Session
  requests : List HttpRequest
  logs : List String
  handlerThrew : Option String

/-- A dispatcher argument-precheck failure (returned before the handler
is invoked). -/
def errOut (s : Session) (msg : String) : DispatchOut :=
  { result := { content := [{ text := msg }], isError := true }
  , session := s, requests := [], logs := [], handlerThrew := none }

/-- Invoke a handler inside a catch whose error text is
`errLead ++ message` (the per-branch `catch` block, or for the two
branches without one, the dispatcher's outer catch). -/
def branchOut (errLead : String) (run : HandlerRun) (okContent : Js → List ContentBlock) : DispatchOut :=
  match run.result with
  | .ok v =>
    { result := { content := okContent v, isError := false }
    , session := run.session, requests := run.requests, logs := run.logs, handlerThrew := none }
  | .error m =>
    { result := { content := [{ text := errLead ++ m }], isError := true }
    , session := run.session, requests := run.requests, logs := run.logs, handlerThrew := some m }

/-- The `RAW_JSON_START`/`RAW_JSON_END` block around
`JSON.stringify(result)`. -/
def rawJsonBlock (v : Js) : ContentBlock :=
  { text := "RAW_JSON_START\n" ++ jsonStringify v ++ "\nRAW_JSON_END" }

/-- A plain text block. -/
def textBlock (t : String) : ContentBlock := { text := t }

/-- `Array.isArray(v) ? v.length : <none>`. -/
def jsArrLenOpt : Js → Option Nat
  | .arr xs => some xs.length
  | _ => none

/-- `v?.length` (arrays and strings have `length`). -/
def jsLenOpt : Js → Option Nat
  | .arr xs => some xs.length
  | .str s => some s.length
  | _ => none

/-- `Array.isArray(v) ? v.length : 0`. -/
def jsArrLenOr0 (v : Js) : Nat := (jsArrLenOpt v).getD 0

/-- Render `${count !== undefined ? pre ++ count ++ post : ""}`. -/
def countSuffix (count : Option Nat) (pre post : String) : String :=
  match count with
  | some c => pre ++ toString c ++ post
  | none => ""

/-- Object spread with one overridden key
(`{...v, k: x}`; an existing key keeps its position). -/
def jsSetField (v : Js) (k : String) (x : Js) : Js :=
  match v with
  | .obj fs =>
    if fs.any (fun f => f.1 == k) then .obj (fs.map (fun f => if f.1 == k then (f.1, x) else f))
    else .obj (fs ++ [(k, x)])
  | other => other

/-- Dispatcher branch for `fetchBrandDetails` (no inner catch: handler
errors reach the outer catch, whose text is `Error executing tool:`). -/
def branch_fetchBrandDetails (env : Env) (s : Session) (args : Js) (w : World) : DispatchOut :=
  let url := (jsOr args (.obj [])).get "url"
  if !url.truthy then errOut s "Error: URL parameter is required"
  else branchOut "Error executing tool: " (fetchBrandDetails env s url w)
    (fun brandData =>
      let d := brandData.get "data"
      let companyName := jsOr (jsOr ((d.get "Company").get "Name") ((d.get "Company").get "Website")) url
      let colors := ((jsOr (d.get "Colors") (.arr [])).elems.map (fun c => c.get "hex")).filter Js.truthy
      let fonts := ((jsOr (d.get "Fonts") (.arr [])).elems.map (fun f => f.get "name")).filter Js.truthy
      let logo := jsOr ((d.get "Logo").get "Logo") (jsOr ((d.get "Logo").get "Icon") .null)
      let summary := "I found the brand identity for " ++ companyName.toStr ++ "."
      let summary := if logo.truthy then summary ++ " Logo available (" ++ logo.toStr ++ ")." else summary
      let summary := if colors.length != 0 then
        summary ++ " Primary colors include " ++ String.intercalate ", " (colors.map Js.toStr) ++ "." else summary
      let summary := if fonts.length != 0 then
        summary ++ " Fonts used: " ++ String.intercalate ", " (fonts.map Js.toStr) ++ "." else summary
      [rawJsonBlock brandData, textBlock summary])

/-- Dispatcher branch for `login` (no inner catch; success content is
the summary line only — the raw JSON block is commented out in the
source). -/
def branch_login (env : Env) (s : Session) (args : Js) (w : World) : DispatchOut :=
  let a := jsOr args (.obj [])
  let username := a.get "username"
  let password := a.get "password"
  let tenantId := a.get "tenantId"
  if !username.truthy || !password.truthy then errOut s "Error: username and password are required"
  else branchOut "Error executing tool: " (authLogin env s username password tenantId w)
    (fun result =>
      let d := jsOr (result.get "data") (.obj [])
      let expirationTime := d.get "expirationTime"
      [textBlock ("Login successful for \x27" ++ username.toStr ++ "\x27. Token expires in " ++
        nullishStr expirationTime "N/A" ++ "s.")])

/-- Dispatcher branch for `refreshToken`. -/
def branch_refreshToken (env : Env) (s : Session) (args : Js) (w : World) : DispatchOut :=
  let refreshToken := (jsOr args (.obj [])).get "refreshToken"
  branchOut "Error refreshing token: " (refreshAuthToken env s refreshToken w)
    (fun result => [rawJsonBlock result, textBlock "Token refreshed successfully."])

/-- Dispatcher branch for `getUserById`. -/
def branch_getUserById (env : Env) (s : Session) (args : Js) (w : World) : DispatchOut :=
  let id := (jsOr args (.obj [])).get "id"
  if !id.truthy then errOut s "Error: id is required"
  else branchOut "Error executing getUserById: " (getUserById env s id w)
    (fun result => [rawJsonBlock result, textBlock ("Retrieved user " ++ id.toStr ++ ".")])

/-- Dispatcher branch for `forward`. -/
def branch_forward (env : Env) (s : Session) (args : Js) (w : World) : DispatchOut :=
  let url := (jsOr args (.obj [])).get "url"
  if !url.truthy then errOut s "Error: url is required"
  else branchOut "Error executing forward: " (forwardRequest env s url w)
    (fun result => [rawJsonBlock result, textBlock ("Forwarded to " ++ url.toStr ++ ".")])

/-- Dispatcher branch for `updateUserProfile`. -/
def branch_updateUserProfile (env : Env) (s : Session) (args : Js) (w : World) : DispatchOut :=
  let a := jsOr args (.obj [])
  let id := a.get "id"
  let firstName := a.get "firstName"
  let surname := a.get "surname"
  let nationalCode := a.get "nationalCode"
  let dob := a.get "dob"
  let educationLevel := a.get "educationLevel"
  let phoneCountry := a.get "phoneCountry"
  let country := a.get "country"
  let city := a.get "city"
  let phoneNumber := a.get "phoneNumber"
  let username := a.get "username"
  let payload := Js.obj (
    (if !id.isUndef then [("id", id)] else []) ++
    (if !firstName.isUndef then [("firstName", firstName)] else []) ++
    (if !surname.isUndef then [("surname", surname)] else []) ++
    (if !nationalCode.isUndef then [("nationalCode", nationalCode)] else []) ++
    (if !dob.isUndef then [("dob", dob)] else []) ++
    (if !educationLevel.isUndef then [("educationLevel", educationLevel)] else []) ++
    (if !phoneCountry.isUndef then [("phoneCountry", phoneCountry)] else []) ++
    (if !country.isUndef then [("country", country)] else []) ++
    (if !city.isUndef then [("city", city)] else []) ++
    (if !phoneNumber.isUndef then [("phoneNumber", phoneNumber)] else []) ++
    (if !username.isUndef then [("username", username)] else []))
  branchOut "Error executing updateUserProfile: " (updateUserProfile env s payload w)
    (fun result => [rawJsonBlock result,
      textBlock ("Profile updated for " ++ nullishStr username (nullishStr id "current user") ++ ".")])

/-- Dispatcher branch for `forgotPassword`. -/
def branch_forgotPassword (env : Env) (s : Session) (args : Js) (w : World) : DispatchOut :=
  let email := (jsOr args (.obj [])).get "email"
  if !email.truthy then errOut s "Error: email is required"
  else branchOut "Error executing forgotPassword: " (forgotPassword env s email w)
    (fun result => [rawJsonBlock result, textBlock ("Forgot-password initiated for " ++ email.toStr ++ ".")])

/-- Dispatcher branch for `resetPassword`. -/
def branch_resetPassword (env : Env) (s : Session) (args : Js) (w : World) : DispatchOut :=
  let a := jsOr args (.obj [])
  let token := a.get "token"
  let newPassword := a.get "newPassword"
  if !token.truthy || !newPassword.truthy then errOut s "Error: token and newPassword are required"
  else branchOut "Error executing resetPassword: " (resetPassword env s token newPassword w)
    (fun result => [rawJsonBlock result, textBlock "Password reset successful."])

/-- Dispatcher branch for `createRivoApiKey`. -/
def branch_createRivoApiKey (env : Env) (s : Session) (args : Js) (w : World) : DispatchOut :=
  let a := jsOr args (.obj [])
  let name := a.get "name"
  let registeredDomain := a.get "registeredDomain"
  if !name.truthy || !registeredDomain.truthy then errOut s "Error: name and registeredDomain are required"
  else branchOut "Error executing createRivoApiKey: "
    (createRivoApiKey env s name registeredDomain (a.get "description") (a.get "prefix")
      (a.get "expiresAt") (a.get "allowedIps") (a.get "allowedDomains") (a.get "rateLimitTier")
      (a.get "scopes") (a.get "environment") w)
    (fun result => [rawJsonBlock result,
      textBlock ("API key created for domain " ++ registeredDomain.toStr ++ ".")])

/-- Dispatcher branch for `adminGetAllApiKeys` (rejects any argument). -/
def branch_adminGetAllApiKeys (env : Env) (s : Session) (args : Js) (w : World) : DispatchOut :=
  if args.truthy && jsKeysLength args > 0 then
    errOut s "Error: adminGetAllApiKeys does not accept any arguments"
  else branchOut "Error executing adminGetAllApiKeys: " (adminGetAllApiKeys env s w)
    (fun result => [rawJsonBlock result,
      textBlock ("Admin retrieved " ++ toString (jsArrLenOr0 (result.get "data")) ++ " API key(s).")])

/-- Dispatcher branch for `adminGetApiKeysForUser`. -/
def branch_adminGetApiKeysForUser (env : Env) (s : Session) (args : Js) (w : World) : DispatchOut :=
  let userId := (jsOr args (.obj [])).get "userId"
  if !userId.truthy then errOut s "Error: userId is required"
  else branchOut "Error executing adminGetApiKeysForUser: " (adminGetApiKeysForUser env s userId w)
    (fun result => [rawJsonBlock result,
      textBlock ("Admin retrieved " ++ toString (jsArrLenOr0 (result.get "data")) ++
        " API key(s) for user " ++ userId.toStr ++ ".")])

/-- Dispatcher branch for `adminCreateApiKeyForUser`. -/
def branch_adminCreateApiKeyForUser (env : Env) (s : Session) (args : Js) (w : World) : DispatchOut :=
  let a := jsOr args (.obj [])
  let userId := a.get "userId"
  let name := a.get "name"
  let registeredDomain := a.get "registeredDomain"
  if !userId.truthy || !name.truthy || !registeredDomain.truthy then
    errOut s "Error: userId, name, and registeredDomain are required"
  else branchOut "Error executing adminCreateApiKeyForUser: "
    (adminCreateApiKeyForUser env s userId name registeredDomain (a.get "description") (a.get "prefix")
      (a.get "expiresAt") (a.get "allowedIps") (a.get "allowedDomains") (a.get "rateLimitTier")
      (a.get "scopes") w)
    (fun result => [rawJsonBlock result,
      textBlock ("Admin created an API key for user " ++ userId.toStr ++ " (" ++ registeredDomain.toStr ++ ").")])

/-- Dispatcher branch for `adminRevokeApiKey`. -/
def branch_adminRevokeApiKey (env : Env) (s : Session) (args : Js) (w : World) : DispatchOut :=
  let keyId := (jsOr args (.obj [])).get "keyId"
  if !keyId.truthy then errOut s "Error: keyId is required"
  else branchOut "Error executing adminRevokeApiKey: " (adminRevokeApiKey env s keyId w)
    (fun result => [rawJsonBlock result, textBlock ("Admin revoked API key " ++ keyId.toStr ++ ".")])

/-- Dispatcher branch for `adminDeleteApiKey`. -/
def branch_adminDeleteApiKey (env : Env) (s : Session) (args : Js) (w : World) : DispatchOut :=
  let keyId := (jsOr args (.obj [])).get "keyId"
  if !keyId.truthy then errOut s "Error: keyId is required"
  else branchOut "Error executing adminDeleteApiKey: " (adminDeleteApiKey env s keyId w)
    (fun result => [rawJsonBlock result, textBlock ("Admin deleted API key " ++ keyId.toStr ++ ".")])

/-- Dispatcher branch for `adminGetApiKeyUsage`. -/
def branch_adminGetApiKeyUsage (env : Env) (s : Session) (args : Js) (w : World) : DispatchOut :=
  let keyId := (jsOr args (.obj [])).get "keyId"
  if !keyId.truthy then errOut s "Error: keyId is required"
  else branchOut "Error executing adminGetApiKeyUsage: " (adminGetApiKeyUsage env s keyId w)
    (fun result => [rawJsonBlock result, textBlock ("Admin retrieved usage for API key " ++ keyId.toStr ++ ".")])

/-- Dispatcher branch for `adminGetApiKeySystemStats` (rejects any
argument). -/
def branch_adminGetApiKeySystemStats (env : Env) (s : Session) (args : Js) (w : World) : DispatchOut :=
  if args.truthy && jsKeysLength args > 0 then
    errOut s "Error: adminGetApiKeySystemStats does not accept any arguments"
  else branchOut "Error executing adminGetApiKeySystemStats: " (adminGetApiKeySystemStats env s w)
    (fun result => [rawJsonBlock result, textBlock "Admin retrieved system-wide API key stats."])

/-- Dispatcher branch for `adminResetApiKeyRateLimit`. -/
def branch_adminResetApiKeyRateLimit (env : Env) (s : Session) (args : Js) (w : World) : DispatchOut :=
  let keyId := (jsOr args (.obj [])).get "keyId"
  if !keyId.truthy then errOut s "Error: keyId is required"
  else branchOut "Error executing adminResetApiKeyRateLimit: " (adminResetApiKeyRateLimit env s keyId w)
    (fun result => [rawJsonBlock result, textBlock ("Admin reset rate limits for API key " ++ keyId.toStr ++ ".")])

/-- Dispatcher branch for `adminUpdateApiKeyScopes`. -/
def branch_adminUpdateApiKeyScopes (env : Env) (s : Session) (args : Js) (w : World) : DispatchOut :=
  let a := jsOr args (.obj [])
  let keyId := a.get "keyId"
  let scopes := a.get "scopes"
  if !keyId.truthy || !scopes.truthy then errOut s "Error: keyId and scopes are required"
  else branchOut "Error executing adminUpdateApiKeyScopes: " (adminUpdateApiKeyScopes env s keyId scopes w)
    (fun result => [rawJsonBlock result, textBlock ("Admin updated scopes for API key " ++ keyId.toStr ++ ".")])

/-- Dispatcher branch for `getAddOnPackages` (rejects any argument). -/
def branch_getAddOnPackages (env : Env) (s : Session) (args : Js) (w : World) : DispatchOut :=
  if args.truthy && jsKeysLength args > 0 then
    errOut s "Error: getAddOnPackages does not accept any arguments"
  else branchOut "Error executing getAddOnPackages: " (getAddOnPackages env s w)
    (fun result => [rawJsonBlock result,
      textBlock ("Retrieved " ++ toString (jsArrLenOr0 (result.get "data")) ++ " add-on package(s).")])

/-- Dispatcher branch for `purchaseAddOn`. -/
def branch_purchaseAddOn (env : Env) (s : Session) (args : Js) (w : World) : DispatchOut :=
  let a := jsOr args (.obj [])
  let apiKeyId := a.get "apiKeyId"
  let addOnPackage := a.get "addOnPackage"
  if !apiKeyId.truthy || !addOnPackage.truthy then errOut s "Error: apiKeyId and addOnPackage are required"
  else branchOut "Error executing purchaseAddOn: "
    (purchaseAddOn env s apiKeyId addOnPackage (a.get "durationMonths") (a.get "autoRenew")
      (a.get "reason") (a.get "customRequests") (a.get "customPrice") w)
    (fun result => [rawJsonBlock result,
      textBlock ("Purchased " ++ addOnPackage.toStr ++ " for API key " ++ apiKeyId.toStr ++ ".")])

/-- Dispatcher branch for `getAddOnsForApiKey`. -/
def branch_getAddOnsForApiKey (env : Env) (s : Session) (args : Js) (w : World) : DispatchOut :=
  let apiKeyId := (jsOr args (.obj [])).get "apiKeyId"
  if !apiKeyId.truthy then errOut s "Error: apiKeyId is required"
  else branchOut "Error executing getAddOnsForApiKey: " (getAddOnsForApiKey env s apiKeyId w)
    (fun result => [rawJsonBlock result,
      textBlock ("Retrieved " ++ toString (jsArrLenOr0 (result.get "data")) ++
        " add-on(s) for API key " ++ apiKeyId.toStr ++ ".")])

/-- Dispatcher branch for `getActiveAddOnsForApiKey`. -/
def branch_getActiveAddOnsForApiKey (env : Env) (s : Session) (args : Js) (w : World) : DispatchOut :=
  let apiKeyId := (jsOr args (.obj [])).get "apiKeyId"
  if !apiKeyId.truthy then errOut s "Error: apiKeyId is required"
  else branchOut "Error executing getActiveAddOnsForApiKey: " (getActiveAddOnsForApiKey env s apiKeyId w)
    (fun result => [rawJsonBlock result,
      textBlock ("Retrieved " ++ toString (jsArrLenOr0 (result.get "data")) ++
        " active add-on(s) for API key " ++ apiKeyId.toStr ++ ".")])

/-- Dispatcher branch for `getAddOnRecommendations`. -/
def branch_getAddOnRecommendations (env : Env) (s : Session) (args : Js) (w : World) : DispatchOut :=
  let a := jsOr args (.obj [])
  let apiKeyId := a.get "apiKeyId"
  if !apiKeyId.truthy then errOut s "Error: apiKeyId is required"
  else branchOut "Error executing getAddOnRecommendations: "
    (getAddOnRecommendations env s apiKeyId (a.get "overageRequests") w)
    (fun result => [rawJsonBlock result,
      textBlock ("Generated add-on recommendations for API key " ++ apiKeyId.toStr ++ ".")])

/-- Dispatcher branch for `cancelAddOn`. -/
def branch_cancelAddOn (env : Env) (s : Session) (args : Js) (w : World) : DispatchOut :=
  let a := jsOr args (.obj [])
  let addOnId := a.get "addOnId"
  if !addOnId.truthy then errOut s "Error: addOnId is required"
  else branchOut "Error executing cancelAddOn: " (cancelAddOn env s addOnId (a.get "reason") w)
    (fun result => [rawJsonBlock result, textBlock ("Cancelled add-on " ++ addOnId.toStr ++ ".")])

/-- Dispatcher branch for `renewAddOn`. -/
def branch_renewAddOn (env : Env) (s : Session) (args : Js) (w : World) : DispatchOut :=
  let a := jsOr args (.obj [])
  let addOnId := a.get "addOnId"
  let durationMonths := a.get "durationMonths"
  if !addOnId.truthy then errOut s "Error: addOnId is required"
  else branchOut "Error executing renewAddOn: " (renewAddOn env s addOnId durationMonths w)
    (fun result => [rawJsonBlock result,
      textBlock ("Renewed add-on " ++ addOnId.toStr ++
        (if durationMonths.truthy then " for " ++ durationMonths.toStr ++ " month(s)" else "") ++ ".")])

/-- Dispatcher branch for `getExpiringAddOns` (rejects any argument). -/
def branch_getExpiringAddOns (env : Env) (s : Session) (args : Js) (w : World) : DispatchOut :=
  if args.truthy && jsKeysLength args > 0 then
    errOut s "Error: getExpiringAddOns does not accept any arguments"
  else branchOut "Error executing getExpiringAddOns: " (getExpiringAddOns env s w)
    (fun result => [rawJsonBlock result,
      textBlock ("Retrieved " ++ toString (jsArrLenOr0 (result.get "data")) ++ " expiring add-on(s).")])

/-- Dispatcher branch for `getNearlyExhaustedAddOns` (rejects any
argument). -/
def branch_getNearlyExhaustedAddOns (env : Env) (s : Session) (args : Js) (w : World) : DispatchOut :=
  if args.truthy && jsKeysLength args > 0 then
    errOut s "Error: getNearlyExhaustedAddOns does not accept any arguments"
  else branchOut "Error executing getNearlyExhaustedAddOns: " (getNearlyExhaustedAddOns env s w)
    (fun result => [rawJsonBlock result,
      textBlock ("Retrieved " ++ toString (jsArrLenOr0 (result.get "data")) ++ " nearly exhausted add-on(s).")])

/-- Dispatcher branch for `processAutoRenewals` (rejects any
argument). -/
def branch_processAutoRenewals (env : Env) (s : Session) (args : Js) (w : World) : DispatchOut :=
  if args.truthy && jsKeysLength args > 0 then
    errOut s "Error: processAutoRenewals does not accept any arguments"
  else branchOut "Error executing processAutoRenewals: " (processAutoRenewals env s w)
    (fun result => [rawJsonBlock result, textBlock "Processed add-on auto-renewals."])

/-- Dispatcher branch for `cleanupExpiredAddOns` (rejects any
argument). -/
def branch_cleanupExpiredAddOns (env : Env) (s : Session) (args : Js) (w : World) : DispatchOut :=
  if args.truthy && jsKeysLength args > 0 then
    errOut s "Error: cleanupExpiredAddOns does not accept any arguments"
  else branchOut "Error executing cleanupExpiredAddOns: " (cleanupExpiredAddOns env s w)
    (fun result => [rawJsonBlock result, textBlock "Cleaned up expired add-ons."])

/-- Dispatcher branch for `getRivoApiKeys` (no precheck). -/
def branch_getRivoApiKeys (env : Env) (s : Session) (w : World) : DispatchOut :=
  branchOut "Error executing getRivoApiKeys: " (getRivoApiKeys env s w)
    (fun result => [rawJsonBlock result,
      textBlock ("Retrieved " ++ toString (jsArrLenOr0 (result.get "data")) ++ " API key(s).")])

/-- Dispatcher branch for `getBrandsPaged` (no precheck). -/
def branch_getBrandsPaged (env : Env) (s : Session) (args : Js) (w : World) : DispatchOut :=
  let a := jsOr args (.obj [])
  let page := a.get "page"
  let size := a.get "size"
  branchOut "Error executing getBrandsPaged: " (getBrandsPaged env s page size w)
    (fun result =>
      let d := result.get "data"
      let total := jsNullish (d.get "totalElements") (jsNullish (d.get "total") .undefined)
      let count : Option Nat :=
        if (d.get "content").truthy then jsArrLenOpt (d.get "content")
        else jsArrLenOpt (d.get "data")
      [rawJsonBlock result,
       textBlock ("Retrieved brands page=" ++ nullishStr page "0" ++ ", size=" ++ nullishStr size "20" ++
         countSuffix count ", count=" "" ++
         (if !total.isUndef then ", total=" ++ total.toStr else "") ++ ".")])

/-- Dispatcher branch for `getRivoApiKeyById`. -/
def branch_getRivoApiKeyById (env : Env) (s : Session) (args : Js) (w : World) : DispatchOut :=
  let keyId := (jsOr args (.obj [])).get "keyId"
  if !keyId.truthy then errOut s "Error: keyId is required"
  else branchOut "Error executing getRivoApiKeyById: " (getRivoApiKeyById env s keyId w)
    (fun result => [rawJsonBlock result, textBlock ("Retrieved API key " ++ keyId.toStr ++ ".")])

/-- Dispatcher branch for `updateRivoApiKey`. -/
def branch_updateRivoApiKey (env : Env) (s : Session) (args : Js) (w : World) : DispatchOut :=
  let a := jsOr args (.obj [])
  let keyId := a.get "keyId"
  if !keyId.truthy then errOut s "Error: keyId is required"
  else branchOut "Error executing updateRivoApiKey: "
    (updateRivoApiKey env s keyId (a.get "name") (a.get "description") (a.get "isActive")
      (a.get "expiresAt") (a.get "allowedIps") (a.get "allowedDomains") (a.get "rateLimitTier")
      (a.get "isDefaultKey") w)
    (fun result => [rawJsonBlock result, textBlock ("Updated API key " ++ keyId.toStr ++ ".")])

/-- Dispatcher branch for `revokeRivoApiKey`. -/
def branch_revokeRivoApiKey (env : Env) (s : Session) (args : Js) (w : World) : DispatchOut :=
  let keyId := (jsOr args (.obj [])).get "keyId"
  if !keyId.truthy then errOut s "Error: keyId is required"
  else branchOut "Error executing revokeRivoApiKey: " (revokeRivoApiKey env s keyId w)
    (fun result => [rawJsonBlock result, textBlock ("Revoked API key " ++ keyId.toStr ++ ".")])

/-- Dispatcher branch for `regenerateRivoApiKey`. -/
def branch_regenerateRivoApiKey (env : Env) (s : Session) (args : Js) (w : World) : DispatchOut :=
  let keyId := (jsOr args (.obj [])).get "keyId"
  if !keyId.truthy then errOut s "Error: keyId is required"
  else branchOut "Error executing regenerateRivoApiKey: " (regenerateRivoApiKey env s keyId w)
    (fun result => [rawJsonBlock result, textBlock ("Regenerated API key " ++ keyId.toStr ++ ".")])

/-- Dispatcher branch for `deleteRivoApiKey`. -/
def branch_deleteRivoApiKey (env : Env) (s : Session) (args : Js) (w : World) : DispatchOut :=
  let keyId := (jsOr args (.obj [])).get "keyId"
  if !keyId.truthy then errOut s "Error: keyId is required"
  else branchOut "Error executing deleteRivoApiKey: " (deleteRivoApiKey env s keyId w)
    (fun result => [rawJsonBlock result, textBlock ("Deleted API key " ++ keyId.toStr ++ ".")])

/-- Dispatcher branch for `getBrandDetailsById`. -/
def branch_getBrandDetailsById (env : Env) (s : Session) (args : Js) (w : World) : DispatchOut :=
  let id := (jsOr args (.obj [])).get "id"
  if !id.truthy then errOut s "Error: id is required"
  else branchOut "Error executing getBrandDetailsById: " (getBrandDetailsById env s id w)
    (fun result => [rawJsonBlock result, textBlock ("Retrieved brand " ++ id.toStr ++ ".")])

/-- Dispatcher branch for `getBrandByWebsite`. -/
def branch_getBrandByWebsite (env : Env) (s : Session) (args : Js) (w : World) : DispatchOut :=
  let website := (jsOr args (.obj [])).get "website"
  if !website.truthy then errOut s "Error: website is required"
  else branchOut "Error executing getBrandByWebsite: " (getBrandByWebsite env s website w)
    (fun result => [rawJsonBlock result, textBlock ("Fetched brand data for website " ++ website.toStr ++ ".")])

/-- Dispatcher branch for `getBrandByName`. -/
def branch_getBrandByName (env : Env) (s : Session) (args : Js) (w : World) : DispatchOut :=
  let name := (jsOr args (.obj [])).get "name"
  if !name.truthy then errOut s "Error: name is required"
  else branchOut "Error executing getBrandByName: " (getBrandByName env s name w)
    (fun result => [rawJsonBlock result,
      textBlock ("Fetched brand data for name \x27" ++ name.toStr ++ "\x27.")])

/-- Dispatcher branch for `searchBrands`. -/
def branch_searchBrands (env : Env) (s : Session) (args : Js) (w : World) : DispatchOut :=
  let a := jsOr args (.obj [])
  let q := a.get "q"
  if !q.truthy then errOut s "Error: q is required"
  else branchOut "Error executing searchBrands: " (searchBrands env s q (a.get "page") (a.get "size") w)
    (fun result =>
      let content := (result.get "data").get "content"
      let count : Option Nat := if content.truthy then jsLenOpt content else none
      [rawJsonBlock result,
       textBlock ("Searched brands for \x27" ++ q.toStr ++ "\x27" ++
         countSuffix count ", returned " "" ++ ".")])

/-- Dispatcher branch for `getBrandsByDomain`. -/
def branch_getBrandsByDomain (env : Env) (s : Session) (args : Js) (w : World) : DispatchOut :=
  let domain := (jsOr args (.obj [])).get "domain"
  if !domain.truthy then errOut s "Error: domain is required"
  else branchOut "Error executing getBrandsByDomain: " (getBrandsByDomain env s domain w)
    (fun result =>
      let count := jsArrLenOpt (result.get "data")
      [rawJsonBlock result,
       textBlock ("Retrieved brands containing domain \x27" ++ domain.toStr ++ "\x27" ++
         countSuffix count " (" " match(es))" ++ ".")])

/-- Dispatcher branch for `getBrandStatistics` (no precheck). -/
def branch_getBrandStatistics (env : Env) (s : Session) (w : World) : DispatchOut :=
  branchOut "Error executing getBrandStatistics: " (getBrandStatistics env s w)
    (fun result => [rawJsonBlock result, textBlock "Retrieved brand statistics."])

/-- Dispatcher branch for `getBrandDashboardSummary` (no precheck). -/
def branch_getBrandDashboardSummary (env : Env) (s : Session) (w : World) : DispatchOut :=
  branchOut "Error executing getBrandDashboardSummary: " (getBrandDashboardSummary env s w)
    (fun result => [rawJsonBlock result, textBlock "Retrieved dashboard summary metrics."])

/-- Dispatcher branch for `getBrandDashboardSearches` (no precheck). -/
def branch_getBrandDashboardSearches (env : Env) (s : Session) (args : Js) (w : World) : DispatchOut :=
  let a := jsOr args (.obj [])
  branchOut "Error executing getBrandDashboardSearches: "
    (getBrandDashboardSearches env s (a.get "search") (a.get "status") (a.get "page") (a.get "size") w)
    (fun result =>
      let d := result.get "data"
      let count : Option Nat := (jsLenOpt (d.get "brands")).orElse (fun _ => jsLenOpt (d.get "recentDomains"))
      [rawJsonBlock result,
       textBlock ("Retrieved dashboard searches" ++ countSuffix count " (" " items)" ++ ".")])

/-- Dispatcher branch for `getBrandDashboardDetails`. -/
def branch_getBrandDashboardDetails (env : Env) (s : Session) (args : Js) (w : World) : DispatchOut :=
  let brandId := (jsOr args (.obj [])).get "brandId"
  if !brandId.truthy then errOut s "Error: brandId is required"
  else branchOut "Error executing getBrandDashboardDetails: " (getBrandDashboardDetails env s brandId w)
    (fun result =>
      let companyName := jsNullish (((result.get "data").get "Company").get "Name") brandId
      [rawJsonBlock result,
       textBlock ("Retrieved dashboard details for brand " ++ companyName.toStr ++ ".")])

/-- Dispatcher branch for `getAllBrandsWithSearch` (no precheck). -/
def branch_getAllBrandsWithSearch (env : Env) (s : Session) (args : Js) (w : World) : DispatchOut :=
  let a := jsOr args (.obj [])
  branchOut "Error executing getAllBrandsWithSearch: "
    (getAllBrandsWithSearch env s (a.get "search") (a.get "paginated") (a.get "page") (a.get "size") w)
    (fun result =>
      let d := result.get "data"
      let count : Js := if (d.get "data").isArray then .num (jsArrLenOr0 (d.get "data")) else d.get "count"
      [rawJsonBlock result,
       textBlock ("Retrieved brands" ++
         (if !count.isUndef then " (" ++ count.toStr ++ " item(s))" else "") ++ " using /api/brands/all.")])

/-- Dispatcher branch for `getAllBrandsLegacy` (no precheck). -/
def branch_getAllBrandsLegacy (env : Env) (s : Session) (args : Js) (w : World) : DispatchOut :=
  let a := jsOr args (.obj [])
  branchOut "Error executing getAllBrandsLegacy: "
    (getAllBrandsLegacy env s (a.get "paginated") (a.get "page") (a.get "size") w)
    (fun result =>
      let d := result.get "data"
      let count : Js := if (d.get "data").isArray then .num (jsArrLenOr0 (d.get "data")) else d.get "count"
      [rawJsonBlock result,
       textBlock ("Retrieved brands via legacy endpoint" ++
         (if !count.isUndef then " (" ++ count.toStr ++ " item(s))" else "") ++ ".")])

/-- Dispatcher branch for `serveBrandAsset`: on success, three blocks —
the raw JSON of the result with `dataBase64` overridden to `undefined`
(hence omitted by `JSON.stringify`), a summary naming the content type,
and the `BASE64_START`/`BASE64_END` payload block. -/
def branch_serveBrandAsset (env : Env) (s : Session) (args : Js) (w : World) : DispatchOut :=
  let assetId := (jsOr args (.obj [])).get "assetId"
  if !assetId.truthy then errOut s "Error: assetId is required"
  else branchOut "Error executing serveBrandAsset: " (serveBrandAsset env s assetId w)
    (fun result =>
      [rawJsonBlock (jsSetField result "dataBase64" .undefined),
       textBlock ("Downloaded brand asset " ++ assetId.toStr ++ " (content-type: " ++
         (result.get "contentType").toStr ++ ")."),
       textBlock ("BASE64_START\n" ++ (result.get "dataBase64").toStr ++ "\nBASE64_END")])

/-- Dispatcher branch for `serveBrandImage` (same three-block shape). -/
def branch_serveBrandImage (env : Env) (s : Session) (args : Js) (w : World) : DispatchOut :=
  let imageId := (jsOr args (.obj [])).get "imageId"
  if !imageId.truthy then errOut s "Error: imageId is required"
  else branchOut "Error executing serveBrandImage: " (serveBrandImage env s imageId w)
    (fun result =>
      [rawJsonBlock (jsSetField result "dataBase64" .undefined),
       textBlock ("Downloaded brand image " ++ imageId.toStr ++ " (content-type: " ++
         (result.get "contentType").toStr ++ ")."),
       textBlock ("BASE64_START\n" ++ (result.get "dataBase64").toStr ++ "\nBASE64_END")])

/-- Dispatcher branch for `extractBrandData`. -/
def branch_extractBrandData (env : Env) (s : Session) (args : Js) (w : World) : DispatchOut :=
  let a := jsOr args (.obj [])
  let url := a.get "url"
  if !url.truthy then errOut s "Error: url is required"
  else branchOut "Error executing extractBrandData: " (extractBrandData env s url (a.get "mockResponse") w)
    (fun result => [rawJsonBlock result, textBlock ("Triggered brand extraction for " ++ url.toStr ++ ".")])

/-- Dispatcher branch for `claimBrand`. -/
def branch_claimBrand (env : Env) (s : Session) (args : Js) (w : World) : DispatchOut :=
  let id := (jsOr args (.obj [])).get "id"
  if !id.truthy then errOut s "Error: id is required"
  else branchOut "Error executing claimBrand: " (claimBrand env s id w)
    (fun result => [rawJsonBlock result, textBlock ("Claimed brand " ++ id.toStr ++ ".")])

/-- Dispatcher branch for `getBrandPerformanceTest` (no precheck). -/
def branch_getBrandPerformanceTest (env : Env) (s : Session) (w : World) : DispatchOut :=
  branchOut "Error executing getBrandPerformanceTest: " (getBrandPerformanceTest env s w)
    (fun result => [rawJsonBlock result, textBlock "Retrieved brand performance comparison metrics."])

/-- Dispatcher branch for `getBrandsByCategory`: the presence precheck
is `categoryId === undefined || categoryId === null`, so the number `0`
passes. -/
def branch_getBrandsByCategory (env : Env) (s : Session) (args : Js) (w : World) : DispatchOut :=
  let categoryId := (jsOr args (.obj [])).get "categoryId"
  if categoryId.isNullish then errOut s "Error: categoryId is required"
  else branchOut "Error executing getBrandsByCategory: " (getBrandsByCategory env s categoryId w)
    (fun result =>
      let d := result.get "data"
      let count : Option Nat :=
        if (d.get "data").isArray then jsArrLenOpt (d.get "data")
        else if d.isArray then jsArrLenOpt d
        else none
      [rawJsonBlock result,
       textBlock ("Retrieved brands for category " ++ categoryId.toStr ++
         countSuffix count " (" " item(s))" ++ ".")])

/-- Dispatcher branch for `getBrandsByCategoryAndSubcategory`
(nullish-only prechecks). -/
def branch_getBrandsByCategoryAndSubcategory (env : Env) (s : Session) (args : Js) (w : World) : DispatchOut :=
  let a := jsOr args (.obj [])
  let categoryId := a.get "categoryId"
  let subCategoryId := a.get "subCategoryId"
  if categoryId.isNullish || subCategoryId.isNullish then
    errOut s "Error: categoryId and subCategoryId are required"
  else branchOut "Error executing getBrandsByCategoryAndSubcategory: "
    (getBrandsByCategoryAndSubcategory env s categoryId subCategoryId w)
    (fun result =>
      let d := result.get "data"
      let count : Option Nat :=
        if (d.get "data").isArray then jsArrLenOpt (d.get "data")
        else if d.isArray then jsArrLenOpt d
        else none
      [rawJsonBlock result,
       textBlock ("Retrieved brands for category " ++ categoryId.toStr ++ " & subcategory " ++
         subCategoryId.toStr ++ countSuffix count " (" " item(s))" ++ ".")])

/-- Dispatcher branch for `getBrandByIdCategoryAndSubcategory`
(nullish-only prechecks on `id` and `categoryId`). -/
def branch_getBrandByIdCategoryAndSubcategory (env : Env) (s : Session) (args : Js) (w : World) : DispatchOut :=
  let a := jsOr args (.obj [])
  let id := a.get "id"
  let categoryId := a.get "categoryId"
  let subCategoryId := a.get "subCategoryId"
  if id.isNullish || categoryId.isNullish then errOut s "Error: id and categoryId are required"
  else branchOut "Error executing getBrandByIdCategoryAndSubcategory: "
    (getBrandByIdCategoryAndSubcategory env s id categoryId subCategoryId w)
    (fun result => [rawJsonBlock result,
      textBlock ("Retrieved brand " ++ id.toStr ++ " for category " ++ categoryId.toStr ++
        (if !subCategoryId.isNullish then " & subcategory " ++ subCategoryId.toStr else "") ++ ".")])

/-- The unknown-tool error text of the dispatcher's final else branch.
It enumerates 35 tool names; the nine admin API-key tools and the eleven
add-on tools, though dispatchable and advertised by ListTools, are
missing from it. -/
def unknownToolText (name : String) : String :=
  "Error: Unknown tool \x27" ++ name ++ "\x27. Available tools: fetchBrandDetails, login, refreshToken, forward, updateUserProfile, forgotPassword, getUserById, getBrandsPaged, resetPassword, createRivoApiKey, getRivoApiKeys, getRivoApiKeyById, updateRivoApiKey, revokeRivoApiKey, regenerateRivoApiKey, deleteRivoApiKey, getBrandDetailsById, getBrandByWebsite, getBrandByName, searchBrands, getBrandsByDomain, getBrandStatistics, getBrandDashboardSummary, getBrandDashboardSearches, getBrandDashboardDetails, getAllBrandsWithSearch, getAllBrandsLegacy, serveBrandAsset, serveBrandImage, extractBrandData, claimBrand, getBrandPerformanceTest, getBrandsByCategory, getBrandsByCategoryAndSubcategory, getBrandByIdCategoryAndSubcategory"

/-- The dispatcher's unknown-tool result. -/
def unknownToolOut (s : Session) (name : String) : DispatchOut :=
  { result := { content := [{ text := unknownToolText name }], isError := true }
  , session := s, requests := [], logs := [], handlerThrew := none }

/-- The `CallToolRequestSchema` handler of the stdio variant: an
if/else-if chain over the tool name, each branch transcribed above, with
the final else producing the unknown-tool error result.  The function is
total: the outer `try/catch` (which renders any stray exception as
`Error executing tool: ...`) is reflected in the two branches without an
inner catch using that error lead. -/
def callTool (env : Env) (s : Session) (name : String) (args : Js) (w : World) : DispatchOut :=
  if name = "fetchBrandDetails" then branch_fetchBrandDetails env s args w
  else if name = "login" then branch_login env s args w
  else if name = "refreshToken" then branch_refreshToken env s args w
  else if name = "getUserById" then branch_getUserById env s args w
  else if name = "forward" then branch_forward env s args w
  else if name = "updateUserProfile" then branch_updateUserProfile env s args w
  else if name = "forgotPassword" then branch_forgotPassword env s args w
  else if name = "resetPassword" then branch_resetPassword env s args w
  else if name = "createRivoApiKey" then branch_createRivoApiKey env s args w
  else if name = "adminGetAllApiKeys" then branch_adminGetAllApiKeys env s args w
  else if name = "adminGetApiKeysForUser" then branch_adminGetApiKeysForUser env s args w
  else if name = "adminCreateApiKeyForUser" then branch_adminCreateApiKeyForUser env s args w
  else if name = "adminRevokeApiKey" then branch_adminRevokeApiKey env s args w
  else if name = "adminDeleteApiKey" then branch_adminDeleteApiKey env s args w
  else if name = "adminGetApiKeyUsage" then branch_adminGetApiKeyUsage env s args w
  else if name = "adminGetApiKeySystemStats" then branch_adminGetApiKeySystemStats env s args w
  else if name = "adminResetApiKeyRateLimit" then branch_adminResetApiKeyRateLimit env s args w
  else if name = "adminUpdateApiKeyScopes" then branch_adminUpdateApiKeyScopes env s args w
  else if name = "getAddOnPackages" then branch_getAddOnPackages env s args w
  else if name = "purchaseAddOn" then branch_purchaseAddOn env s args w
  else if name = "getAddOnsForApiKey" then branch_getAddOnsForApiKey env s args w
  else if name = "getActiveAddOnsForApiKey" then branch_getActiveAddOnsForApiKey env s args w
  else if name = "getAddOnRecommendations" then branch_getAddOnRecommendations env s args w
  else if name = "cancelAddOn" then branch_cancelAddOn env s args w
  else if name = "renewAddOn" then branch_renewAddOn env s args w
  else if name = "getExpiringAddOns" then branch_getExpiringAddOns env s args w
  else if name = "getNearlyExhaustedAddOns" then branch_getNearlyExhaustedAddOns env s args w
  else if name = "processAutoRenewals" then branch_processAutoRenewals env s args w
  else if name = "cleanupExpiredAddOns" then branch_cleanupExpiredAddOns env s args w
  else if name = "getRivoApiKeys" then branch_getRivoApiKeys env s w
  else if name = "getBrandsPaged" then branch_getBrandsPaged env s args w
  else if name = "getRivoApiKeyById" then branch_getRivoApiKeyById env s args w
  else if name = "updateRivoApiKey" then branch_updateRivoApiKey env s args w
  else if name = "revokeRivoApiKey" then branch_revokeRivoApiKey env s args w
  else if name = "regenerateRivoApiKey" then branch_regenerateRivoApiKey env s args w
  else if name = "deleteRivoApiKey" then branch_deleteRivoApiKey env s args w
  else if name = "getBrandDetailsById" then branch_getBrandDetailsById env s args w
  else if name = "getBrandByWebsite" then branch_getBrandByWebsite env s args w
  else if name = "getBrandByName" then branch_getBrandByName env s args w
  else if name = "searchBrands" then branch_searchBrands env s args w
  else if name = "getBrandsByDomain" then branch_getBrandsByDomain env s args w
  else if name = "getBrandStatistics" then branch_getBrandStatistics env s w
  else if name = "getBrandDashboardSummary" then branch_getBrandDashboardSummary env s w
  else if name = "getBrandDashboardSearches" then branch_getBrandDashboardSearches env s args w
  else if name = "getBrandDashboardDetails" then branch_getBrandDashboardDetails env s args w
  else if name = "getAllBrandsWithSearch" then branch_getAllBrandsWithSearch env s args w
  else if name = "getAllBrandsLegacy" then branch_getAllBrandsLegacy env s args w
  else if name = "serveBrandAsset" then branch_serveBrandAsset env s args w
  else if name = "serveBrandImage" then branch_serveBrandImage env s args w
  else if name = "extractBrandData" then branch_extractBrandData env s args w
  else if name = "claimBrand" then branch_claimBrand env s args w
  else if name = "getBrandPerformanceTest" then branch_getBrandPerformanceTest env s w
  else if name = "getBrandsByCategory" then branch_getBrandsByCategory env s args w
  else if name = "getBrandsByCategoryAndSubcategory" then branch_getBrandsByCategoryAndSubcategory env s args w
  else if name = "getBrandByIdCategoryAndSubcategory" then branch_getBrandByIdCategoryAndSubcategory env s args w
  else unknownToolOut s name

/-- Whether a handler outcome is a thrown error. -/
def isErrResult : Except String Js → Bool
  | .error _ => true
  | .ok _ => false

theorem containsStr_append_right (pre post pat : String)
    (h : ContainsStr post pat) : ContainsStr (pre ++ post) pat := by
  unfold ContainsStr at *
  have hsub : post.toList <:+: (pre ++ post).toList := by
    have : (pre ++ post).toList = pre.toList ++ post.toList := by
      simp [String.toList, String.data_append]
    rw [this]
    exact (List.suffix_append pre.toList post.toList).isInfix
  exact h.trans hsub

theorem branchOut_c2 (errLead : String) (run : HandlerRun) (okf : Js → List ContentBlock)
    (m : String) (h : (branchOut errLead run okf).handlerThrew = some m) :
    (branchOut errLead run okf).result.isError = true ∧
    ∃ b ∈ (branchOut errLead run okf).result.content, ContainsStr b.text m := by
  cases hr : run.result with
  | ok v => simp [branchOut, hr] at h
  | error msg =>
    have hm : msg = m := by simpa [branchOut, hr] using h
    subst hm
    refine ⟨by simp [branchOut, hr], ⟨{ text := errLead ++ msg }, by simp [branchOut, hr], ?_⟩⟩
    exact containsStr_of_eq_append _ errLead msg "" (by simp)

theorem branchOut_of_err (errLead : String) (run : HandlerRun) (okf : Js → List ContentBlock)
    (h1 : run.requests = []) (h2 : isErrResult run.result = true) :
    (branchOut errLead run okf).requests = [] ∧ (branchOut errLead run okf).result.isError = true := by
  cases hr : run.result with
  | ok v => simp [isErrResult, hr] at h2
  | error m => simp [branchOut, hr, h1]

theorem branchOut_requests (errLead : String) (run : HandlerRun) (okf : Js → List ContentBlock) :
    (branchOut errLead run okf).requests = run.requests := by
  cases hr : run.result <;> simp [branchOut, hr]

theorem sendRequest_requests (s : Session) (req : HttpRequest) (w : World) (m : ErrMsgs)
    (mk : HttpResponse → Js) :
    (sendRequest s req w m mk).requests = [req] := by
  unfold sendRequest
  cases w.outcome <;> rfl
theorem getUserById_anonRun (env : Env) (s : Session) (hs : s.cachedToken.truthy = false)
    (x1 : Js) (w : World) :
    (getUserById env s x1 w).requests = [] ∧ isErrResult (getUserById env s x1 w).result = true := by
  unfold getUserById
  split_ifs <;> simp_all [throwRun, isErrResult]

theorem updateUserProfile_anonRun (env : Env) (s : Session) (hs : s.cachedToken.truthy = false)
    (x1 : Js) (w : World) :
    (updateUserProfile env s x1 w).requests = [] ∧ isErrResult (updateUserProfile env s x1 w).result = true := by
  unfold updateUserProfile
  split_ifs <;> simp_all [throwRun, isErrResult]

theorem getBrandDetailsById_anonRun (env : Env) (s : Session) (hs : s.cachedToken.truthy = false)
    (x1 : Js) (w : World) :
    (getBrandDetailsById env s x1 w).requests = [] ∧ isErrResult (getBrandDetailsById env s x1 w).result = true := by
  unfold getBrandDetailsById
  split_ifs <;> simp_all [throwRun, isErrResult]

theorem getBrandByWebsite_anonRun (env : Env) (s : Session) (hs : s.cachedToken.truthy = false)
    (x1 : Js) (w : World) :
    (getBrandByWebsite env s x1 w).requests = [] ∧ isErrResult (getBrandByWebsite env s x1 w).result = true := by
  unfold getBrandByWebsite
  split_ifs <;> simp_all [throwRun, isErrResult]

theorem getBrandByName_anonRun (env : Env) (s : Session) (hs : s.cachedToken.truthy = false)
    (x1 : Js) (w : World) :
    (getBrandByName env s x1 w).requests = [] ∧ isErrResult (getBrandByName env s x1 w).result = true := by
  unfold getBrandByName
  split_ifs <;> simp_all [throwRun, isErrResult]

theorem searchBrands_anonRun (env : Env) (s : Session) (hs : s.cachedToken.truthy = false)
    (x1 x2 x3 : Js) (w : World) :
    (searchBrands env s x1 x2 x3 w).requests = [] ∧ isErrResult (searchBrands env s x1 x2 x3 w).result = true := by
  unfold searchBrands
  split_ifs <;> simp_all [throwRun, isErrResult]

theorem getBrandsByDomain_anonRun (env : Env) (s : Session) (hs : s.cachedToken.truthy = false)
    (x1 : Js) (w : World) :
    (getBrandsByDomain env s x1 w).requests = [] ∧ isErrResult (getBrandsByDomain env s x1 w).result = true := by
  unfold getBrandsByDomain
  split_ifs <;> simp_all [throwRun, isErrResult]

theorem getBrandStatistics_anonRun (env : Env) (s : Session) (hs : s.cachedToken.truthy = false)
    (w : World) :
    (getBrandStatistics env s w).requests = [] ∧ isErrResult (getBrandStatistics env s w).result = true := by
  unfold getBrandStatistics
  split_ifs <;> simp_all [throwRun, isErrResult]

theorem getBrandDashboardSummary_anonRun (env : Env) (s : Session) (hs : s.cachedToken.truthy = false)
    (w : World) :
    (getBrandDashboardSummary env s w).requests = [] ∧ isErrResult (getBrandDashboardSummary env s w).result = true := by
  unfold getBrandDashboardSummary
  split_ifs <;> simp_all [throwRun, isErrResult]

theorem getBrandDashboardSearches_anonRun (env : Env) (s : Session) (hs : s.cachedToken.truthy = false)
    (x1 x2 x3 x4 : Js) (w : World) :
    (getBrandDashboardSearches env s x1 x2 x3 x4 w).requests = [] ∧ isErrResult (getBrandDashboardSearches env s x1 x2 x3 x4 w).result = true := by
  unfold getBrandDashboardSearches
  split_ifs <;> simp_all [throwRun, isErrResult]

theorem getBrandDashboardDetails_anonRun (env : Env) (s : Session) (hs : s.cachedToken.truthy = false)
    (x1 : Js) (w : World) :
    (getBrandDashboardDetails env s x1 w).requests = [] ∧ isErrResult (getBrandDashboardDetails env s x1 w).result = true := by
  unfold getBrandDashboardDetails
  split_ifs <;> simp_all [throwRun, isErrResult]

theorem extractBrandData_anonRun (env : Env) (s : Session) (hs : s.cachedToken.truthy = false)
    (x1 x2 : Js) (w : World) :
    (extractBrandData env s x1 x2 w).requests = [] ∧ isErrResult (extractBrandData env s x1 x2 w).result = true := by
  unfold extractBrandData
  split_ifs <;> simp_all [throwRun, isErrResult]

theorem claimBrand_anonRun (env : Env) (s : Session) (hs : s.cachedToken.truthy = false)
    (x1 : Js) (w : World) :
    (claimBrand env s x1 w).requests = [] ∧ isErrResult (claimBrand env s x1 w).result = true := by
  unfold claimBrand
  split_ifs <;> simp_all [throwRun, isErrResult]

theorem getBrandsByCategory_anonRun (env : Env) (s : Session) (hs : s.cachedToken.truthy = false)
    (x1 : Js) (w : World) :
    (getBrandsByCategory env s x1 w).requests = [] ∧ isErrResult (getBrandsByCategory env s x1 w).result = true := by
  unfold getBrandsByCategory
  split_ifs <;> simp_all [throwRun, isErrResult]

theorem getBrandsByCategoryAndSubcategory_anonRun (env : Env) (s : Session) (hs : s.cachedToken.truthy = false)
    (x1 x2 : Js) (w : World) :
    (getBrandsByCategoryAndSubcategory env s x1 x2 w).requests = [] ∧ isErrResult (getBrandsByCategoryAndSubcategory env s x1 x2 w).result = true := by
  unfold getBrandsByCategoryAndSubcategory
  split_ifs <;> simp_all [throwRun, isErrResult]

theorem getBrandByIdCategoryAndSubcategory_anonRun (env : Env) (s : Session) (hs : s.cachedToken.truthy = false)
    (x1 x2 x3 : Js) (w : World) :
    (getBrandByIdCategoryAndSubcategory env s x1 x2 x3 w).requests = [] ∧ isErrResult (getBrandByIdCategoryAndSubcategory env s x1 x2 x3 w).result = true := by
  unfold getBrandByIdCategoryAndSubcategory
  split_ifs <;> simp_all [throwRun, isErrResult]

theorem createRivoApiKey_anonRun (env : Env) (s : Session) (hs : s.cachedToken.truthy = false)
    (x1 x2 x3 x4 x5 x6 x7 x8 x9 x10 : Js) (w : World) :
    (createRivoApiKey env s x1 x2 x3 x4 x5 x6 x7 x8 x9 x10 w).requests = [] ∧ isErrResult (createRivoApiKey env s x1 x2 x3 x4 x5 x6 x7 x8 x9 x10 w).result = true := by
  unfold createRivoApiKey
  split_ifs <;> simp_all [throwRun, isErrResult]

theorem getRivoApiKeys_anonRun (env : Env) (s : Session) (hs : s.cachedToken.truthy = false)
    (w : World) :
    (getRivoApiKeys env s w).requests = [] ∧ isErrResult (getRivoApiKeys env s w).result = true := by
  unfold getRivoApiKeys
  split_ifs <;> simp_all [throwRun, isErrResult]

theorem updateRivoApiKey_anonRun (env : Env) (s : Session) (hs : s.cachedToken.truthy = false)
    (x1 x2 x3 x4 x5 x6 x7 x8 x9 : Js) (w : World) :
    (updateRivoApiKey env s x1 x2 x3 x4 x5 x6 x7 x8 x9 w).requests = [] ∧ isErrResult (updateRivoApiKey env s x1 x2 x3 x4 x5 x6 x7 x8 x9 w).result = true := by
  unfold updateRivoApiKey
  split_ifs <;> simp_all [throwRun, isErrResult]

theorem revokeRivoApiKey_anonRun (env : Env) (s : Session) (hs : s.cachedToken.truthy = false)
    (x1 : Js) (w : World) :
    (revokeRivoApiKey env s x1 w).requests = [] ∧ isErrResult (revokeRivoApiKey env s x1 w).result = true := by
  unfold revokeRivoApiKey
  split_ifs <;> simp_all [throwRun, isErrResult]

theorem deleteRivoApiKey_anonRun (env : Env) (s : Session) (hs : s.cachedToken.truthy = false)
    (x1 : Js) (w : World) :
    (deleteRivoApiKey env s x1 w).requests = [] ∧ isErrResult (deleteRivoApiKey env s x1 w).result = true := by
  unfold deleteRivoApiKey
  split_ifs <;> simp_all [throwRun, isErrResult]

theorem regenerateRivoApiKey_anonRun (env : Env) (s : Session) (hs : s.cachedToken.truthy = false)
    (x1 : Js) (w : World) :
    (regenerateRivoApiKey env s x1 w).requests = [] ∧ isErrResult (regenerateRivoApiKey env s x1 w).result = true := by
  unfold regenerateRivoApiKey
  split_ifs <;> simp_all [throwRun, isErrResult]

theorem getRivoApiKeyById_anonRun (env : Env) (s : Session) (hs : s.cachedToken.truthy = false)
    (x1 : Js) (w : World) :
    (getRivoApiKeyById env s x1 w).requests = [] ∧ isErrResult (getRivoApiKeyById env s x1 w).result = true := by
  unfold getRivoApiKeyById
  split_ifs <;> simp_all [throwRun, isErrResult]

theorem adminGetAllApiKeys_anonRun (env : Env) (s : Session) (hs : s.cachedToken.truthy = false)
    (w : World) :
    (adminGetAllApiKeys env s w).requests = [] ∧ isErrResult (adminGetAllApiKeys env s w).result = true := by
  unfold adminGetAllApiKeys
  split_ifs <;> simp_all [throwRun, isErrResult]

theorem adminGetApiKeysForUser_anonRun (env : Env) (s : Session) (hs : s.cachedToken.truthy = false)
    (x1 : Js) (w : World) :
    (adminGetApiKeysForUser env s x1 w).requests = [] ∧ isErrResult (adminGetApiKeysForUser env s x1 w).result = true := by
  unfold adminGetApiKeysForUser
  split_ifs <;> simp_all [throwRun, isErrResult]

theorem adminCreateApiKeyForUser_anonRun (env : Env) (s : Session) (hs : s.cachedToken.truthy = false)
    (x1 x2 x3 x4 x5 x6 x7 x8 x9 x10 : Js) (w : World) :
    (adminCreateApiKeyForUser env s x1 x2 x3 x4 x5 x6 x7 x8 x9 x10 w).requests = [] ∧ isErrResult (adminCreateApiKeyForUser env s x1 x2 x3 x4 x5 x6 x7 x8 x9 x10 w).result = true := by
  unfold adminCreateApiKeyForUser
  split_ifs <;> simp_all [throwRun, isErrResult]

theorem adminRevokeApiKey_anonRun (env : Env) (s : Session) (hs : s.cachedToken.truthy = false)
    (x1 : Js) (w : World) :
    (adminRevokeApiKey env s x1 w).requests = [] ∧ isErrResult (adminRevokeApiKey env s x1 w).result = true := by
  unfold adminRevokeApiKey
  split_ifs <;> simp_all [throwRun, isErrResult]

theorem adminDeleteApiKey_anonRun (env : Env) (s : Session) (hs : s.cachedToken.truthy = false)
    (x1 : Js) (w : World) :
    (adminDeleteApiKey env s x1 w).requests = [] ∧ isErrResult (adminDeleteApiKey env s x1 w).result = true := by
  unfold adminDeleteApiKey
  split_ifs <;> simp_all [throwRun, isErrResult]

theorem adminGetApiKeyUsage_anonRun (env : Env) (s : Session) (hs : s.cachedToken.truthy = false)
    (x1 : Js) (w : World) :
    (adminGetApiKeyUsage env s x1 w).requests = [] ∧ isErrResult (adminGetApiKeyUsage env s x1 w).result = true := by
  unfold adminGetApiKeyUsage
  split_ifs <;> simp_all [throwRun, isErrResult]

theorem adminGetApiKeySystemStats_anonRun (env : Env) (s : Session) (hs : s.cachedToken.truthy = false)
    (w : World) :
    (adminGetApiKeySystemStats env s w).requests = [] ∧ isErrResult (adminGetApiKeySystemStats env s w).result = true := by
  unfold adminGetApiKeySystemStats
  split_ifs <;> simp_all [throwRun, isErrResult]

theorem adminResetApiKeyRateLimit_anonRun (env : Env) (s : Session) (hs : s.cachedToken.truthy = false)
    (x1 : Js) (w : World) :
    (adminResetApiKeyRateLimit env s x1 w).requests = [] ∧ isErrResult (adminResetApiKeyRateLimit env s x1 w).result = true := by
  unfold adminResetApiKeyRateLimit
  split_ifs <;> simp_all [throwRun, isErrResult]

theorem adminUpdateApiKeyScopes_anonRun (env : Env) (s : Session) (hs : s.cachedToken.truthy = false)
    (x1 x2 : Js) (w : World) :
    (adminUpdateApiKeyScopes env s x1 x2 w).requests = [] ∧ isErrResult (adminUpdateApiKeyScopes env s x1 x2 w).result = true := by
  unfold adminUpdateApiKeyScopes
  split_ifs <;> simp_all [throwRun, isErrResult]

theorem getAddOnPackages_anonRun (env : Env) (s : Session) (hs : s.cachedToken.truthy = false)
    (w : World) :
    (getAddOnPackages env s w).requests = [] ∧ isErrResult (getAddOnPackages env s w).result = true := by
  unfold getAddOnPackages
  split_ifs <;> simp_all [throwRun, isErrResult]

theorem purchaseAddOn_anonRun (env : Env) (s : Session) (hs : s.cachedToken.truthy = false)
    (x1 x2 x3 x4 x5 x6 x7 : Js) (w : World) :
    (purchaseAddOn env s x1 x2 x3 x4 x5 x6 x7 w).requests = [] ∧ isErrResult (purchaseAddOn env s x1 x2 x3 x4 x5 x6 x7 w).result = true := by
  unfold purchaseAddOn
  split_ifs <;> simp_all [throwRun, isErrResult]

theorem getAddOnsForApiKey_anonRun (env : Env) (s : Session) (hs : s.cachedToken.truthy = false)
    (x1 : Js) (w : World) :
    (getAddOnsForApiKey env s x1 w).requests = [] ∧ isErrResult (getAddOnsForApiKey env s x1 w).result = true := by
  unfold getAddOnsForApiKey
  split_ifs <;> simp_all [throwRun, isErrResult]

theorem getActiveAddOnsForApiKey_anonRun (env : Env) (s : Session) (hs : s.cachedToken.truthy = false)
    (x1 : Js) (w : World) :
    (getActiveAddOnsForApiKey env s x1 w).requests = [] ∧ isErrResult (getActiveAddOnsForApiKey env s x1 w).result = true := by
  unfold getActiveAddOnsForApiKey
  split_ifs <;> simp_all [throwRun, isErrResult]

theorem getAddOnRecommendations_anonRun (env : Env) (s : Session) (hs : s.cachedToken.truthy = false)
    (x1 x2 : Js) (w : World) :
    (getAddOnRecommendations env s x1 x2 w).requests = [] ∧ isErrResult (getAddOnRecommendations env s x1 x2 w).result = true := by
  unfold getAddOnRecommendations
  split_ifs <;> simp_all [throwRun, isErrResult]

theorem cancelAddOn_anonRun (env : Env) (s : Session) (hs : s.cachedToken.truthy = false)
    (x1 x2 : Js) (w : World) :
    (cancelAddOn env s x1 x2 w).requests = [] ∧ isErrResult (cancelAddOn env s x1 x2 w).result = true := by
  unfold cancelAddOn
  split_ifs <;> simp_all [throwRun, isErrResult]

theorem renewAddOn_anonRun (env : Env) (s : Session) (hs : s.cachedToken.truthy = false)
    (x1 x2 : Js) (w : World) :
    (renewAddOn env s x1 x2 w).requests = [] ∧ isErrResult (renewAddOn env s x1 x2 w).result = true := by
  unfold renewAddOn
  split_ifs <;> simp_all [throwRun, isErrResult]

theorem getExpiringAddOns_anonRun (env : Env) (s : Session) (hs : s.cachedToken.truthy = false)
    (w : World) :
    (getExpiringAddOns env s w).requests = [] ∧ isErrResult (getExpiringAddOns env s w).result = true := by
  unfold getExpiringAddOns
  split_ifs <;> simp_all [throwRun, isErrResult]

theorem getNearlyExhaustedAddOns_anonRun (env : Env) (s : Session) (hs : s.cachedToken.truthy = false)
    (w : World) :
    (getNearlyExhaustedAddOns env s w).requests = [] ∧ isErrResult (getNearlyExhaustedAddOns env s w).result = true := by
  unfold getNearlyExhaustedAddOns
  split_ifs <;> simp_all [throwRun, isErrResult]

theorem processAutoRenewals_anonRun (env : Env) (s : Session) (hs : s.cachedToken.truthy = false)
    (w : World) :
    (processAutoRenewals env s w).requests = [] ∧ isErrResult (processAutoRenewals env s w).result = true := by
  unfold processAutoRenewals
  split_ifs <;> simp_all [throwRun, isErrResult]

theorem cleanupExpiredAddOns_anonRun (env : Env) (s : Session) (hs : s.cachedToken.truthy = false)
    (w : World) :
    (cleanupExpiredAddOns env s w).requests = [] ∧ isErrResult (cleanupExpiredAddOns env s w).result = true := by
  unfold cleanupExpiredAddOns
  split_ifs <;> simp_all [throwRun, isErrResult]

theorem getUserById_authHeader (env : Env) (s : Session) (x1 : Js) (w : World) :
    ∀ req ∈ (getUserById env s x1 w).requests, ("Authorization", bearerOf s) ∈ req.headers := by
  unfold getUserById
  split_ifs <;> intro req hreq <;>
    first
      | exact absurd hreq (List.not_mem_nil req)
      | (simp only [sendRequest_requests] at hreq; simp at hreq; subst hreq; simp)

theorem updateUserProfile_authHeader (env : Env) (s : Session) (x1 : Js) (w : World) :
    ∀ req ∈ (updateUserProfile env s x1 w).requests, ("Authorization", bearerOf s) ∈ req.headers := by
  unfold updateUserProfile
  split_ifs <;> intro req hreq <;>
    first
      | exact absurd hreq (List.not_mem_nil req)
      | (simp only [sendRequest_requests] at hreq; simp at hreq; subst hreq; simp)

theorem getBrandDetailsById_authHeader (env : Env) (s : Session) (x1 : Js) (w : World) :
    ∀ req ∈ (getBrandDetailsById env s x1 w).requests, ("Authorization", bearerOf s) ∈ req.headers := by
  unfold getBrandDetailsById
  split_ifs <;> intro req hreq <;>
    first
      | exact absurd hreq (List.not_mem_nil req)
      | (simp only [sendRequest_requests] at hreq; simp at hreq; subst hreq; simp)

theorem getBrandByWebsite_authHeader (env : Env) (s : Session) (x1 : Js) (w : World) :
    ∀ req ∈ (getBrandByWebsite env s x1 w).requests, ("Authorization", bearerOf s) ∈ req.headers := by
  unfold getBrandByWebsite
  split_ifs <;> intro req hreq <;>
    first
      | exact absurd hreq (List.not_mem_nil req)
      | (simp only [sendRequest_requests] at hreq; simp at hreq; subst hreq; simp)

theorem getBrandByName_authHeader (env : Env) (s : Session) (x1 : Js) (w : World) :
    ∀ req ∈ (getBrandByName env s x1 w).requests, ("Authorization", bearerOf s) ∈ req.headers := by
  unfold getBrandByName
  split_ifs <;> intro req hreq <;>
    first
      | exact absurd hreq (List.not_mem_nil req)
      | (simp only [sendRequest_requests] at hreq; simp at hreq; subst hreq; simp)

theorem searchBrands_authHeader (env : Env) (s : Session) (x1 x2 x3 : Js) (w : World) :
    ∀ req ∈ (searchBrands env s x1 x2 x3 w).requests, ("Authorization", bearerOf s) ∈ req.headers := by
  unfold searchBrands
  split_ifs <;> intro req hreq <;>
    first
      | exact absurd hreq (List.not_mem_nil req)
      | (simp only [sendRequest_requests] at hreq; simp at hreq; subst hreq; simp)

theorem getBrandsByDomain_authHeader (env : Env) (s : Session) (x1 : Js) (w : World) :
    ∀ req ∈ (getBrandsByDomain env s x1 w).requests, ("Authorization", bearerOf s) ∈ req.headers := by
  unfold getBrandsByDomain
  split_ifs <;> intro req hreq <;>
    first
      | exact absurd hreq (List.not_mem_nil req)
      | (simp only [sendRequest_requests] at hreq; simp at hreq; subst hreq; simp)

theorem getBrandStatistics_authHeader (env : Env) (s : Session) (w : World) :
    ∀ req ∈ (getBrandStatistics env s w).requests, ("Authorization", bearerOf s) ∈ req.headers := by
  unfold getBrandStatistics
  split_ifs <;> intro req hreq <;>
    first
      | exact absurd hreq (List.not_mem_nil req)
      | (simp only [sendRequest_requests] at hreq; simp at hreq; subst hreq; simp)

theorem getBrandDashboardSummary_authHeader (env : Env) (s : Session) (w : World) :
    ∀ req ∈ (getBrandDashboardSummary env s w).requests, ("Authorization", bearerOf s) ∈ req.headers := by
  unfold getBrandDashboardSummary
  split_ifs <;> intro req hreq <;>
    first
      | exact absurd hreq (List.not_mem_nil req)
      | (simp only [sendRequest_requests] at hreq; simp at hreq; subst hreq; simp)

theorem getBrandDashboardSearches_authHeader (env : Env) (s : Session) (x1 x2 x3 x4 : Js) (w : World) :
    ∀ req ∈ (getBrandDashboardSearches env s x1 x2 x3 x4 w).requests, ("Authorization", bearerOf s) ∈ req.headers := by
  unfold getBrandDashboardSearches
  split_ifs <;> intro req hreq <;>
    first
      | exact absurd hreq (List.not_mem_nil req)
      | (simp only [sendRequest_requests] at hreq; simp at hreq; subst hreq; simp)

theorem getBrandDashboardDetails_authHeader (env : Env) (s : Session) (x1 : Js) (w : World) :
    ∀ req ∈ (getBrandDashboardDetails env s x1 w).requests, ("Authorization", bearerOf s) ∈ req.headers := by
  unfold getBrandDashboardDetails
  split_ifs <;> intro req hreq <;>
    first
      | exact absurd hreq (List.not_mem_nil req)
      | (simp only [sendRequest_requests] at hreq; simp at hreq; subst hreq; simp)

theorem extractBrandData_authHeader (env : Env) (s : Session) (x1 x2 : Js) (w : World) :
    ∀ req ∈ (extractBrandData env s x1 x2 w).requests, ("Authorization", bearerOf s) ∈ req.headers := by
  unfold extractBrandData
  split_ifs <;> intro req hreq <;>
    first
      | exact absurd hreq (List.not_mem_nil req)
      | (simp only [sendRequest_requests] at hreq; simp at hreq; subst hreq; simp)

theorem claimBrand_authHeader (env : Env) (s : Session) (x1 : Js) (w : World) :
    ∀ req ∈ (claimBrand env s x1 w).requests, ("Authorization", bearerOf s) ∈ req.headers := by
  unfold claimBrand
  split_ifs <;> intro req hreq <;>
    first
      | exact absurd hreq (List.not_mem_nil req)
      | (simp only [sendRequest_requests] at hreq; simp at hreq; subst hreq; simp)

theorem getBrandsByCategory_authHeader (env : Env) (s : Session) (x1 : Js) (w : World) :
    ∀ req ∈ (getBrandsByCategory env s x1 w).requests, ("Authorization", bearerOf s) ∈ req.headers := by
  unfold getBrandsByCategory
  split_ifs <;> intro req hreq <;>
    first
      | exact absurd hreq (List.not_mem_nil req)
      | (simp only [sendRequest_requests] at hreq; simp at hreq; subst hreq; simp)

theorem getBrandsByCategoryAndSubcategory_authHeader (env : Env) (s : Session) (x1 x2 : Js) (w : World) :
    ∀ req ∈ (getBrandsByCategoryAndSubcategory env s x1 x2 w).requests, ("Authorization", bearerOf s) ∈ req.headers := by
  unfold getBrandsByCategoryAndSubcategory
  split_ifs <;> intro req hreq <;>
    first
      | exact absurd hreq (List.not_mem_nil req)
      | (simp only [sendRequest_requests] at hreq; simp at hreq; subst hreq; simp)

theorem getBrandByIdCategoryAndSubcategory_authHeader (env : Env) (s : Session) (x1 x2 x3 : Js) (w : World) :
    ∀ req ∈ (getBrandByIdCategoryAndSubcategory env s x1 x2 x3 w).requests, ("Authorization", bearerOf s) ∈ req.headers := by
  unfold getBrandByIdCategoryAndSubcategory
  split_ifs <;> intro req hreq <;>
    first
      | exact absurd hreq (List.not_mem_nil req)
      | (simp only [sendRequest_requests] at hreq; simp at hreq; subst hreq; simp)

theorem createRivoApiKey_authHeader (env : Env) (s : Session) (x1 x2 x3 x4 x5 x6 x7 x8 x9 x10 : Js) (w : World) :
    ∀ req ∈ (createRivoApiKey env s x1 x2 x3 x4 x5 x6 x7 x8 x9 x10 w).requests, ("Authorization", bearerOf s) ∈ req.headers := by
  unfold createRivoApiKey
  split_ifs <;> intro req hreq <;>
    first
      | exact absurd hreq (List.not_mem_nil req)
      | (simp only [sendRequest_requests] at hreq; simp at hreq; subst hreq; simp)

theorem getRivoApiKeys_authHeader (env : Env) (s : Session) (w : World) :
    ∀ req ∈ (getRivoApiKeys env s w).requests, ("Authorization", bearerOf s) ∈ req.headers := by
  unfold getRivoApiKeys
  split_ifs <;> intro req hreq <;>
    first
      | exact absurd hreq (List.not_mem_nil req)
      | (simp only [sendRequest_requests] at hreq; simp at hreq; subst hreq; simp)

theorem updateRivoApiKey_authHeader (env : Env) (s : Session) (x1 x2 x3 x4 x5 x6 x7 x8 x9 : Js) (w : World) :
    ∀ req ∈ (updateRivoApiKey env s x1 x2 x3 x4 x5 x6 x7 x8 x9 w).requests, ("Authorization", bearerOf s) ∈ req.headers := by
  unfold updateRivoApiKey
  split_ifs <;> intro req hreq <;>
    first
      | exact absurd hreq (List.not_mem_nil req)
      | (simp only [sendRequest_requests] at hreq; simp at hreq; subst hreq; simp)

theorem revokeRivoApiKey_authHeader (env : Env) (s : Session) (x1 : Js) (w : World) :
    ∀ req ∈ (revokeRivoApiKey env s x1 w).requests, ("Authorization", bearerOf s) ∈ req.headers := by
  unfold revokeRivoApiKey
  split_ifs <;> intro req hreq <;>
    first
      | exact absurd hreq (List.not_mem_nil req)
      | (simp only [sendRequest_requests] at hreq; simp at hreq; subst hreq; simp)

theorem deleteRivoApiKey_authHeader (env : Env) (s : Session) (x1 : Js) (w : World) :
    ∀ req ∈ (deleteRivoApiKey env s x1 w).requests, ("Authorization", bearerOf s) ∈ req.headers := by
  unfold deleteRivoApiKey
  split_ifs <;> intro req hreq <;>
    first
      | exact absurd hreq (List.not_mem_nil req)
      | (simp only [sendRequest_requests] at hreq; simp at hreq; subst hreq; simp)

theorem regenerateRivoApiKey_authHeader (env : Env) (s : Session) (x1 : Js) (w : World) :
    ∀ req ∈ (regenerateRivoApiKey env s x1 w).requests, ("Authorization", bearerOf s) ∈ req.headers := by
  unfold regenerateRivoApiKey
  split_ifs <;> intro req hreq <;>
    first
      | exact absurd hreq (List.not_mem_nil req)
      | (simp only [sendRequest_requests] at hreq; simp at hreq; subst hreq; simp)

theorem getRivoApiKeyById_authHeader (env : Env) (s : Session) (x1 : Js) (w : World) :
    ∀ req ∈ (getRivoApiKeyById env s x1 w).requests, ("Authorization", bearerOf s) ∈ req.headers := by
  unfold getRivoApiKeyById
  split_ifs <;> intro req hreq <;>
    first
      | exact absurd hreq (List.not_mem_nil req)
      | (simp only [sendRequest_requests] at hreq; simp at hreq; subst hreq; simp)

theorem adminGetAllApiKeys_authHeader (env : Env) (s : Session) (w : World) :
    ∀ req ∈ (adminGetAllApiKeys env s w).requests, ("Authorization", bearerOf s) ∈ req.headers := by
  unfold adminGetAllApiKeys
  split_ifs <;> intro req hreq <;>
    first
      | exact absurd hreq (List.not_mem_nil req)
      | (simp only [sendRequest_requests] at hreq; simp at hreq; subst hreq; simp)

theorem adminGetApiKeysForUser_authHeader (env : Env) (s : Session) (x1 : Js) (w : World) :
    ∀ req ∈ (adminGetApiKeysForUser env s x1 w).requests, ("Authorization", bearerOf s) ∈ req.headers := by
  unfold adminGetApiKeysForUser
  split_ifs <;> intro req hreq <;>
    first
      | exact absurd hreq (List.not_mem_nil req)
      | (simp only [sendRequest_requests] at hreq; simp at hreq; subst hreq; simp)

theorem adminCreateApiKeyForUser_authHeader (env : Env) (s : Session) (x1 x2 x3 x4 x5 x6 x7 x8 x9 x10 : Js) (w : World) :
    ∀ req ∈ (adminCreateApiKeyForUser env s x1 x2 x3 x4 x5 x6 x7 x8 x9 x10 w).requests, ("Authorization", bearerOf s) ∈ req.headers := by
  unfold adminCreateApiKeyForUser
  split_ifs <;> intro req hreq <;>
    first
      | exact absurd hreq (List.not_mem_nil req)
      | (simp only [sendRequest_requests] at hreq; simp at hreq; subst hreq; simp)

theorem adminRevokeApiKey_authHeader (env : Env) (s : Session) (x1 : Js) (w : World) :
    ∀ req ∈ (adminRevokeApiKey env s x1 w).requests, ("Authorization", bearerOf s) ∈ req.headers := by
  unfold adminRevokeApiKey
  split_ifs <;> intro req hreq <;>
    first
      | exact absurd hreq (List.not_mem_nil req)
      | (simp only [sendRequest_requests] at hreq; simp at hreq; subst hreq; simp)

theorem adminDeleteApiKey_authHeader (env : Env) (s : Session) (x1 : Js) (w : World) :
    ∀ req ∈ (adminDeleteApiKey env s x1 w).requests, ("Authorization", bearerOf s) ∈ req.headers := by
  unfold adminDeleteApiKey
  split_ifs <;> intro req hreq <;>
    first
      | exact absurd hreq (List.not_mem_nil req)
      | (simp only [sendRequest_requests] at hreq; simp at hreq; subst hreq; simp)

theorem adminGetApiKeyUsage_authHeader (env : Env) (s : Session) (x1 : Js) (w : World) :
    ∀ req ∈ (adminGetApiKeyUsage env s x1 w).requests, ("Authorization", bearerOf s) ∈ req.headers := by
  unfold adminGetApiKeyUsage
  split_ifs <;> intro req hreq <;>
    first
      | exact absurd hreq (List.not_mem_nil req)
      | (simp only [sendRequest_requests] at hreq; simp at hreq; subst hreq; simp)

theorem adminGetApiKeySystemStats_authHeader (env : Env) (s : Session) (w : World) :
    ∀ req ∈ (adminGetApiKeySystemStats env s w).requests, ("Authorization", bearerOf s) ∈ req.headers := by
  unfold adminGetApiKeySystemStats
  split_ifs <;> intro req hreq <;>
    first
      | exact absurd hreq (List.not_mem_nil req)
      | (simp only [sendRequest_requests] at hreq; simp at hreq; subst hreq; simp)

theorem adminResetApiKeyRateLimit_authHeader (env : Env) (s : Session) (x1 : Js) (w : World) :
    ∀ req ∈ (adminResetApiKeyRateLimit env s x1 w).requests, ("Authorization", bearerOf s) ∈ req.headers := by
  unfold adminResetApiKeyRateLimit
  split_ifs <;> intro req hreq <;>
    first
      | exact absurd hreq (List.not_mem_nil req)
      | (simp only [sendRequest_requests] at hreq; simp at hreq; subst hreq; simp)

theorem getAddOnPackages_authHeader (env : Env) (s : Session) (w : World) :
    ∀ req ∈ (getAddOnPackages env s w).requests, ("Authorization", bearerOf s) ∈ req.headers := by
  unfold getAddOnPackages
  split_ifs <;> intro req hreq <;>
    first
      | exact absurd hreq (List.not_mem_nil req)
      | (simp only [sendRequest_requests] at hreq; simp at hreq; subst hreq; simp)

theorem purchaseAddOn_authHeader (env : Env) (s : Session) (x1 x2 x3 x4 x5 x6 x7 : Js) (w : World) :
    ∀ req ∈ (purchaseAddOn env s x1 x2 x3 x4 x5 x6 x7 w).requests, ("Authorization", bearerOf s) ∈ req.headers := by
  unfold purchaseAddOn
  split_ifs <;> intro req hreq <;>
    first
      | exact absurd hreq (List.not_mem_nil req)
      | (simp only [sendRequest_requests] at hreq; simp at hreq; subst hreq; simp)

theorem getAddOnsForApiKey_authHeader (env : Env) (s : Session) (x1 : Js) (w : World) :
    ∀ req ∈ (getAddOnsForApiKey env s x1 w).requests, ("Authorization", bearerOf s) ∈ req.headers := by
  unfold getAddOnsForApiKey
  split_ifs <;> intro req hreq <;>
    first
      | exact absurd hreq (List.not_mem_nil req)
      | (simp only [sendRequest_requests] at hreq; simp at hreq; subst hreq; simp)

theorem getActiveAddOnsForApiKey_authHeader (env : Env) (s : Session) (x1 : Js) (w : World) :
    ∀ req ∈ (getActiveAddOnsForApiKey env s x1 w).requests, ("Authorization", bearerOf s) ∈ req.headers := by
  unfold getActiveAddOnsForApiKey
  split_ifs <;> intro req hreq <;>
    first
      | exact absurd hreq (List.not_mem_nil req)
      | (simp only [sendRequest_requests] at hreq; simp at hreq; subst hreq; simp)

theorem getAddOnRecommendations_authHeader (env : Env) (s : Session) (x1 x2 : Js) (w : World) :
    ∀ req ∈ (getAddOnRecommendations env s x1 x2 w).requests, ("Authorization", bearerOf s) ∈ req.headers := by
  unfold getAddOnRecommendations
  split_ifs <;> intro req hreq
  · exact absurd hreq (List.not_mem_nil req)
  · exact absurd hreq (List.not_mem_nil req)
  · dsimp only at hreq
    split at hreq
    · exact absurd hreq (List.not_mem_nil req)
    · simp only [sendRequest_requests] at hreq
      simp at hreq
      subst hreq
      simp
  · dsimp only at hreq
    split at hreq
    · exact absurd hreq (List.not_mem_nil req)
    · simp only [sendRequest_requests] at hreq
      simp at hreq
      subst hreq
      simp

theorem cancelAddOn_authHeader (env : Env) (s : Session) (x1 x2 : Js) (w : World) :
    ∀ req ∈ (cancelAddOn env s x1 x2 w).requests, ("Authorization", bearerOf s) ∈ req.headers := by
  unfold cancelAddOn
  split_ifs <;> intro req hreq <;>
    first
      | exact absurd hreq (List.not_mem_nil req)
      | (simp only [sendRequest_requests] at hreq; simp at hreq; subst hreq; simp)

theorem renewAddOn_authHeader (env : Env) (s : Session) (x1 x2 : Js) (w : World) :
    ∀ req ∈ (renewAddOn env s x1 x2 w).requests, ("Authorization", bearerOf s) ∈ req.headers := by
  unfold renewAddOn
  split_ifs <;> intro req hreq <;>
    first
      | exact absurd hreq (List.not_mem_nil req)
      | (simp only [sendRequest_requests] at hreq; simp at hreq; subst hreq; simp)

theorem getExpiringAddOns_authHeader (env : Env) (s : Session) (w : World) :
    ∀ req ∈ (getExpiringAddOns env s w).requests, ("Authorization", bearerOf s) ∈ req.headers := by
  unfold getExpiringAddOns
  split_ifs <;> intro req hreq <;>
    first
      | exact absurd hreq (List.not_mem_nil req)
      | (simp only [sendRequest_requests] at hreq; simp at hreq; subst hreq; simp)

theorem getNearlyExhaustedAddOns_authHeader (env : Env) (s : Session) (w : World) :
    ∀ req ∈ (getNearlyExhaustedAddOns env s w).requests, ("Authorization", bearerOf s) ∈ req.headers := by
  unfold getNearlyExhaustedAddOns
  split_ifs <;> intro req hreq <;>
    first
      | exact absurd hreq (List.not_mem_nil req)
      | (simp only [sendRequest_requests] at hreq; simp at hreq; subst hreq; simp)

theorem processAutoRenewals_authHeader (env : Env) (s : Session) (w : World) :
    ∀ req ∈ (processAutoRenewals env s w).requests, ("Authorization", bearerOf s) ∈ req.headers := by
  unfold processAutoRenewals
  split_ifs <;> intro req hreq <;>
    first
      | exact absurd hreq (List.not_mem_nil req)
      | (simp only [sendRequest_requests] at hreq; simp at hreq; subst hreq; simp)

theorem cleanupExpiredAddOns_authHeader (env : Env) (s : Session) (w : World) :
    ∀ req ∈ (cleanupExpiredAddOns env s w).requests, ("Authorization", bearerOf s) ∈ req.headers := by
  unfold cleanupExpiredAddOns
  split_ifs <;> intro req hreq <;>
    first
      | exact absurd hreq (List.not_mem_nil req)
      | (simp only [sendRequest_requests] at hreq; simp at hreq; subst hreq; simp)

theorem adminUpdateApiKeyScopes_authHeader (env : Env) (s : Session) (x1 x2 : Js) (w : World) :
    ∀ req ∈ (adminUpdateApiKeyScopes env s x1 x2 w).requests, ("Authorization", bearerOf s) ∈ req.headers := by
  unfold adminUpdateApiKeyScopes
  split_ifs <;> intro req hreq
  · exact absurd hreq (List.not_mem_nil req)
  · exact absurd hreq (List.not_mem_nil req)
  · exact absurd hreq (List.not_mem_nil req)
  · dsimp only at hreq
    split at hreq
    · exact absurd hreq (List.not_mem_nil req)
    · simp only [sendRequest_requests] at hreq
      simp at hreq
      subst hreq
      simp
  · dsimp only at hreq
    split at hreq
    · split at hreq
      · exact absurd hreq (List.not_mem_nil req)
      · simp only [sendRequest_requests] at hreq
        simp at hreq
        subst hreq
        simp
    · exact absurd hreq (List.not_mem_nil req)
theorem c1b_getUserById (env : Env) (s : Session) (hs : s.cachedToken.truthy = false) (args : Js) (w : World) :
    (branch_getUserById env s args w).requests = [] ∧ (branch_getUserById env s args w).result.isError = true := by
  simp only [branch_getUserById]
  split_ifs
  · simp [errOut]
  · exact branchOut_of_err _ _ _ (getUserById_anonRun env s hs _ w).1 (getUserById_anonRun env s hs _ w).2

theorem c1b_updateUserProfile (env : Env) (s : Session) (hs : s.cachedToken.truthy = false) (args : Js) (w : World) :
    (branch_updateUserProfile env s args w).requests = [] ∧ (branch_updateUserProfile env s args w).result.isError = true := by
  simp only [branch_updateUserProfile]
  exact branchOut_of_err _ _ _ (updateUserProfile_anonRun env s hs _ w).1 (updateUserProfile_anonRun env s hs _ w).2

theorem c1b_getBrandDetailsById (env : Env) (s : Session) (hs : s.cachedToken.truthy = false) (args : Js) (w : World) :
    (branch_getBrandDetailsById env s args w).requests = [] ∧ (branch_getBrandDetailsById env s args w).result.isError = true := by
  simp only [branch_getBrandDetailsById]
  split_ifs
  · simp [errOut]
  · exact branchOut_of_err _ _ _ (getBrandDetailsById_anonRun env s hs _ w).1 (getBrandDetailsById_anonRun env s hs _ w).2

theorem c1b_getBrandByWebsite (env : Env) (s : Session) (hs : s.cachedToken.truthy = false) (args : Js) (w : World) :
    (branch_getBrandByWebsite env s args w).requests = [] ∧ (branch_getBrandByWebsite env s args w).result.isError = true := by
  simp only [branch_getBrandByWebsite]
  split_ifs
  · simp [errOut]
  · exact branchOut_of_err _ _ _ (getBrandByWebsite_anonRun env s hs _ w).1 (getBrandByWebsite_anonRun env s hs _ w).2

theorem c1b_getBrandByName (env : Env) (s : Session) (hs : s.cachedToken.truthy = false) (args : Js) (w : World) :
    (branch_getBrandByName env s args w).requests = [] ∧ (branch_getBrandByName env s args w).result.isError = true := by
  simp only [branch_getBrandByName]
  split_ifs
  · simp [errOut]
  · exact branchOut_of_err _ _ _ (getBrandByName_anonRun env s hs _ w).1 (getBrandByName_anonRun env s hs _ w).2

theorem c1b_searchBrands (env : Env) (s : Session) (hs : s.cachedToken.truthy = false) (args : Js) (w : World) :
    (branch_searchBrands env s args w).requests = [] ∧ (branch_searchBrands env s args w).result.isError = true := by
  simp only [branch_searchBrands]
  split_ifs
  · simp [errOut]
  · exact branchOut_of_err _ _ _ (searchBrands_anonRun env s hs _ _ _ w).1 (searchBrands_anonRun env s hs _ _ _ w).2

theorem c1b_getBrandsByDomain (env : Env) (s : Session) (hs : s.cachedToken.truthy = false) (args : Js) (w : World) :
    (branch_getBrandsByDomain env s args w).requests = [] ∧ (branch_getBrandsByDomain env s args w).result.isError = true := by
  simp only [branch_getBrandsByDomain]
  split_ifs
  · simp [errOut]
  · exact branchOut_of_err _ _ _ (getBrandsByDomain_anonRun env s hs _ w).1 (getBrandsByDomain_anonRun env s hs _ w).2

theorem c1b_getBrandStatistics (env : Env) (s : Session) (hs : s.cachedToken.truthy = false) (w : World) :
    (branch_getBrandStatistics env s w).requests = [] ∧ (branch_getBrandStatistics env s w).result.isError = true := by
  simp only [branch_getBrandStatistics]
  exact branchOut_of_err _ _ _ (getBrandStatistics_anonRun env s hs w).1 (getBrandStatistics_anonRun env s hs w).2

theorem c1b_getBrandDashboardSummary (env : Env) (s : Session) (hs : s.cachedToken.truthy = false) (w : World) :
    (branch_getBrandDashboardSummary env s w).requests = [] ∧ (branch_getBrandDashboardSummary env s w).result.isError = true := by
  simp only [branch_getBrandDashboardSummary]
  exact branchOut_of_err _ _ _ (getBrandDashboardSummary_anonRun env s hs w).1 (getBrandDashboardSummary_anonRun env s hs w).2

theorem c1b_getBrandDashboardSearches (env : Env) (s : Session) (hs : s.cachedToken.truthy = false) (args : Js) (w : World) :
    (branch_getBrandDashboardSearches env s args w).requests = [] ∧ (branch_getBrandDashboardSearches env s args w).result.isError = true := by
  simp only [branch_getBrandDashboardSearches]
  exact branchOut_of_err _ _ _ (getBrandDashboardSearches_anonRun env s hs _ _ _ _ w).1 (getBrandDashboardSearches_anonRun env s hs _ _ _ _ w).2

theorem c1b_getBrandDashboardDetails (env : Env) (s : Session) (hs : s.cachedToken.truthy = false) (args : Js) (w : World) :
    (branch_getBrandDashboardDetails env s args w).requests = [] ∧ (branch_getBrandDashboardDetails env s args w).result.isError = true := by
  simp only [branch_getBrandDashboardDetails]
  split_ifs
  · simp [errOut]
  · exact branchOut_of_err _ _ _ (getBrandDashboardDetails_anonRun env s hs _ w).1 (getBrandDashboardDetails_anonRun env s hs _ w).2

theorem c1b_extractBrandData (env : Env) (s : Session) (hs : s.cachedToken.truthy = false) (args : Js) (w : World) :
    (branch_extractBrandData env s args w).requests = [] ∧ (branch_extractBrandData env s args w).result.isError = true := by
  simp only [branch_extractBrandData]
  split_ifs
  · simp [errOut]
  · exact branchOut_of_err _ _ _ (extractBrandData_anonRun env s hs _ _ w).1 (extractBrandData_anonRun env s hs _ _ w).2

theorem c1b_claimBrand (env : Env) (s : Session) (hs : s.cachedToken.truthy = false) (args : Js) (w : World) :
    (branch_claimBrand env s args w).requests = [] ∧ (branch_claimBrand env s args w).result.isError = true := by
  simp only [branch_claimBrand]
  split_ifs
  · simp [errOut]
  · exact branchOut_of_err _ _ _ (claimBrand_anonRun env s hs _ w).1 (claimBrand_anonRun env s hs _ w).2

theorem c1b_getBrandsByCategory (env : Env) (s : Session) (hs : s.cachedToken.truthy = false) (args : Js) (w : World) :
    (branch_getBrandsByCategory env s args w).requests = [] ∧ (branch_getBrandsByCategory env s args w).result.isError = true := by
  simp only [branch_getBrandsByCategory]
  split_ifs
  · simp [errOut]
  · exact branchOut_of_err _ _ _ (getBrandsByCategory_anonRun env s hs _ w).1 (getBrandsByCategory_anonRun env s hs _ w).2

theorem c1b_getBrandsByCategoryAndSubcategory (env : Env) (s : Session) (hs : s.cachedToken.truthy = false) (args : Js) (w : World) :
    (branch_getBrandsByCategoryAndSubcategory env s args w).requests = [] ∧ (branch_getBrandsByCategoryAndSubcategory env s args w).result.isError = true := by
  simp only [branch_getBrandsByCategoryAndSubcategory]
  split_ifs
  · simp [errOut]
  · exact branchOut_of_err _ _ _ (getBrandsByCategoryAndSubcategory_anonRun env s hs _ _ w).1 (getBrandsByCategoryAndSubcategory_anonRun env s hs _ _ w).2

theorem c1b_getBrandByIdCategoryAndSubcategory (env : Env) (s : Session) (hs : s.cachedToken.truthy = false) (args : Js) (w : World) :
    (branch_getBrandByIdCategoryAndSubcategory env s args w).requests = [] ∧ (branch_getBrandByIdCategoryAndSubcategory env s args w).result.isError = true := by
  simp only [branch_getBrandByIdCategoryAndSubcategory]
  split_ifs <;>
    first
      | exact ⟨rfl, rfl⟩
      | exact branchOut_of_err _ _ _ (getBrandByIdCategoryAndSubcategory_anonRun env s hs _ _ _ w).1 (getBrandByIdCategoryAndSubcategory_anonRun env s hs _ _ _ w).2

theorem c1b_createRivoApiKey (env : Env) (s : Session) (hs : s.cachedToken.truthy = false) (args : Js) (w : World) :
    (branch_createRivoApiKey env s args w).requests = [] ∧ (branch_createRivoApiKey env s args w).result.isError = true := by
  simp only [branch_createRivoApiKey]
  split_ifs
  · simp [errOut]
  · exact branchOut_of_err _ _ _ (createRivoApiKey_anonRun env s hs _ _ _ _ _ _ _ _ _ _ w).1 (createRivoApiKey_anonRun env s hs _ _ _ _ _ _ _ _ _ _ w).2

theorem c1b_getRivoApiKeys (env : Env) (s : Session) (hs : s.cachedToken.truthy = false) (w : World) :
    (branch_getRivoApiKeys env s w).requests = [] ∧ (branch_getRivoApiKeys env s w).result.isError = true := by
  simp only [branch_getRivoApiKeys]
  exact branchOut_of_err _ _ _ (getRivoApiKeys_anonRun env s hs w).1 (getRivoApiKeys_anonRun env s hs w).2

theorem c1b_updateRivoApiKey (env : Env) (s : Session) (hs : s.cachedToken.truthy = false) (args : Js) (w : World) :
    (branch_updateRivoApiKey env s args w).requests = [] ∧ (branch_updateRivoApiKey env s args w).result.isError = true := by
  simp only [branch_updateRivoApiKey]
  split_ifs
  · simp [errOut]
  · exact branchOut_of_err _ _ _ (updateRivoApiKey_anonRun env s hs _ _ _ _ _ _ _ _ _ w).1 (updateRivoApiKey_anonRun env s hs _ _ _ _ _ _ _ _ _ w).2

theorem c1b_revokeRivoApiKey (env : Env) (s : Session) (hs : s.cachedToken.truthy = false) (args : Js) (w : World) :
    (branch_revokeRivoApiKey env s args w).requests = [] ∧ (branch_revokeRivoApiKey env s args w).result.isError = true := by
  simp only [branch_revokeRivoApiKey]
  split_ifs
  · simp [errOut]
  · exact branchOut_of_err _ _ _ (revokeRivoApiKey_anonRun env s hs _ w).1 (revokeRivoApiKey_anonRun env s hs _ w).2

theorem c1b_deleteRivoApiKey (env : Env) (s : Session) (hs : s.cachedToken.truthy = false) (args : Js) (w : World) :
    (branch_deleteRivoApiKey env s args w).requests = [] ∧ (branch_deleteRivoApiKey env s args w).result.isError = true := by
  simp only [branch_deleteRivoApiKey]
  split_ifs
  · simp [errOut]
  · exact branchOut_of_err _ _ _ (deleteRivoApiKey_anonRun env s hs _ w).1 (deleteRivoApiKey_anonRun env s hs _ w).2

theorem c1b_regenerateRivoApiKey (env : Env) (s : Session) (hs : s.cachedToken.truthy = false) (args : Js) (w : World) :
    (branch_regenerateRivoApiKey env s args w).requests = [] ∧ (branch_regenerateRivoApiKey env s args w).result.isError = true := by
  simp only [branch_regenerateRivoApiKey]
  split_ifs
  · simp [errOut]
  · exact branchOut_of_err _ _ _ (regenerateRivoApiKey_anonRun env s hs _ w).1 (regenerateRivoApiKey_anonRun env s hs _ w).2

theorem c1b_getRivoApiKeyById (env : Env) (s : Session) (hs : s.cachedToken.truthy = false) (args : Js) (w : World) :
    (branch_getRivoApiKeyById env s args w).requests = [] ∧ (branch_getRivoApiKeyById env s args w).result.isError = true := by
  simp only [branch_getRivoApiKeyById]
  split_ifs
  · simp [errOut]
  · exact branchOut_of_err _ _ _ (getRivoApiKeyById_anonRun env s hs _ w).1 (getRivoApiKeyById_anonRun env s hs _ w).2

theorem c1b_adminGetAllApiKeys (env : Env) (s : Session) (hs : s.cachedToken.truthy = false) (args : Js) (w : World) :
    (branch_adminGetAllApiKeys env s args w).requests = [] ∧ (branch_adminGetAllApiKeys env s args w).result.isError = true := by
  simp only [branch_adminGetAllApiKeys]
  split_ifs
  · simp [errOut]
  · exact branchOut_of_err _ _ _ (adminGetAllApiKeys_anonRun env s hs w).1 (adminGetAllApiKeys_anonRun env s hs w).2

theorem c1b_adminGetApiKeysForUser (env : Env) (s : Session) (hs : s.cachedToken.truthy = false) (args : Js) (w : World) :
    (branch_adminGetApiKeysForUser env s args w).requests = [] ∧ (branch_adminGetApiKeysForUser env s args w).result.isError = true := by
  simp only [branch_adminGetApiKeysForUser]
  split_ifs
  · simp [errOut]
  · exact branchOut_of_err _ _ _ (adminGetApiKeysForUser_anonRun env s hs _ w).1 (adminGetApiKeysForUser_anonRun env s hs _ w).2

theorem c1b_adminCreateApiKeyForUser (env : Env) (s : Session) (hs : s.cachedToken.truthy = false) (args : Js) (w : World) :
    (branch_adminCreateApiKeyForUser env s args w).requests = [] ∧ (branch_adminCreateApiKeyForUser env s args w).result.isError = true := by
  simp only [branch_adminCreateApiKeyForUser]
  split_ifs
  · simp [errOut]
  · exact branchOut_of_err _ _ _ (adminCreateApiKeyForUser_anonRun env s hs _ _ _ _ _ _ _ _ _ _ w).1 (adminCreateApiKeyForUser_anonRun env s hs _ _ _ _ _ _ _ _ _ _ w).2

theorem c1b_adminRevokeApiKey (env : Env) (s : Session) (hs : s.cachedToken.truthy = false) (args : Js) (w : World) :
    (branch_adminRevokeApiKey env s args w).requests = [] ∧ (branch_adminRevokeApiKey env s args w).result.isError = true := by
  simp only [branch_adminRevokeApiKey]
  split_ifs
  · simp [errOut]
  · exact branchOut_of_err _ _ _ (adminRevokeApiKey_anonRun env s hs _ w).1 (adminRevokeApiKey_anonRun env s hs _ w).2

theorem c1b_adminDeleteApiKey (env : Env) (s : Session) (hs : s.cachedToken.truthy = false) (args : Js) (w : World) :
    (branch_adminDeleteApiKey env s args w).requests = [] ∧ (branch_adminDeleteApiKey env s args w).result.isError = true := by
  simp only [branch_adminDeleteApiKey]
  split_ifs
  · simp [errOut]
  · exact branchOut_of_err _ _ _ (adminDeleteApiKey_anonRun env s hs _ w).1 (adminDeleteApiKey_anonRun env s hs _ w).2

theorem c1b_adminGetApiKeyUsage (env : Env) (s : Session) (hs : s.cachedToken.truthy = false) (args : Js) (w : World) :
    (branch_adminGetApiKeyUsage env s args w).requests = [] ∧ (branch_adminGetApiKeyUsage env s args w).result.isError = true := by
  simp only [branch_adminGetApiKeyUsage]
  split_ifs
  · simp [errOut]
  · exact branchOut_of_err _ _ _ (adminGetApiKeyUsage_anonRun env s hs _ w).1 (adminGetApiKeyUsage_anonRun env s hs _ w).2

theorem c1b_adminGetApiKeySystemStats (env : Env) (s : Session) (hs : s.cachedToken.truthy = false) (args : Js) (w : World) :
    (branch_adminGetApiKeySystemStats env s args w).requests = [] ∧ (branch_adminGetApiKeySystemStats env s args w).result.isError = true := by
  simp only [branch_adminGetApiKeySystemStats]
  split_ifs
  · simp [errOut]
  · exact branchOut_of_err _ _ _ (adminGetApiKeySystemStats_anonRun env s hs w).1 (adminGetApiKeySystemStats_anonRun env s hs w).2

theorem c1b_adminResetApiKeyRateLimit (env : Env) (s : Session) (hs : s.cachedToken.truthy = false) (args : Js) (w : World) :
    (branch_adminResetApiKeyRateLimit env s args w).requests = [] ∧ (branch_adminResetApiKeyRateLimit env s args w).result.isError = true := by
  simp only [branch_adminResetApiKeyRateLimit]
  split_ifs
  · simp [errOut]
  · exact branchOut_of_err _ _ _ (adminResetApiKeyRateLimit_anonRun env s hs _ w).1 (adminResetApiKeyRateLimit_anonRun env s hs _ w).2

theorem c1b_adminUpdateApiKeyScopes (env : Env) (s : Session) (hs : s.cachedToken.truthy = false) (args : Js) (w : World) :
    (branch_adminUpdateApiKeyScopes env s args w).requests = [] ∧ (branch_adminUpdateApiKeyScopes env s args w).result.isError = true := by
  simp only [branch_adminUpdateApiKeyScopes]
  split_ifs
  · simp [errOut]
  · exact branchOut_of_err _ _ _ (adminUpdateApiKeyScopes_anonRun env s hs _ _ w).1 (adminUpdateApiKeyScopes_anonRun env s hs _ _ w).2

theorem c1b_getAddOnPackages (env : Env) (s : Session) (hs : s.cachedToken.truthy = false) (args : Js) (w : World) :
    (branch_getAddOnPackages env s args w).requests = [] ∧ (branch_getAddOnPackages env s args w).result.isError = true := by
  simp only [branch_getAddOnPackages]
  split_ifs
  · simp [errOut]
  · exact branchOut_of_err _ _ _ (getAddOnPackages_anonRun env s hs w).1 (getAddOnPackages_anonRun env s hs w).2

theorem c1b_purchaseAddOn (env : Env) (s : Session) (hs : s.cachedToken.truthy = false) (args : Js) (w : World) :
    (branch_purchaseAddOn env s args w).requests = [] ∧ (branch_purchaseAddOn env s args w).result.isError = true := by
  simp only [branch_purchaseAddOn]
  split_ifs
  · simp [errOut]
  · exact branchOut_of_err _ _ _ (purchaseAddOn_anonRun env s hs _ _ _ _ _ _ _ w).1 (purchaseAddOn_anonRun env s hs _ _ _ _ _ _ _ w).2

theorem c1b_getAddOnsForApiKey (env : Env) (s : Session) (hs : s.cachedToken.truthy = false) (args : Js) (w : World) :
    (branch_getAddOnsForApiKey env s args w).requests = [] ∧ (branch_getAddOnsForApiKey env s args w).result.isError = true := by
  simp only [branch_getAddOnsForApiKey]
  split_ifs
  · simp [errOut]
  · exact branchOut_of_err _ _ _ (getAddOnsForApiKey_anonRun env s hs _ w).1 (getAddOnsForApiKey_anonRun env s hs _ w).2

theorem c1b_getActiveAddOnsForApiKey (env : Env) (s : Session) (hs : s.cachedToken.truthy = false) (args : Js) (w : World) :
    (branch_getActiveAddOnsForApiKey env s args w).requests = [] ∧ (branch_getActiveAddOnsForApiKey env s args w).result.isError = true := by
  simp only [branch_getActiveAddOnsForApiKey]
  split_ifs
  · simp [errOut]
  · exact branchOut_of_err _ _ _ (getActiveAddOnsForApiKey_anonRun env s hs _ w).1 (getActiveAddOnsForApiKey_anonRun env s hs _ w).2

theorem c1b_getAddOnRecommendations (env : Env) (s : Session) (hs : s.cachedToken.truthy = false) (args : Js) (w : World) :
    (branch_getAddOnRecommendations env s args w).requests = [] ∧ (branch_getAddOnRecommendations env s args w).result.isError = true := by
  simp only [branch_getAddOnRecommendations]
  split_ifs
  · simp [errOut]
  · exact branchOut_of_err _ _ _ (getAddOnRecommendations_anonRun env s hs _ _ w).1 (getAddOnRecommendations_anonRun env s hs _ _ w).2

theorem c1b_cancelAddOn (env : Env) (s : Session) (hs : s.cachedToken.truthy = false) (args : Js) (w : World) :
    (branch_cancelAddOn env s args w).requests = [] ∧ (branch_cancelAddOn env s args w).result.isError = true := by
  simp only [branch_cancelAddOn]
  split_ifs
  · simp [errOut]
  · exact branchOut_of_err _ _ _ (cancelAddOn_anonRun env s hs _ _ w).1 (cancelAddOn_anonRun env s hs _ _ w).2

theorem c1b_renewAddOn (env : Env) (s : Session) (hs : s.cachedToken.truthy = false) (args : Js) (w : World) :
    (branch_renewAddOn env s args w).requests = [] ∧ (branch_renewAddOn env s args w).result.isError = true := by
  simp only [branch_renewAddOn]
  split_ifs <;>
    first
      | exact ⟨rfl, rfl⟩
      | exact branchOut_of_err _ _ _ (renewAddOn_anonRun env s hs _ _ w).1 (renewAddOn_anonRun env s hs _ _ w).2

theorem c1b_getExpiringAddOns (env : Env) (s : Session) (hs : s.cachedToken.truthy = false) (args : Js) (w : World) :
    (branch_getExpiringAddOns env s args w).requests = [] ∧ (branch_getExpiringAddOns env s args w).result.isError = true := by
  simp only [branch_getExpiringAddOns]
  split_ifs
  · simp [errOut]
  · exact branchOut_of_err _ _ _ (getExpiringAddOns_anonRun env s hs w).1 (getExpiringAddOns_anonRun env s hs w).2

theorem c1b_getNearlyExhaustedAddOns (env : Env) (s : Session) (hs : s.cachedToken.truthy = false) (args : Js) (w : World) :
    (branch_getNearlyExhaustedAddOns env s args w).requests = [] ∧ (branch_getNearlyExhaustedAddOns env s args w).result.isError = true := by
  simp only [branch_getNearlyExhaustedAddOns]
  split_ifs
  · simp [errOut]
  · exact branchOut_of_err _ _ _ (getNearlyExhaustedAddOns_anonRun env s hs w).1 (getNearlyExhaustedAddOns_anonRun env s hs w).2

theorem c1b_processAutoRenewals (env : Env) (s : Session) (hs : s.cachedToken.truthy = false) (args : Js) (w : World) :
    (branch_processAutoRenewals env s args w).requests = [] ∧ (branch_processAutoRenewals env s args w).result.isError = true := by
  simp only [branch_processAutoRenewals]
  split_ifs
  · simp [errOut]
  · exact branchOut_of_err _ _ _ (processAutoRenewals_anonRun env s hs w).1 (processAutoRenewals_anonRun env s hs w).2

theorem c1b_cleanupExpiredAddOns (env : Env) (s : Session) (hs : s.cachedToken.truthy = false) (args : Js) (w : World) :
    (branch_cleanupExpiredAddOns env s args w).requests = [] ∧ (branch_cleanupExpiredAddOns env s args w).result.isError = true := by
  simp only [branch_cleanupExpiredAddOns]
  split_ifs
  · simp [errOut]
  · exact branchOut_of_err _ _ _ (cleanupExpiredAddOns_anonRun env s hs w).1 (cleanupExpiredAddOns_anonRun env s hs w).2

theorem c2b_fetchBrandDetails (env : Env) (s : Session) (args : Js) (w : World) (m : String)
    (h : (branch_fetchBrandDetails env s args w).handlerThrew = some m) :
    (branch_fetchBrandDetails env s args w).result.isError = true ∧
    ∃ b ∈ (branch_fetchBrandDetails env s args w).result.content, ContainsStr b.text m := by
  simp only [branch_fetchBrandDetails] at h ⊢
  split_ifs at h ⊢
  · simp [errOut] at h
  · exact branchOut_c2 _ _ _ _ h

theorem c2b_login (env : Env) (s : Session) (args : Js) (w : World) (m : String)
    (h : (branch_login env s args w).handlerThrew = some m) :
    (branch_login env s args w).result.isError = true ∧
    ∃ b ∈ (branch_login env s args w).result.content, ContainsStr b.text m := by
  simp only [branch_login] at h ⊢
  split_ifs at h ⊢
  · simp [errOut] at h
  · exact branchOut_c2 _ _ _ _ h

theorem c2b_refreshToken (env : Env) (s : Session) (args : Js) (w : World) (m : String)
    (h : (branch_refreshToken env s args w).handlerThrew = some m) :
    (branch_refreshToken env s args w).result.isError = true ∧
    ∃ b ∈ (branch_refreshToken env s args w).result.content, ContainsStr b.text m := by
  simp only [branch_refreshToken] at h ⊢
  exact branchOut_c2 _ _ _ _ h

theorem c2b_getUserById (env : Env) (s : Session) (args : Js) (w : World) (m : String)
    (h : (branch_getUserById env s args w).handlerThrew = some m) :
    (branch_getUserById env s args w).result.isError = true ∧
    ∃ b ∈ (branch_getUserById env s args w).result.content, ContainsStr b.text m := by
  simp only [branch_getUserById] at h ⊢
  split_ifs at h ⊢
  · simp [errOut] at h
  · exact branchOut_c2 _ _ _ _ h

theorem c2b_forward (env : Env) (s : Session) (args : Js) (w : World) (m : String)
    (h : (branch_forward env s args w).handlerThrew = some m) :
    (branch_forward env s args w).result.isError = true ∧
    ∃ b ∈ (branch_forward env s args w).result.content, ContainsStr b.text m := by
  simp only [branch_forward] at h ⊢
  split_ifs at h ⊢
  · simp [errOut] at h
  · exact branchOut_c2 _ _ _ _ h

theorem c2b_updateUserProfile (env : Env) (s : Session) (args : Js) (w : World) (m : String)
    (h : (branch_updateUserProfile env s args w).handlerThrew = some m) :
    (branch_updateUserProfile env s args w).result.isError = true ∧
    ∃ b ∈ (branch_updateUserProfile env s args w).result.content, ContainsStr b.text m := by
  simp only [branch_updateUserProfile] at h ⊢
  exact branchOut_c2 _ _ _ _ h

theorem c2b_forgotPassword (env : Env) (s : Session) (args : Js) (w : World) (m : String)
    (h : (branch_forgotPassword env s args w).handlerThrew = some m) :
    (branch_forgotPassword env s args w).result.isError = true ∧
    ∃ b ∈ (branch_forgotPassword env s args w).result.content, ContainsStr b.text m := by
  simp only [branch_forgotPassword] at h ⊢
  split_ifs at h ⊢
  · simp [errOut] at h
  · exact branchOut_c2 _ _ _ _ h

theorem c2b_resetPassword (env : Env) (s : Session) (args : Js) (w : World) (m : String)
    (h : (branch_resetPassword env s args w).handlerThrew = some m) :
    (branch_resetPassword env s args w).result.isError = true ∧
    ∃ b ∈ (branch_resetPassword env s args w).result.content, ContainsStr b.text m := by
  simp only [branch_resetPassword] at h ⊢
  split_ifs at h ⊢
  · simp [errOut] at h
  · exact branchOut_c2 _ _ _ _ h

theorem c2b_createRivoApiKey (env : Env) (s : Session) (args : Js) (w : World) (m : String)
    (h : (branch_createRivoApiKey env s args w).handlerThrew = some m) :
    (branch_createRivoApiKey env s args w).result.isError = true ∧
    ∃ b ∈ (branch_createRivoApiKey env s args w).result.content, ContainsStr b.text m := by
  simp only [branch_createRivoApiKey] at h ⊢
  split_ifs at h ⊢
  · simp [errOut] at h
  · exact branchOut_c2 _ _ _ _ h

theorem c2b_adminGetAllApiKeys (env : Env) (s : Session) (args : Js) (w : World) (m : String)
    (h : (branch_adminGetAllApiKeys env s args w).handlerThrew = some m) :
    (branch_adminGetAllApiKeys env s args w).result.isError = true ∧
    ∃ b ∈ (branch_adminGetAllApiKeys env s args w).result.content, ContainsStr b.text m := by
  simp only [branch_adminGetAllApiKeys] at h ⊢
  split_ifs at h ⊢
  · simp [errOut] at h
  · exact branchOut_c2 _ _ _ _ h

theorem c2b_adminGetApiKeysForUser (env : Env) (s : Session) (args : Js) (w : World) (m : String)
    (h : (branch_adminGetApiKeysForUser env s args w).handlerThrew = some m) :
    (branch_adminGetApiKeysForUser env s args w).result.isError = true ∧
    ∃ b ∈ (branch_adminGetApiKeysForUser env s args w).result.content, ContainsStr b.text m := by
  simp only [branch_adminGetApiKeysForUser] at h ⊢
  split_ifs at h ⊢
  · simp [errOut] at h
  · exact branchOut_c2 _ _ _ _ h

theorem c2b_adminCreateApiKeyForUser (env : Env) (s : Session) (args : Js) (w : World) (m : String)
    (h : (branch_adminCreateApiKeyForUser env s args w).handlerThrew = some m) :
    (branch_adminCreateApiKeyForUser env s args w).result.isError = true ∧
    ∃ b ∈ (branch_adminCreateApiKeyForUser env s args w).result.content, ContainsStr b.text m := by
  simp only [branch_adminCreateApiKeyForUser] at h ⊢
  split_ifs at h ⊢
  · simp [errOut] at h
  · exact branchOut_c2 _ _ _ _ h

theorem c2b_adminRevokeApiKey (env : Env) (s : Session) (args : Js) (w : World) (m : String)
    (h : (branch_adminRevokeApiKey env s args w).handlerThrew = some m) :
    (branch_adminRevokeApiKey env s args w).result.isError = true ∧
    ∃ b ∈ (branch_adminRevokeApiKey env s args w).result.content, ContainsStr b.text m := by
  simp only [branch_adminRevokeApiKey] at h ⊢
  split_ifs at h ⊢
  · simp [errOut] at h
  · exact branchOut_c2 _ _ _ _ h

theorem c2b_adminDeleteApiKey (env : Env) (s : Session) (args : Js) (w : World) (m : String)
    (h : (branch_adminDeleteApiKey env s args w).handlerThrew = some m) :
    (branch_adminDeleteApiKey env s args w).result.isError = true ∧
    ∃ b ∈ (branch_adminDeleteApiKey env s args w).result.content, ContainsStr b.text m := by
  simp only [branch_adminDeleteApiKey] at h ⊢
  split_ifs at h ⊢
  · simp [errOut] at h
  · exact branchOut_c2 _ _ _ _ h

theorem c2b_adminGetApiKeyUsage (env : Env) (s : Session) (args : Js) (w : World) (m : String)
    (h : (branch_adminGetApiKeyUsage env s args w).handlerThrew = some m) :
    (branch_adminGetApiKeyUsage env s args w).result.isError = true ∧
    ∃ b ∈ (branch_adminGetApiKeyUsage env s args w).result.content, ContainsStr b.text m := by
  simp only [branch_adminGetApiKeyUsage] at h ⊢
  split_ifs at h ⊢
  · simp [errOut] at h
  · exact branchOut_c2 _ _ _ _ h

theorem c2b_adminGetApiKeySystemStats (env : Env) (s : Session) (args : Js) (w : World) (m : String)
    (h : (branch_adminGetApiKeySystemStats env s args w).handlerThrew = some m) :
    (branch_adminGetApiKeySystemStats env s args w).result.isError = true ∧
    ∃ b ∈ (branch_adminGetApiKeySystemStats env s args w).result.content, ContainsStr b.text m := by
  simp only [branch_adminGetApiKeySystemStats] at h ⊢
  split_ifs at h ⊢
  · simp [errOut] at h
  · exact branchOut_c2 _ _ _ _ h

theorem c2b_adminResetApiKeyRateLimit (env : Env) (s : Session) (args : Js) (w : World) (m : String)
    (h : (branch_adminResetApiKeyRateLimit env s args w).handlerThrew = some m) :
    (branch_adminResetApiKeyRateLimit env s args w).result.isError = true ∧
    ∃ b ∈ (branch_adminResetApiKeyRateLimit env s args w).result.content, ContainsStr b.text m := by
  simp only [branch_adminResetApiKeyRateLimit] at h ⊢
  split_ifs at h ⊢
  · simp [errOut] at h
  · exact branchOut_c2 _ _ _ _ h

theorem c2b_adminUpdateApiKeyScopes (env : Env) (s : Session) (args : Js) (w : World) (m : String)
    (h : (branch_adminUpdateApiKeyScopes env s args w).handlerThrew = some m) :
    (branch_adminUpdateApiKeyScopes env s args w).result.isError = true ∧
    ∃ b ∈ (branch_adminUpdateApiKeyScopes env s args w).result.content, ContainsStr b.text m := by
  simp only [branch_adminUpdateApiKeyScopes] at h ⊢
  split_ifs at h ⊢
  · simp [errOut] at h
  · exact branchOut_c2 _ _ _ _ h

theorem c2b_getAddOnPackages (env : Env) (s : Session) (args : Js) (w : World) (m : String)
    (h : (branch_getAddOnPackages env s args w).handlerThrew = some m) :
    (branch_getAddOnPackages env s args w).result.isError = true ∧
    ∃ b ∈ (branch_getAddOnPackages env s args w).result.content, ContainsStr b.text m := by
  simp only [branch_getAddOnPackages] at h ⊢
  split_ifs at h ⊢
  · simp [errOut] at h
  · exact branchOut_c2 _ _ _ _ h

theorem c2b_purchaseAddOn (env : Env) (s : Session) (args : Js) (w : World) (m : String)
    (h : (branch_purchaseAddOn env s args w).handlerThrew = some m) :
    (branch_purchaseAddOn env s args w).result.isError = true ∧
    ∃ b ∈ (branch_purchaseAddOn env s args w).result.content, ContainsStr b.text m := by
  simp only [branch_purchaseAddOn] at h ⊢
  split_ifs at h ⊢
  · simp [errOut] at h
  · exact branchOut_c2 _ _ _ _ h

theorem c2b_getAddOnsForApiKey (env : Env) (s : Session) (args : Js) (w : World) (m : String)
    (h : (branch_getAddOnsForApiKey env s args w).handlerThrew = some m) :
    (branch_getAddOnsForApiKey env s args w).result.isError = true ∧
    ∃ b ∈ (branch_getAddOnsForApiKey env s args w).result.content, ContainsStr b.text m := by
  simp only [branch_getAddOnsForApiKey] at h ⊢
  split_ifs at h ⊢
  · simp [errOut] at h
  · exact branchOut_c2 _ _ _ _ h

theorem c2b_getActiveAddOnsForApiKey (env : Env) (s : Session) (args : Js) (w : World) (m : String)
    (h : (branch_getActiveAddOnsForApiKey env s args w).handlerThrew = some m) :
    (branch_getActiveAddOnsForApiKey env s args w).result.isError = true ∧
    ∃ b ∈ (branch_getActiveAddOnsForApiKey env s args w).result.content, ContainsStr b.text m := by
  simp only [branch_getActiveAddOnsForApiKey] at h ⊢
  split_ifs at h ⊢
  · simp [errOut] at h
  · exact branchOut_c2 _ _ _ _ h

theorem c2b_getAddOnRecommendations (env : Env) (s : Session) (args : Js) (w : World) (m : String)
    (h : (branch_getAddOnRecommendations env s args w).handlerThrew = some m) :
    (branch_getAddOnRecommendations env s args w).result.isError = true ∧
    ∃ b ∈ (branch_getAddOnRecommendations env s args w).result.content, ContainsStr b.text m := by
  simp only [branch_getAddOnRecommendations] at h ⊢
  split_ifs at h ⊢
  · simp [errOut] at h
  · exact branchOut_c2 _ _ _ _ h

theorem c2b_cancelAddOn (env : Env) (s : Session) (args : Js) (w : World) (m : String)
    (h : (branch_cancelAddOn env s args w).handlerThrew = some m) :
    (branch_cancelAddOn env s args w).result.isError = true ∧
    ∃ b ∈ (branch_cancelAddOn env s args w).result.content, ContainsStr b.text m := by
  simp only [branch_cancelAddOn] at h ⊢
  split_ifs at h ⊢
  · simp [errOut] at h
  · exact branchOut_c2 _ _ _ _ h

theorem c2b_renewAddOn (env : Env) (s : Session) (args : Js) (w : World) (m : String)
    (h : (branch_renewAddOn env s args w).handlerThrew = some m) :
    (branch_renewAddOn env s args w).result.isError = true ∧
    ∃ b ∈ (branch_renewAddOn env s args w).result.content, ContainsStr b.text m := by
  simp only [branch_renewAddOn] at h ⊢
  split_ifs at h ⊢ <;>
    first
      | exact Option.noConfusion h
      | exact branchOut_c2 _ _ _ _ h

theorem c2b_getExpiringAddOns (env : Env) (s : Session) (args : Js) (w : World) (m : String)
    (h : (branch_getExpiringAddOns env s args w).handlerThrew = some m) :
    (branch_getExpiringAddOns env s args w).result.isError = true ∧
    ∃ b ∈ (branch_getExpiringAddOns env s args w).result.content, ContainsStr b.text m := by
  simp only [branch_getExpiringAddOns] at h ⊢
  split_ifs at h ⊢
  · simp [errOut] at h
  · exact branchOut_c2 _ _ _ _ h

theorem c2b_getNearlyExhaustedAddOns (env : Env) (s : Session) (args : Js) (w : World) (m : String)
    (h : (branch_getNearlyExhaustedAddOns env s args w).handlerThrew = some m) :
    (branch_getNearlyExhaustedAddOns env s args w).result.isError = true ∧
    ∃ b ∈ (branch_getNearlyExhaustedAddOns env s args w).result.content, ContainsStr b.text m := by
  simp only [branch_getNearlyExhaustedAddOns] at h ⊢
  split_ifs at h ⊢
  · simp [errOut] at h
  · exact branchOut_c2 _ _ _ _ h

theorem c2b_processAutoRenewals (env : Env) (s : Session) (args : Js) (w : World) (m : String)
    (h : (branch_processAutoRenewals env s args w).handlerThrew = some m) :
    (branch_processAutoRenewals env s args w).result.isError = true ∧
    ∃ b ∈ (branch_processAutoRenewals env s args w).result.content, ContainsStr b.text m := by
  simp only [branch_processAutoRenewals] at h ⊢
  split_ifs at h ⊢
  · simp [errOut] at h
  · exact branchOut_c2 _ _ _ _ h

theorem c2b_cleanupExpiredAddOns (env : Env) (s : Session) (args : Js) (w : World) (m : String)
    (h : (branch_cleanupExpiredAddOns env s args w).handlerThrew = some m) :
    (branch_cleanupExpiredAddOns env s args w).result.isError = true ∧
    ∃ b ∈ (branch_cleanupExpiredAddOns env s args w).result.content, ContainsStr b.text m := by
  simp only [branch_cleanupExpiredAddOns] at h ⊢
  split_ifs at h ⊢
  · simp [errOut] at h
  · exact branchOut_c2 _ _ _ _ h

theorem c2b_getRivoApiKeys (env : Env) (s : Session) (w : World) (m : String)
    (h : (branch_getRivoApiKeys env s w).handlerThrew = some m) :
    (branch_getRivoApiKeys env s w).result.isError = true ∧
    ∃ b ∈ (branch_getRivoApiKeys env s w).result.content, ContainsStr b.text m := by
  simp only [branch_getRivoApiKeys] at h ⊢
  exact branchOut_c2 _ _ _ _ h

theorem c2b_getBrandsPaged (env : Env) (s : Session) (args : Js) (w : World) (m : String)
    (h : (branch_getBrandsPaged env s args w).handlerThrew = some m) :
    (branch_getBrandsPaged env s args w).result.isError = true ∧
    ∃ b ∈ (branch_getBrandsPaged env s args w).result.content, ContainsStr b.text m := by
  simp only [branch_getBrandsPaged] at h ⊢
  exact branchOut_c2 _ _ _ _ h

theorem c2b_getRivoApiKeyById (env : Env) (s : Session) (args : Js) (w : World) (m : String)
    (h : (branch_getRivoApiKeyById env s args w).handlerThrew = some m) :
    (branch_getRivoApiKeyById env s args w).result.isError = true ∧
    ∃ b ∈ (branch_getRivoApiKeyById env s args w).result.content, ContainsStr b.text m := by
  simp only [branch_getRivoApiKeyById] at h ⊢
  split_ifs at h ⊢
  · simp [errOut] at h
  · exact branchOut_c2 _ _ _ _ h

theorem c2b_updateRivoApiKey (env : Env) (s : Session) (args : Js) (w : World) (m : String)
    (h : (branch_updateRivoApiKey env s args w).handlerThrew = some m) :
    (branch_updateRivoApiKey env s args w).result.isError = true ∧
    ∃ b ∈ (branch_updateRivoApiKey env s args w).result.content, ContainsStr b.text m := by
  simp only [branch_updateRivoApiKey] at h ⊢
  split_ifs at h ⊢
  · simp [errOut] at h
  · exact branchOut_c2 _ _ _ _ h

theorem c2b_revokeRivoApiKey (env : Env) (s : Session) (args : Js) (w : World) (m : String)
    (h : (branch_revokeRivoApiKey env s args w).handlerThrew = some m) :
    (branch_revokeRivoApiKey env s args w).result.isError = true ∧
    ∃ b ∈ (branch_revokeRivoApiKey env s args w).result.content, ContainsStr b.text m := by
  simp only [branch_revokeRivoApiKey] at h ⊢
  split_ifs at h ⊢
  · simp [errOut] at h
  · exact branchOut_c2 _ _ _ _ h

theorem c2b_regenerateRivoApiKey (env : Env) (s : Session) (args : Js) (w : World) (m : String)
    (h : (branch_regenerateRivoApiKey env s args w).handlerThrew = some m) :
    (branch_regenerateRivoApiKey env s args w).result.isError = true ∧
    ∃ b ∈ (branch_regenerateRivoApiKey env s args w).result.content, ContainsStr b.text m := by
  simp only [branch_regenerateRivoApiKey] at h ⊢
  split_ifs at h ⊢
  · simp [errOut] at h
  · exact branchOut_c2 _ _ _ _ h

theorem c2b_deleteRivoApiKey (env : Env) (s : Session) (args : Js) (w : World) (m : String)
    (h : (branch_deleteRivoApiKey env s args w).handlerThrew = some m) :
    (branch_deleteRivoApiKey env s args w).result.isError = true ∧
    ∃ b ∈ (branch_deleteRivoApiKey env s args w).result.content, ContainsStr b.text m := by
  simp only [branch_deleteRivoApiKey] at h ⊢
  split_ifs at h ⊢
  · simp [errOut] at h
  · exact branchOut_c2 _ _ _ _ h

theorem c2b_getBrandDetailsById (env : Env) (s : Session) (args : Js) (w : World) (m : String)
    (h : (branch_getBrandDetailsById env s args w).handlerThrew = some m) :
    (branch_getBrandDetailsById env s args w).result.isError = true ∧
    ∃ b ∈ (branch_getBrandDetailsById env s args w).result.content, ContainsStr b.text m := by
  simp only [branch_getBrandDetailsById] at h ⊢
  split_ifs at h ⊢
  · simp [errOut] at h
  · exact branchOut_c2 _ _ _ _ h

theorem c2b_getBrandByWebsite (env : Env) (s : Session) (args : Js) (w : World) (m : String)
    (h : (branch_getBrandByWebsite env s args w).handlerThrew = some m) :
    (branch_getBrandByWebsite env s args w).result.isError = true ∧
    ∃ b ∈ (branch_getBrandByWebsite env s args w).result.content, ContainsStr b.text m := by
  simp only [branch_getBrandByWebsite] at h ⊢
  split_ifs at h ⊢
  · simp [errOut] at h
  · exact branchOut_c2 _ _ _ _ h

theorem c2b_getBrandByName (env : Env) (s : Session) (args : Js) (w : World) (m : String)
    (h : (branch_getBrandByName env s args w).handlerThrew = some m) :
    (branch_getBrandByName env s args w).result.isError = true ∧
    ∃ b ∈ (branch_getBrandByName env s args w).result.content, ContainsStr b.text m := by
  simp only [branch_getBrandByName] at h ⊢
  split_ifs at h ⊢
  · simp [errOut] at h
  · exact branchOut_c2 _ _ _ _ h

theorem c2b_searchBrands (env : Env) (s : Session) (args : Js) (w : World) (m : String)
    (h : (branch_searchBrands env s args w).handlerThrew = some m) :
    (branch_searchBrands env s args w).result.isError = true ∧
    ∃ b ∈ (branch_searchBrands env s args w).result.content, ContainsStr b.text m := by
  simp only [branch_searchBrands] at h ⊢
  split_ifs at h ⊢
  · simp [errOut] at h
  · exact branchOut_c2 _ _ _ _ h

theorem c2b_getBrandsByDomain (env : Env) (s : Session) (args : Js) (w : World) (m : String)
    (h : (branch_getBrandsByDomain env s args w).handlerThrew = some m) :
    (branch_getBrandsByDomain env s args w).result.isError = true ∧
    ∃ b ∈ (branch_getBrandsByDomain env s args w).result.content, ContainsStr b.text m := by
  simp only [branch_getBrandsByDomain] at h ⊢
  split_ifs at h ⊢
  · simp [errOut] at h
  · exact branchOut_c2 _ _ _ _ h

theorem c2b_getBrandStatistics (env : Env) (s : Session) (w : World) (m : String)
    (h : (branch_getBrandStatistics env s w).handlerThrew = some m) :
    (branch_getBrandStatistics env s w).result.isError = true ∧
    ∃ b ∈ (branch_getBrandStatistics env s w).result.content, ContainsStr b.text m := by
  simp only [branch_getBrandStatistics] at h ⊢
  exact branchOut_c2 _ _ _ _ h

theorem c2b_getBrandDashboardSummary (env : Env) (s : Session) (w : World) (m : String)
    (h : (branch_getBrandDashboardSummary env s w).handlerThrew = some m) :
    (branch_getBrandDashboardSummary env s w).result.isError = true ∧
    ∃ b ∈ (branch_getBrandDashboardSummary env s w).result.content, ContainsStr b.text m := by
  simp only [branch_getBrandDashboardSummary] at h ⊢
  exact branchOut_c2 _ _ _ _ h

theorem c2b_getBrandDashboardSearches (env : Env) (s : Session) (args : Js) (w : World) (m : String)
    (h : (branch_getBrandDashboardSearches env s args w).handlerThrew = some m) :
    (branch_getBrandDashboardSearches env s args w).result.isError = true ∧
    ∃ b ∈ (branch_getBrandDashboardSearches env s args w).result.content, ContainsStr b.text m := by
  simp only [branch_getBrandDashboardSearches] at h ⊢
  exact branchOut_c2 _ _ _ _ h

theorem c2b_getBrandDashboardDetails (env : Env) (s : Session) (args : Js) (w : World) (m : String)
    (h : (branch_getBrandDashboardDetails env s args w).handlerThrew = some m) :
    (branch_getBrandDashboardDetails env s args w).result.isError = true ∧
    ∃ b ∈ (branch_getBrandDashboardDetails env s args w).result.content, ContainsStr b.text m := by
  simp only [branch_getBrandDashboardDetails] at h ⊢
  split_ifs at h ⊢
  · simp [errOut] at h
  · exact branchOut_c2 _ _ _ _ h

theorem c2b_getAllBrandsWithSearch (env : Env) (s : Session) (args : Js) (w : World) (m : String)
    (h : (branch_getAllBrandsWithSearch env s args w).handlerThrew = some m) :
    (branch_getAllBrandsWithSearch env s args w).result.isError = true ∧
    ∃ b ∈ (branch_getAllBrandsWithSearch env s args w).result.content, ContainsStr b.text m := by
  simp only [branch_getAllBrandsWithSearch] at h ⊢
  exact branchOut_c2 _ _ _ _ h

theorem c2b_getAllBrandsLegacy (env : Env) (s : Session) (args : Js) (w : World) (m : String)
    (h : (branch_getAllBrandsLegacy env s args w).handlerThrew = some m) :
    (branch_getAllBrandsLegacy env s args w).result.isError = true ∧
    ∃ b ∈ (branch_getAllBrandsLegacy env s args w).result.content, ContainsStr b.text m := by
  simp only [branch_getAllBrandsLegacy] at h ⊢
  exact branchOut_c2 _ _ _ _ h

theorem c2b_serveBrandAsset (env : Env) (s : Session) (args : Js) (w : World) (m : String)
    (h : (branch_serveBrandAsset env s args w).handlerThrew = some m) :
    (branch_serveBrandAsset env s args w).result.isError = true ∧
    ∃ b ∈ (branch_serveBrandAsset env s args w).result.content, ContainsStr b.text m := by
  simp only [branch_serveBrandAsset] at h ⊢
  split_ifs at h ⊢
  · simp [errOut] at h
  · exact branchOut_c2 _ _ _ _ h

theorem c2b_serveBrandImage (env : Env) (s : Session) (args : Js) (w : World) (m : String)
    (h : (branch_serveBrandImage env s args w).handlerThrew = some m) :
    (branch_serveBrandImage env s args w).result.isError = true ∧
    ∃ b ∈ (branch_serveBrandImage env s args w).result.content, ContainsStr b.text m := by
  simp only [branch_serveBrandImage] at h ⊢
  split_ifs at h ⊢
  · simp [errOut] at h
  · exact branchOut_c2 _ _ _ _ h

theorem c2b_extractBrandData (env : Env) (s : Session) (args : Js) (w : World) (m : String)
    (h : (branch_extractBrandData env s args w).handlerThrew = some m) :
    (branch_extractBrandData env s args w).result.isError = true ∧
    ∃ b ∈ (branch_extractBrandData env s args w).result.content, ContainsStr b.text m := by
  simp only [branch_extractBrandData] at h ⊢
  split_ifs at h ⊢
  · simp [errOut] at h
  · exact branchOut_c2 _ _ _ _ h

theorem c2b_claimBrand (env : Env) (s : Session) (args : Js) (w : World) (m : String)
    (h : (branch_claimBrand env s args w).handlerThrew = some m) :
    (branch_claimBrand env s args w).result.isError = true ∧
    ∃ b ∈ (branch_claimBrand env s args w).result.content, ContainsStr b.text m := by
  simp only [branch_claimBrand] at h ⊢
  split_ifs at h ⊢
  · simp [errOut] at h
  · exact branchOut_c2 _ _ _ _ h

theorem c2b_getBrandPerformanceTest (env : Env) (s : Session) (w : World) (m : String)
    (h : (branch_getBrandPerformanceTest env s w).handlerThrew = some m) :
    (branch_getBrandPerformanceTest env s w).result.isError = true ∧
    ∃ b ∈ (branch_getBrandPerformanceTest env s w).result.content, ContainsStr b.text m := by
  simp only [branch_getBrandPerformanceTest] at h ⊢
  exact branchOut_c2 _ _ _ _ h

theorem c2b_getBrandsByCategory (env : Env) (s : Session) (args : Js) (w : World) (m : String)
    (h : (branch_getBrandsByCategory env s args w).handlerThrew = some m) :
    (branch_getBrandsByCategory env s args w).result.isError = true ∧
    ∃ b ∈ (branch_getBrandsByCategory env s args w).result.content, ContainsStr b.text m := by
  simp only [branch_getBrandsByCategory] at h ⊢
  split_ifs at h ⊢
  · simp [errOut] at h
  · exact branchOut_c2 _ _ _ _ h

theorem c2b_getBrandsByCategoryAndSubcategory (env : Env) (s : Session) (args : Js) (w : World) (m : String)
    (h : (branch_getBrandsByCategoryAndSubcategory env s args w).handlerThrew = some m) :
    (branch_getBrandsByCategoryAndSubcategory env s args w).result.isError = true ∧
    ∃ b ∈ (branch_getBrandsByCategoryAndSubcategory env s args w).result.content, ContainsStr b.text m := by
  simp only [branch_getBrandsByCategoryAndSubcategory] at h ⊢
  split_ifs at h ⊢
  · simp [errOut] at h
  · exact branchOut_c2 _ _ _ _ h

theorem c2b_getBrandByIdCategoryAndSubcategory (env : Env) (s : Session) (args : Js) (w : World) (m : String)
    (h : (branch_getBrandByIdCategoryAndSubcategory env s args w).handlerThrew = some m) :
    (branch_getBrandByIdCategoryAndSubcategory env s args w).result.isError = true ∧
    ∃ b ∈ (branch_getBrandByIdCategoryAndSubcategory env s args w).result.content, ContainsStr b.text m := by
  simp only [branch_getBrandByIdCategoryAndSubcategory] at h ⊢
  split_ifs at h ⊢ <;>
    first
      | exact Option.noConfusion h
      | exact branchOut_c2 _ _ _ _ h

theorem c5b_getUserById (env : Env) (s : Session) (args : Js) (w : World) :
    ∀ req ∈ (branch_getUserById env s args w).requests, ("Authorization", bearerOf s) ∈ req.headers := by
  simp only [branch_getUserById]
  split_ifs
  · intro req hreq
    simp [errOut] at hreq
  · rw [branchOut_requests]
    exact getUserById_authHeader env s _ w

theorem c5b_updateUserProfile (env : Env) (s : Session) (args : Js) (w : World) :
    ∀ req ∈ (branch_updateUserProfile env s args w).requests, ("Authorization", bearerOf s) ∈ req.headers := by
  simp only [branch_updateUserProfile]
  rw [branchOut_requests]
  exact updateUserProfile_authHeader env s _ w

theorem c5b_getBrandDetailsById (env : Env) (s : Session) (args : Js) (w : World) :
    ∀ req ∈ (branch_getBrandDetailsById env s args w).requests, ("Authorization", bearerOf s) ∈ req.headers := by
  simp only [branch_getBrandDetailsById]
  split_ifs
  · intro req hreq
    simp [errOut] at hreq
  · rw [branchOut_requests]
    exact getBrandDetailsById_authHeader env s _ w

theorem c5b_getBrandByWebsite (env : Env) (s : Session) (args : Js) (w : World) :
    ∀ req ∈ (branch_getBrandByWebsite env s args w).requests, ("Authorization", bearerOf s) ∈ req.headers := by
  simp only [branch_getBrandByWebsite]
  split_ifs
  · intro req hreq
    simp [errOut] at hreq
  · rw [branchOut_requests]
    exact getBrandByWebsite_authHeader env s _ w

theorem c5b_getBrandByName (env : Env) (s : Session) (args : Js) (w : World) :
    ∀ req ∈ (branch_getBrandByName env s args w).requests, ("Authorization", bearerOf s) ∈ req.headers := by
  simp only [branch_getBrandByName]
  split_ifs
  · intro req hreq
    simp [errOut] at hreq
  · rw [branchOut_requests]
    exact getBrandByName_authHeader env s _ w

theorem c5b_searchBrands (env : Env) (s : Session) (args : Js) (w : World) :
    ∀ req ∈ (branch_searchBrands env s args w).requests, ("Authorization", bearerOf s) ∈ req.headers := by
  simp only [branch_searchBrands]
  split_ifs
  · intro req hreq
    simp [errOut] at hreq
  · rw [branchOut_requests]
    exact searchBrands_authHeader env s _ _ _ w

theorem c5b_getBrandsByDomain (env : Env) (s : Session) (args : Js) (w : World) :
    ∀ req ∈ (branch_getBrandsByDomain env s args w).requests, ("Authorization", bearerOf s) ∈ req.headers := by
  simp only [branch_getBrandsByDomain]
  split_ifs
  · intro req hreq
    simp [errOut] at hreq
  · rw [branchOut_requests]
    exact getBrandsByDomain_authHeader env s _ w

theorem c5b_getBrandStatistics (env : Env) (s : Session) (w : World) :
    ∀ req ∈ (branch_getBrandStatistics env s w).requests, ("Authorization", bearerOf s) ∈ req.headers := by
  simp only [branch_getBrandStatistics]
  rw [branchOut_requests]
  exact getBrandStatistics_authHeader env s w

theorem c5b_getBrandDashboardSummary (env : Env) (s : Session) (w : World) :
    ∀ req ∈ (branch_getBrandDashboardSummary env s w).requests, ("Authorization", bearerOf s) ∈ req.headers := by
  simp only [branch_getBrandDashboardSummary]
  rw [branchOut_requests]
  exact getBrandDashboardSummary_authHeader env s w

theorem c5b_getBrandDashboardSearches (env : Env) (s : Session) (args : Js) (w : World) :
    ∀ req ∈ (branch_getBrandDashboardSearches env s args w).requests, ("Authorization", bearerOf s) ∈ req.headers := by
  simp only [branch_getBrandDashboardSearches]
  rw [branchOut_requests]
  exact getBrandDashboardSearches_authHeader env s _ _ _ _ w

theorem c5b_getBrandDashboardDetails (env : Env) (s : Session) (args : Js) (w : World) :
    ∀ req ∈ (branch_getBrandDashboardDetails env s args w).requests, ("Authorization", bearerOf s) ∈ req.headers := by
  simp only [branch_getBrandDashboardDetails]
  split_ifs
  · intro req hreq
    simp [errOut] at hreq
  · rw [branchOut_requests]
    exact getBrandDashboardDetails_authHeader env s _ w

theorem c5b_extractBrandData (env : Env) (s : Session) (args : Js) (w : World) :
    ∀ req ∈ (branch_extractBrandData env s args w).requests, ("Authorization", bearerOf s) ∈ req.headers := by
  simp only [branch_extractBrandData]
  split_ifs
  · intro req hreq
    simp [errOut] at hreq
  · rw [branchOut_requests]
    exact extractBrandData_authHeader env s _ _ w

theorem c5b_claimBrand (env : Env) (s : Session) (args : Js) (w : World) :
    ∀ req ∈ (branch_claimBrand env s args w).requests, ("Authorization", bearerOf s) ∈ req.headers := by
  simp only [branch_claimBrand]
  split_ifs
  · intro req hreq
    simp [errOut] at hreq
  · rw [branchOut_requests]
    exact claimBrand_authHeader env s _ w

theorem c5b_getBrandsByCategory (env : Env) (s : Session) (args : Js) (w : World) :
    ∀ req ∈ (branch_getBrandsByCategory env s args w).requests, ("Authorization", bearerOf s) ∈ req.headers := by
  simp only [branch_getBrandsByCategory]
  split_ifs
  · intro req hreq
    simp [errOut] at hreq
  · rw [branchOut_requests]
    exact getBrandsByCategory_authHeader env s _ w

theorem c5b_getBrandsByCategoryAndSubcategory (env : Env) (s : Session) (args : Js) (w : World) :
    ∀ req ∈ (branch_getBrandsByCategoryAndSubcategory env s args w).requests, ("Authorization", bearerOf s) ∈ req.headers := by
  simp only [branch_getBrandsByCategoryAndSubcategory]
  split_ifs
  · intro req hreq
    simp [errOut] at hreq
  · rw [branchOut_requests]
    exact getBrandsByCategoryAndSubcategory_authHeader env s _ _ w

theorem c5b_getBrandByIdCategoryAndSubcategory (env : Env) (s : Session) (args : Js) (w : World) :
    ∀ req ∈ (branch_getBrandByIdCategoryAndSubcategory env s args w).requests, ("Authorization", bearerOf s) ∈ req.headers := by
  simp only [branch_getBrandByIdCategoryAndSubcategory]
  split_ifs <;>
    first
      | exact fun req hreq => absurd hreq (List.not_mem_nil req)
      | (rw [branchOut_requests]; exact getBrandByIdCategoryAndSubcategory_authHeader env s _ _ _ w)

theorem c5b_createRivoApiKey (env : Env) (s : Session) (args : Js) (w : World) :
    ∀ req ∈ (branch_createRivoApiKey env s args w).requests, ("Authorization", bearerOf s) ∈ req.headers := by
  simp only [branch_createRivoApiKey]
  split_ifs
  · intro req hreq
    simp [errOut] at hreq
  · rw [branchOut_requests]
    exact createRivoApiKey_authHeader env s _ _ _ _ _ _ _ _ _ _ w

theorem c5b_getRivoApiKeys (env : Env) (s : Session) (w : World) :
    ∀ req ∈ (branch_getRivoApiKeys env s w).requests, ("Authorization", bearerOf s) ∈ req.headers := by
  simp only [branch_getRivoApiKeys]
  rw [branchOut_requests]
  exact getRivoApiKeys_authHeader env s w

theorem c5b_updateRivoApiKey (env : Env) (s : Session) (args : Js) (w : World) :
    ∀ req ∈ (branch_updateRivoApiKey env s args w).requests, ("Authorization", bearerOf s) ∈ req.headers := by
  simp only [branch_updateRivoApiKey]
  split_ifs
  · intro req hreq
    simp [errOut] at hreq
  · rw [branchOut_requests]
    exact updateRivoApiKey_authHeader env s _ _ _ _ _ _ _ _ _ w

theorem c5b_revokeRivoApiKey (env : Env) (s : Session) (args : Js) (w : World) :
    ∀ req ∈ (branch_revokeRivoApiKey env s args w).requests, ("Authorization", bearerOf s) ∈ req.headers := by
  simp only [branch_revokeRivoApiKey]
  split_ifs
  · intro req hreq
    simp [errOut] at hreq
  · rw [branchOut_requests]
    exact revokeRivoApiKey_authHeader env s _ w

theorem c5b_deleteRivoApiKey (env : Env) (s : Session) (args : Js) (w : World) :
    ∀ req ∈ (branch_deleteRivoApiKey env s args w).requests, ("Authorization", bearerOf s) ∈ req.headers := by
  simp only [branch_deleteRivoApiKey]
  split_ifs
  · intro req hreq
    simp [errOut] at hreq
  · rw [branchOut_requests]
    exact deleteRivoApiKey_authHeader env s _ w

theorem c5b_regenerateRivoApiKey (env : Env) (s : Session) (args : Js) (w : World) :
    ∀ req ∈ (branch_regenerateRivoApiKey env s args w).requests, ("Authorization", bearerOf s) ∈ req.headers := by
  simp only [branch_regenerateRivoApiKey]
  split_ifs
  · intro req hreq
    simp [errOut] at hreq
  · rw [branchOut_requests]
    exact regenerateRivoApiKey_authHeader env s _ w

theorem c5b_getRivoApiKeyById (env : Env) (s : Session) (args : Js) (w : World) :
    ∀ req ∈ (branch_getRivoApiKeyById env s args w).requests, ("Authorization", bearerOf s) ∈ req.headers := by
  simp only [branch_getRivoApiKeyById]
  split_ifs
  · intro req hreq
    simp [errOut] at hreq
  · rw [branchOut_requests]
    exact getRivoApiKeyById_authHeader env s _ w

theorem c5b_adminGetAllApiKeys (env : Env) (s : Session) (args : Js) (w : World) :
    ∀ req ∈ (branch_adminGetAllApiKeys env s args w).requests, ("Authorization", bearerOf s) ∈ req.headers := by
  simp only [branch_adminGetAllApiKeys]
  split_ifs
  · intro req hreq
    simp [errOut] at hreq
  · rw [branchOut_requests]
    exact adminGetAllApiKeys_authHeader env s w

theorem c5b_adminGetApiKeysForUser (env : Env) (s : Session) (args : Js) (w : World) :
    ∀ req ∈ (branch_adminGetApiKeysForUser env s args w).requests, ("Authorization", bearerOf s) ∈ req.headers := by
  simp only [branch_adminGetApiKeysForUser]
  split_ifs
  · intro req hreq
    simp [errOut] at hreq
  · rw [branchOut_requests]
    exact adminGetApiKeysForUser_authHeader env s _ w

theorem c5b_adminCreateApiKeyForUser (env : Env) (s : Session) (args : Js) (w : World) :
    ∀ req ∈ (branch_adminCreateApiKeyForUser env s args w).requests, ("Authorization", bearerOf s) ∈ req.headers := by
  simp only [branch_adminCreateApiKeyForUser]
  split_ifs
  · intro req hreq
    simp [errOut] at hreq
  · rw [branchOut_requests]
    exact adminCreateApiKeyForUser_authHeader env s _ _ _ _ _ _ _ _ _ _ w

theorem c5b_adminRevokeApiKey (env : Env) (s : Session) (args : Js) (w : World) :
    ∀ req ∈ (branch_adminRevokeApiKey env s args w).requests, ("Authorization", bearerOf s) ∈ req.headers := by
  simp only [branch_adminRevokeApiKey]
  split_ifs
  · intro req hreq
    simp [errOut] at hreq
  · rw [branchOut_requests]
    exact adminRevokeApiKey_authHeader env s _ w

theorem c5b_adminDeleteApiKey (env : Env) (s : Session) (args : Js) (w : World) :
    ∀ req ∈ (branch_adminDeleteApiKey env s args w).requests, ("Authorization", bearerOf s) ∈ req.headers := by
  simp only [branch_adminDeleteApiKey]
  split_ifs
  · intro req hreq
    simp [errOut] at hreq
  · rw [branchOut_requests]
    exact adminDeleteApiKey_authHeader env s _ w

theorem c5b_adminGetApiKeyUsage (env : Env) (s : Session) (args : Js) (w : World) :
    ∀ req ∈ (branch_adminGetApiKeyUsage env s args w).requests, ("Authorization", bearerOf s) ∈ req.headers := by
  simp only [branch_adminGetApiKeyUsage]
  split_ifs
  · intro req hreq
    simp [errOut] at hreq
  · rw [branchOut_requests]
    exact adminGetApiKeyUsage_authHeader env s _ w

theorem c5b_adminGetApiKeySystemStats (env : Env) (s : Session) (args : Js) (w : World) :
    ∀ req ∈ (branch_adminGetApiKeySystemStats env s args w).requests, ("Authorization", bearerOf s) ∈ req.headers := by
  simp only [branch_adminGetApiKeySystemStats]
  split_ifs
  · intro req hreq
    simp [errOut] at hreq
  · rw [branchOut_requests]
    exact adminGetApiKeySystemStats_authHeader env s w

theorem c5b_adminResetApiKeyRateLimit (env : Env) (s : Session) (args : Js) (w : World) :
    ∀ req ∈ (branch_adminResetApiKeyRateLimit env s args w).requests, ("Authorization", bearerOf s) ∈ req.headers := by
  simp only [branch_adminResetApiKeyRateLimit]
  split_ifs
  · intro req hreq
    simp [errOut] at hreq
  · rw [branchOut_requests]
    exact adminResetApiKeyRateLimit_authHeader env s _ w

theorem c5b_adminUpdateApiKeyScopes (env : Env) (s : Session) (args : Js) (w : World) :
    ∀ req ∈ (branch_adminUpdateApiKeyScopes env s args w).requests, ("Authorization", bearerOf s) ∈ req.headers := by
  simp only [branch_adminUpdateApiKeyScopes]
  split_ifs
  · intro req hreq
    simp [errOut] at hreq
  · rw [branchOut_requests]
    exact adminUpdateApiKeyScopes_authHeader env s _ _ w

theorem c5b_getAddOnPackages (env : Env) (s : Session) (args : Js) (w : World) :
    ∀ req ∈ (branch_getAddOnPackages env s args w).requests, ("Authorization", bearerOf s) ∈ req.headers := by
  simp only [branch_getAddOnPackages]
  split_ifs
  · intro req hreq
    simp [errOut] at hreq
  · rw [branchOut_requests]
    exact getAddOnPackages_authHeader env s w

theorem c5b_purchaseAddOn (env : Env) (s : Session) (args : Js) (w : World) :
    ∀ req ∈ (branch_purchaseAddOn env s args w).requests, ("Authorization", bearerOf s) ∈ req.headers := by
  simp only [branch_purchaseAddOn]
  split_ifs
  · intro req hreq
    simp [errOut] at hreq
  · rw [branchOut_requests]
    exact purchaseAddOn_authHeader env s _ _ _ _ _ _ _ w

theorem c5b_getAddOnsForApiKey (env : Env) (s : Session) (args : Js) (w : World) :
    ∀ req ∈ (branch_getAddOnsForApiKey env s args w).requests, ("Authorization", bearerOf s) ∈ req.headers := by
  simp only [branch_getAddOnsForApiKey]
  split_ifs
  · intro req hreq
    simp [errOut] at hreq
  · rw [branchOut_requests]
    exact getAddOnsForApiKey_authHeader env s _ w

theorem c5b_getActiveAddOnsForApiKey (env : Env) (s : Session) (args : Js) (w : World) :
    ∀ req ∈ (branch_getActiveAddOnsForApiKey env s args w).requests, ("Authorization", bearerOf s) ∈ req.headers := by
  simp only [branch_getActiveAddOnsForApiKey]
  split_ifs
  · intro req hreq
    simp [errOut] at hreq
  · rw [branchOut_requests]
    exact getActiveAddOnsForApiKey_authHeader env s _ w

theorem c5b_getAddOnRecommendations (env : Env) (s : Session) (args : Js) (w : World) :
    ∀ req ∈ (branch_getAddOnRecommendations env s args w).requests, ("Authorization", bearerOf s) ∈ req.headers := by
  simp only [branch_getAddOnRecommendations]
  split_ifs
  · intro req hreq
    simp [errOut] at hreq
  · rw [branchOut_requests]
    exact getAddOnRecommendations_authHeader env s _ _ w

theorem c5b_cancelAddOn (env : Env) (s : Session) (args : Js) (w : World) :
    ∀ req ∈ (branch_cancelAddOn env s args w).requests, ("Authorization", bearerOf s) ∈ req.headers := by
  simp only [branch_cancelAddOn]
  split_ifs
  · intro req hreq
    simp [errOut] at hreq
  · rw [branchOut_requests]
    exact cancelAddOn_authHeader env s _ _ w

theorem c5b_renewAddOn (env : Env) (s : Session) (args : Js) (w : World) :
    ∀ req ∈ (branch_renewAddOn env s args w).requests, ("Authorization", bearerOf s) ∈ req.headers := by
  simp only [branch_renewAddOn]
  split_ifs <;>
    first
      | exact fun req hreq => absurd hreq (List.not_mem_nil req)
      | (rw [branchOut_requests]; exact renewAddOn_authHeader env s _ _ w)

theorem c5b_getExpiringAddOns (env : Env) (s : Session) (args : Js) (w : World) :
    ∀ req ∈ (branch_getExpiringAddOns env s args w).requests, ("Authorization", bearerOf s) ∈ req.headers := by
  simp only [branch_getExpiringAddOns]
  split_ifs
  · intro req hreq
    simp [errOut] at hreq
  · rw [branchOut_requests]
    exact getExpiringAddOns_authHeader env s w

theorem c5b_getNearlyExhaustedAddOns (env : Env) (s : Session) (args : Js) (w : World) :
    ∀ req ∈ (branch_getNearlyExhaustedAddOns env s args w).requests, ("Authorization", bearerOf s) ∈ req.headers := by
  simp only [branch_getNearlyExhaustedAddOns]
  split_ifs
  · intro req hreq
    simp [errOut] at hreq
  · rw [branchOut_requests]
    exact getNearlyExhaustedAddOns_authHeader env s w

theorem c5b_processAutoRenewals (env : Env) (s : Session) (args : Js) (w : World) :
    ∀ req ∈ (branch_processAutoRenewals env s args w).requests, ("Authorization", bearerOf s) ∈ req.headers := by
  simp only [branch_processAutoRenewals]
  split_ifs
  · intro req hreq
    simp [errOut] at hreq
  · rw [branchOut_requests]
    exact processAutoRenewals_authHeader env s w

theorem c5b_cleanupExpiredAddOns (env : Env) (s : Session) (args : Js) (w : World) :
    ∀ req ∈ (branch_cleanupExpiredAddOns env s args w).requests, ("Authorization", bearerOf s) ∈ req.headers := by
  simp only [branch_cleanupExpiredAddOns]
  split_ifs
  · intro req hreq
    simp [errOut] at hreq
  · rw [branchOut_requests]
    exact cleanupExpiredAddOns_authHeader env s w

/-- The 55 tool names the dispatcher's if/else chain handles (equal to
the names the ListTools catalog advertises). -/
def dispatcherToolNames : List String :=
  ["fetchBrandDetails",
   "login",
   "refreshToken",
   "getUserById",
   "forward",
   "updateUserProfile",
   "forgotPassword",
   "resetPassword",
   "createRivoApiKey",
   "adminGetAllApiKeys",
   "adminGetApiKeysForUser",
   "adminCreateApiKeyForUser",
   "adminRevokeApiKey",
   "adminDeleteApiKey",
   "adminGetApiKeyUsage",
   "adminGetApiKeySystemStats",
   "adminResetApiKeyRateLimit",
   "adminUpdateApiKeyScopes",
   "getAddOnPackages",
   "purchaseAddOn",
   "getAddOnsForApiKey",
   "getActiveAddOnsForApiKey",
   "getAddOnRecommendations",
   "cancelAddOn",
   "renewAddOn",
   "getExpiringAddOns",
   "getNearlyExhaustedAddOns",
   "processAutoRenewals",
   "cleanupExpiredAddOns",
   "getRivoApiKeys",
   "getBrandsPaged",
   "getRivoApiKeyById",
   "updateRivoApiKey",
   "revokeRivoApiKey",
   "regenerateRivoApiKey",
   "deleteRivoApiKey",
   "getBrandDetailsById",
   "getBrandByWebsite",
   "getBrandByName",
   "searchBrands",
   "getBrandsByDomain",
   "getBrandStatistics",
   "getBrandDashboardSummary",
   "getBrandDashboardSearches",
   "getBrandDashboardDetails",
   "getAllBrandsWithSearch",
   "getAllBrandsLegacy",
   "serveBrandAsset",
   "serveBrandImage",
   "extractBrandData",
   "claimBrand",
   "getBrandPerformanceTest",
   "getBrandsByCategory",
   "getBrandsByCategoryAndSubcategory",
   "getBrandByIdCategoryAndSubcategory"]

/-- The 43 tools whose handlers guard on `cachedToken` and throw the
uniform not-authenticated error before any I/O. -/
def authCheckedTools : List String :=
  ["getUserById",
   "updateUserProfile",
   "getBrandDetailsById",
   "getBrandByWebsite",
   "getBrandByName",
   "searchBrands",
   "getBrandsByDomain",
   "getBrandStatistics",
   "getBrandDashboardSummary",
   "getBrandDashboardSearches",
   "getBrandDashboardDetails",
   "extractBrandData",
   "claimBrand",
   "getBrandsByCategory",
   "getBrandsByCategoryAndSubcategory",
   "getBrandByIdCategoryAndSubcategory",
   "createRivoApiKey",
   "getRivoApiKeys",
   "updateRivoApiKey",
   "revokeRivoApiKey",
   "deleteRivoApiKey",
   "regenerateRivoApiKey",
   "getRivoApiKeyById",
   "adminGetAllApiKeys",
   "adminGetApiKeysForUser",
   "adminCreateApiKeyForUser",
   "adminRevokeApiKey",
   "adminDeleteApiKey",
   "adminGetApiKeyUsage",
   "adminGetApiKeySystemStats",
   "adminResetApiKeyRateLimit",
   "adminUpdateApiKeyScopes",
   "getAddOnPackages",
   "purchaseAddOn",
   "getAddOnsForApiKey",
   "getActiveAddOnsForApiKey",
   "getAddOnRecommendations",
   "cancelAddOn",
   "renewAddOn",
   "getExpiringAddOns",
   "getNearlyExhaustedAddOns",
   "processAutoRenewals",
   "cleanupExpiredAddOns"]

/-- The tools whose outbound request always carries the session bearer
token — the natural reading of a tool that requires authentication.
`forward` belongs here (its request sends
`Authorization: Bearer <cachedToken>` unconditionally) yet performs no
authentication precondition check. -/
def bearerTools : List String := authCheckedTools ++ ["forward"]

/-- The 35 tool names the unknown-tool error message enumerates. -/
def availableToolsListed : List String :=
  ["fetchBrandDetails",
   "login",
   "refreshToken",
   "forward",
   "updateUserProfile",
   "forgotPassword",
   "getUserById",
   "getBrandsPaged",
   "resetPassword",
   "createRivoApiKey",
   "getRivoApiKeys",
   "getRivoApiKeyById",
   "updateRivoApiKey",
   "revokeRivoApiKey",
   "regenerateRivoApiKey",
   "deleteRivoApiKey",
   "getBrandDetailsById",
   "getBrandByWebsite",
   "getBrandByName",
   "searchBrands",
   "getBrandsByDomain",
   "getBrandStatistics",
   "getBrandDashboardSummary",
   "getBrandDashboardSearches",
   "getBrandDashboardDetails",
   "getAllBrandsWithSearch",
   "getAllBrandsLegacy",
   "serveBrandAsset",
   "serveBrandImage",
   "extractBrandData",
   "claimBrand",
   "getBrandPerformanceTest",
   "getBrandsByCategory",
   "getBrandsByCategoryAndSubcategory",
   "getBrandByIdCategoryAndSubcategory"]

/-- A concrete configuration for witnesses. -/
def env0 : Env :=
  { apiBaseUrl := "http://api.example.com", apiKey := "k0", apiDomain := none, timeoutMs := 15000 }

/-- A concrete successful HTTP world for witnesses. -/
def okWorld : World :=
  { outcome := .ok { status := 200, statusText := "OK", data := .obj [], bytes := [], headers := [] }
  , urlParses := true, now := "2026-01-01T00:00:00.000Z" }

/-- A session holding a concrete token. -/
def authedSession : Session := { cachedToken := .str "tok0", cachedRefreshToken := .str "rt0" }

/-- The axios error shape produced by a request that exceeded the
configured timeout: per the axios Node adapter, the promise rejects with
`code: "ECONNABORTED"` and the dispatched request object attached
(`err.request` set), and no `err.response`. -/
def timeoutErrShape : AxiosErrorShape :=
  { response := none, requestPresent := true, code := some "ECONNABORTED"
  , message := "timeout of 15000ms exceeded" }

/-- The axios error shape of a connection-refused failure: the request
was dispatched (`err.request` set) but no response arrived. -/
def connRefusedShape : AxiosErrorShape :=
  { response := none, requestPresent := true, code := some "ECONNREFUSED"
  , message := "connect ECONNREFUSED 127.0.0.1:8080" }

theorem branchOut_session (errLead : String) (run : HandlerRun) (okf : Js → List ContentBlock) :
    (branchOut errLead run okf).session = run.session := by
  cases hr : run.result <;> simp [branchOut, hr]


/-- C2: for every tool name and argument object, any exception thrown by
the invoked handler (including failures surfaced by the backend HTTP
client) is caught at the dispatcher boundary and converted into an
error-flagged result whose text carries the exception's message; the
dispatcher is a total function, so no exception reaches the transport
layer. -/
theorem c2_dispatcher_converts_handler_errors
    (env : Env) (s : Session) (name : String) (args : Js) (w : World) (m : String)
    (h : (callTool env s name args w).handlerThrew = some m) :
    (callTool env s name args w).result.isError = true ∧
    ∃ b ∈ (callTool env s name args w).result.content, ContainsStr b.text m := by
  by_cases h1 : name = "fetchBrandDetails"
  · subst h1
    exact c2b_fetchBrandDetails _ _ _ _ _ h
  by_cases h2 : name = "login"
  · subst h2
    exact c2b_login _ _ _ _ _ h
  by_cases h3 : name = "refreshToken"
  · subst h3
    exact c2b_refreshToken _ _ _ _ _ h
  by_cases h4 : name = "getUserById"
  · subst h4
    exact c2b_getUserById _ _ _ _ _ h
  by_cases h5 : name = "forward"
  · subst h5
    exact c2b_forward _ _ _ _ _ h
  by_cases h6 : name = "updateUserProfile"
  · subst h6
    exact c2b_updateUserProfile _ _ _ _ _ h
  by_cases h7 : name = "forgotPassword"
  · subst h7
    exact c2b_forgotPassword _ _ _ _ _ h
  by_cases h8 : name = "resetPassword"
  · subst h8
    exact c2b_resetPassword _ _ _ _ _ h
  by_cases h9 : name = "createRivoApiKey"
  · subst h9
    exact c2b_createRivoApiKey _ _ _ _ _ h
  by_cases h10 : name = "adminGetAllApiKeys"
  · subst h10
    exact c2b_adminGetAllApiKeys _ _ _ _ _ h
  by_cases h11 : name = "adminGetApiKeysForUser"
  · subst h11
    exact c2b_adminGetApiKeysForUser _ _ _ _ _ h
  by_cases h12 : name = "adminCreateApiKeyForUser"
  · subst h12
    exact c2b_adminCreateApiKeyForUser _ _ _ _ _ h
  by_cases h13 : name = "adminRevokeApiKey"
  · subst h13
    exact c2b_adminRevokeApiKey _ _ _ _ _ h
  by_cases h14 : name = "adminDeleteApiKey"
  · subst h14
    exact c2b_adminDeleteApiKey _ _ _ _ _ h
  by_cases h15 : name = "adminGetApiKeyUsage"
  · subst h15
    exact c2b_adminGetApiKeyUsage _ _ _ _ _ h
  by_cases h16 : name = "adminGetApiKeySystemStats"
  · subst h16
    exact c2b_adminGetApiKeySystemStats _ _ _ _ _ h
  by_cases h17 : name = "adminResetApiKeyRateLimit"
  · subst h17
    exact c2b_adminResetApiKeyRateLimit _ _ _ _ _ h
  by_cases h18 : name = "adminUpdateApiKeyScopes"
  · subst h18
    exact c2b_adminUpdateApiKeyScopes _ _ _ _ _ h
  by_cases h19 : name = "getAddOnPackages"
  · subst h19
    exact c2b_getAddOnPackages _ _ _ _ _ h
  by_cases h20 : name = "purchaseAddOn"
  · subst h20
    exact c2b_purchaseAddOn _ _ _ _ _ h
  by_cases h21 : name = "getAddOnsForApiKey"
  · subst h21
    exact c2b_getAddOnsForApiKey _ _ _ _ _ h
  by_cases h22 : name = "getActiveAddOnsForApiKey"
  · subst h22
    exact c2b_getActiveAddOnsForApiKey _ _ _ _ _ h
  by_cases h23 : name = "getAddOnRecommendations"
  · subst h23
    exact c2b_getAddOnRecommendations _ _ _ _ _ h
  by_cases h24 : name = "cancelAddOn"
  · subst h24
    exact c2b_cancelAddOn _ _ _ _ _ h
  by_cases h25 : name = "renewAddOn"
  · subst h25
    exact c2b_renewAddOn _ _ _ _ _ h
  by_cases h26 : name = "getExpiringAddOns"
  · subst h26
    exact c2b_getExpiringAddOns _ _ _ _ _ h
  by_cases h27 : name = "getNearlyExhaustedAddOns"
  · subst h27
    exact c2b_getNearlyExhaustedAddOns _ _ _ _ _ h
  by_cases h28 : name = "processAutoRenewals"
  · subst h28
    exact c2b_processAutoRenewals _ _ _ _ _ h
  by_cases h29 : name = "cleanupExpiredAddOns"
  · subst h29
    exact c2b_cleanupExpiredAddOns _ _ _ _ _ h
  by_cases h30 : name = "getRivoApiKeys"
  · subst h30
    exact c2b_getRivoApiKeys _ _ _ _ h
  by_cases h31 : name = "getBrandsPaged"
  · subst h31
    exact c2b_getBrandsPaged _ _ _ _ _ h
  by_cases h32 : name = "getRivoApiKeyById"
  · subst h32
    exact c2b_getRivoApiKeyById _ _ _ _ _ h
  by_cases h33 : name = "updateRivoApiKey"
  · subst h33
    exact c2b_updateRivoApiKey _ _ _ _ _ h
  by_cases h34 : name = "revokeRivoApiKey"
  · subst h34
    exact c2b_revokeRivoApiKey _ _ _ _ _ h
  by_cases h35 : name = "regenerateRivoApiKey"
  · subst h35
    exact c2b_regenerateRivoApiKey _ _ _ _ _ h
  by_cases h36 : name = "deleteRivoApiKey"
  · subst h36
    exact c2b_deleteRivoApiKey _ _ _ _ _ h
  by_cases h37 : name = "getBrandDetailsById"
  · subst h37
    exact c2b_getBrandDetailsById _ _ _ _ _ h
  by_cases h38 : name = "getBrandByWebsite"
  · subst h38
    exact c2b_getBrandByWebsite _ _ _ _ _ h
  by_cases h39 : name = "getBrandByName"
  · subst h39
    exact c2b_getBrandByName _ _ _ _ _ h
  by_cases h40 : name = "searchBrands"
  · subst h40
    exact c2b_searchBrands _ _ _ _ _ h
  by_cases h41 : name = "getBrandsByDomain"
  · subst h41
    exact c2b_getBrandsByDomain _ _ _ _ _ h
  by_cases h42 : name = "getBrandStatistics"
  · subst h42
    exact c2b_getBrandStatistics _ _ _ _ h
  by_cases h43 : name = "getBrandDashboardSummary"
  · subst h43
    exact c2b_getBrandDashboardSummary _ _ _ _ h
  by_cases h44 : name = "getBrandDashboardSearches"
  · subst h44
    exact c2b_getBrandDashboardSearches _ _ _ _ _ h
  by_cases h45 : name = "getBrandDashboardDetails"
  · subst h45
    exact c2b_getBrandDashboardDetails _ _ _ _ _ h
  by_cases h46 : name = "getAllBrandsWithSearch"
  · subst h46
    exact c2b_getAllBrandsWithSearch _ _ _ _ _ h
  by_cases h47 : name = "getAllBrandsLegacy"
  · subst h47
    exact c2b_getAllBrandsLegacy _ _ _ _ _ h
  by_cases h48 : name = "serveBrandAsset"
  · subst h48
    exact c2b_serveBrandAsset _ _ _ _ _ h
  by_cases h49 : name = "serveBrandImage"
  · subst h49
    exact c2b_serveBrandImage _ _ _ _ _ h
  by_cases h50 : name = "extractBrandData"
  · subst h50
    exact c2b_extractBrandData _ _ _ _ _ h
  by_cases h51 : name = "claimBrand"
  · subst h51
    exact c2b_claimBrand _ _ _ _ _ h
  by_cases h52 : name = "getBrandPerformanceTest"
  · subst h52
    exact c2b_getBrandPerformanceTest _ _ _ _ h
  by_cases h53 : name = "getBrandsByCategory"
  · subst h53
    exact c2b_getBrandsByCategory _ _ _ _ _ h
  by_cases h54 : name = "getBrandsByCategoryAndSubcategory"
  · subst h54
    exact c2b_getBrandsByCategoryAndSubcategory _ _ _ _ _ h
  by_cases h55 : name = "getBrandByIdCategoryAndSubcategory"
  · subst h55
    exact c2b_getBrandByIdCategoryAndSubcategory _ _ _ _ _ h
  have e : callTool env s name args w = unknownToolOut s name := by
    unfold callTool
    rw [if_neg h1, if_neg h2, if_neg h3, if_neg h4, if_neg h5, if_neg h6, if_neg h7, if_neg h8, if_neg h9, if_neg h10, if_neg h11, if_neg h12, if_neg h13, if_neg h14, if_neg h15, if_neg h16, if_neg h17, if_neg h18, if_neg h19, if_neg h20, if_neg h21, if_neg h22, if_neg h23, if_neg h24, if_neg h25, if_neg h26, if_neg h27, if_neg h28, if_neg h29, if_neg h30, if_neg h31, if_neg h32, if_neg h33, if_neg h34, if_neg h35, if_neg h36, if_neg h37, if_neg h38, if_neg h39, if_neg h40, if_neg h41, if_neg h42, if_neg h43, if_neg h44, if_neg h45, if_neg h46, if_neg h47, if_neg h48, if_neg h49, if_neg h50, if_neg h51, if_neg h52, if_neg h53, if_neg h54, if_neg h55]
  rw [e] at h
  exact Option.noConfusion h

/-- Witness for C2 at a concrete input: calling `refreshToken` on the
initial session makes the handler throw the missing-refresh-token error,
and the dispatcher renders it as an error-flagged result carrying that
message. -/
theorem c2_witness :
    (callTool env0 initialSession "refreshToken" (.obj []) okWorld).result.isError = true ∧
    ∃ b ∈ (callTool env0 initialSession "refreshToken" (.obj []) okWorld).result.content,
      ContainsStr b.text "Missing refreshToken and no cached refresh token available. Please provide refreshToken or login first." :=
  c2_dispatcher_converts_handler_errors env0 initialSession "refreshToken" (.obj []) okWorld
    "Missing refreshToken and no cached refresh token available. Please provide refreshToken or login first." (by rfl)


/-- C1 (amended): every authenticated tool except the stdio `forward`
tool — that is, every tool of `authCheckedTools` — invoked while the
session has no (truthy) access token returns an error-flagged result and
issues zero outbound HTTP requests: the handler refuses before any
I/O. -/
theorem c1_amended_auth_checked_tools_refuse_when_anonymous
    (t : String) (ht : t ∈ authCheckedTools) (env : Env) (s : Session)
    (hs : s.cachedToken.truthy = false) (args : Js) (w : World) :
    (callTool env s t args w).requests = [] ∧ (callTool env s t args w).result.isError = true := by
  simp only [authCheckedTools, List.mem_cons, List.not_mem_nil, or_false] at ht
  rcases ht with rfl|rfl|rfl|rfl|rfl|rfl|rfl|rfl|rfl|rfl|rfl|rfl|rfl|rfl|rfl|rfl|rfl|rfl|rfl|rfl|rfl|rfl|rfl|rfl|rfl|rfl|rfl|rfl|rfl|rfl|rfl|rfl|rfl|rfl|rfl|rfl|rfl|rfl|rfl|rfl|rfl|rfl|rfl
  exacts [c1b_getUserById env s hs args w,
    c1b_updateUserProfile env s hs args w,
    c1b_getBrandDetailsById env s hs args w,
    c1b_getBrandByWebsite env s hs args w,
    c1b_getBrandByName env s hs args w,
    c1b_searchBrands env s hs args w,
    c1b_getBrandsByDomain env s hs args w,
    c1b_getBrandStatistics env s hs w,
    c1b_getBrandDashboardSummary env s hs w,
    c1b_getBrandDashboardSearches env s hs args w,
    c1b_getBrandDashboardDetails env s hs args w,
    c1b_extractBrandData env s hs args w,
    c1b_claimBrand env s hs args w,
    c1b_getBrandsByCategory env s hs args w,
    c1b_getBrandsByCategoryAndSubcategory env s hs args w,
    c1b_getBrandByIdCategoryAndSubcategory env s hs args w,
    c1b_createRivoApiKey env s hs args w,
    c1b_getRivoApiKeys env s hs w,
    c1b_updateRivoApiKey env s hs args w,
    c1b_revokeRivoApiKey env s hs args w,
    c1b_deleteRivoApiKey env s hs args w,
    c1b_regenerateRivoApiKey env s hs args w,
    c1b_getRivoApiKeyById env s hs args w,
    c1b_adminGetAllApiKeys env s hs args w,
    c1b_adminGetApiKeysForUser env s hs args w,
    c1b_adminCreateApiKeyForUser env s hs args w,
    c1b_adminRevokeApiKey env s hs args w,
    c1b_adminDeleteApiKey env s hs args w,
    c1b_adminGetApiKeyUsage env s hs args w,
    c1b_adminGetApiKeySystemStats env s hs args w,
    c1b_adminResetApiKeyRateLimit env s hs args w,
    c1b_adminUpdateApiKeyScopes env s hs args w,
    c1b_getAddOnPackages env s hs args w,
    c1b_purchaseAddOn env s hs args w,
    c1b_getAddOnsForApiKey env s hs args w,
    c1b_getActiveAddOnsForApiKey env s hs args w,
    c1b_getAddOnRecommendations env s hs args w,
    c1b_cancelAddOn env s hs args w,
    c1b_renewAddOn env s hs args w,
    c1b_getExpiringAddOns env s hs args w,
    c1b_getNearlyExhaustedAddOns env s hs args w,
    c1b_processAutoRenewals env s hs args w,
    c1b_cleanupExpiredAddOns env s hs args w]

/-- Witness for the amended C1: `getUserById` on the anonymous initial
session issues no request and yields an error result. -/
theorem c1_amended_witness :
    (callTool env0 initialSession "getUserById" (.obj [("id", .str "1")]) okWorld).requests = [] ∧
    (callTool env0 initialSession "getUserById" (.obj [("id", .str "1")]) okWorld).result.isError = true :=
  c1_amended_auth_checked_tools_refuse_when_anonymous "getUserById" (by decide) env0 initialSession
    (by decide) (.obj [("id", .str "1")]) okWorld

/-- Counterexample to C1 as stated: `forward` requires authentication in
the sense that its outbound request always carries the session bearer
token (it is in `bearerTools`), yet invoked on the anonymous initial
session it does NOT refuse: it issues the POST to `/forward` with the
literal header value `Bearer null`, and with a successful upstream
response the tool call is not even an error result. -/
theorem c1_counterexample :
    "forward" ∈ bearerTools ∧
    (callTool env0 initialSession "forward" (.obj [("url", .str "https://example.com")]) okWorld).requests =
      [{ method := "POST", url := "http://api.example.com/forward"
       , headers := [("Authorization", "Bearer null"), ("Content-Type", "application/json")]
       , params := [], body := some (.obj [("url", .str "https://example.com")]), responseType := none }] ∧
    (callTool env0 initialSession "forward" (.obj [("url", .str "https://example.com")]) okWorld).result.isError = false := by
  refine ⟨by decide, ?_, rfl⟩
  rfl


theorem c5_aux (env : Env) (s : Session) (tok : String) (hb : s.cachedToken = .str tok) :
    ∀ t ∈ authCheckedTools, ∀ (args : Js) (w2 : World),
      ∀ req ∈ (callTool env s t args w2).requests,
        ("Authorization", "Bearer " ++ tok) ∈ req.headers := by
  have hbear : bearerOf s = "Bearer " ++ tok := by
    simp [bearerOf, hb, Js.toStr]
  intro t ht
  simp only [authCheckedTools, List.mem_cons, List.not_mem_nil, or_false] at ht
  rcases ht with rfl|rfl|rfl|rfl|rfl|rfl|rfl|rfl|rfl|rfl|rfl|rfl|rfl|rfl|rfl|rfl|rfl|rfl|rfl|rfl|rfl|rfl|rfl|rfl|rfl|rfl|rfl|rfl|rfl|rfl|rfl|rfl|rfl|rfl|rfl|rfl|rfl|rfl|rfl|rfl|rfl|rfl|rfl
  exacts [fun args w2 => hbear ▸ c5b_getUserById env s args w2,
    fun args w2 => hbear ▸ c5b_updateUserProfile env s args w2,
    fun args w2 => hbear ▸ c5b_getBrandDetailsById env s args w2,
    fun args w2 => hbear ▸ c5b_getBrandByWebsite env s args w2,
    fun args w2 => hbear ▸ c5b_getBrandByName env s args w2,
    fun args w2 => hbear ▸ c5b_searchBrands env s args w2,
    fun args w2 => hbear ▸ c5b_getBrandsByDomain env s args w2,
    fun args w2 => hbear ▸ c5b_getBrandStatistics env s w2,
    fun args w2 => hbear ▸ c5b_getBrandDashboardSummary env s w2,
    fun args w2 => hbear ▸ c5b_getBrandDashboardSearches env s args w2,
    fun args w2 => hbear ▸ c5b_getBrandDashboardDetails env s args w2,
    fun args w2 => hbear ▸ c5b_extractBrandData env s args w2,
    fun args w2 => hbear ▸ c5b_claimBrand env s args w2,
    fun args w2 => hbear ▸ c5b_getBrandsByCategory env s args w2,
    fun args w2 => hbear ▸ c5b_getBrandsByCategoryAndSubcategory env s args w2,
    fun args w2 => hbear ▸ c5b_getBrandByIdCategoryAndSubcategory env s args w2,
    fun args w2 => hbear ▸ c5b_createRivoApiKey env s args w2,
    fun args w2 => hbear ▸ c5b_getRivoApiKeys env s w2,
    fun args w2 => hbear ▸ c5b_updateRivoApiKey env s args w2,
    fun args w2 => hbear ▸ c5b_revokeRivoApiKey env s args w2,
    fun args w2 => hbear ▸ c5b_deleteRivoApiKey env s args w2,
    fun args w2 => hbear ▸ c5b_regenerateRivoApiKey env s args w2,
    fun args w2 => hbear ▸ c5b_getRivoApiKeyById env s args w2,
    fun args w2 => hbear ▸ c5b_adminGetAllApiKeys env s args w2,
    fun args w2 => hbear ▸ c5b_adminGetApiKeysForUser env s args w2,
    fun args w2 => hbear ▸ c5b_adminCreateApiKeyForUser env s args w2,
    fun args w2 => hbear ▸ c5b_adminRevokeApiKey env s args w2,
    fun args w2 => hbear ▸ c5b_adminDeleteApiKey env s args w2,
    fun args w2 => hbear ▸ c5b_adminGetApiKeyUsage env s args w2,
    fun args w2 => hbear ▸ c5b_adminGetApiKeySystemStats env s args w2,
    fun args w2 => hbear ▸ c5b_adminResetApiKeyRateLimit env s args w2,
    fun args w2 => hbear ▸ c5b_adminUpdateApiKeyScopes env s args w2,
    fun args w2 => hbear ▸ c5b_getAddOnPackages env s args w2,
    fun args w2 => hbear ▸ c5b_purchaseAddOn env s args w2,
    fun args w2 => hbear ▸ c5b_getAddOnsForApiKey env s args w2,
    fun args w2 => hbear ▸ c5b_getActiveAddOnsForApiKey env s args w2,
    fun args w2 => hbear ▸ c5b_getAddOnRecommendations env s args w2,
    fun args w2 => hbear ▸ c5b_cancelAddOn env s args w2,
    fun args w2 => hbear ▸ c5b_renewAddOn env s args w2,
    fun args w2 => hbear ▸ c5b_getExpiringAddOns env s args w2,
    fun args w2 => hbear ▸ c5b_getNearlyExhaustedAddOns env s args w2,
    fun args w2 => hbear ▸ c5b_processAutoRenewals env s args w2,
    fun args w2 => hbear ▸ c5b_cleanupExpiredAddOns env s args w2]

/-- A login response carrying fresh tokens, for witnesses. -/
def loginOkResp : HttpResponse :=
  { status := 200, statusText := "OK"
  , data := .obj [("token", .str "tok1"), ("refreshToken", .str "rt1")]
  , bytes := [], headers := [] }

/-- A world whose HTTP call answers with `loginOkResp`. -/
def loginOkWorld : World :=
  { outcome := .ok loginOkResp, urlParses := true, now := "2026-01-01T00:00:00.000Z" }

/-- C5: when `login` succeeds with truthy credentials and the response
body carries a non-empty `token`, the dispatcher caches that token, and
every immediately following call of any authenticated tool
(`authCheckedTools`) carries `Authorization: Bearer <that token>` on
each outbound HTTP request it issues. -/
theorem c5_login_then_auth_call_sends_bearer
    (env : Env) (uname pwd tid : Js) (w1 : World) (r : HttpResponse) (tok : String)
    (hu : uname.truthy = true) (hp : pwd.truthy = true)
    (hw : w1.outcome = .ok r)
    (htok : (jsOr r.data (.obj [])).get "token" = .str tok) (hne : tok ≠ "") :
    ((callTool env initialSession "login"
        (.obj [("username", uname), ("password", pwd), ("tenantId", tid)]) w1).session.cachedToken
      = .str tok) ∧
    ∀ t ∈ authCheckedTools, ∀ (args : Js) (w2 : World),
      ∀ req ∈ (callTool env
          ((callTool env initialSession "login"
            (.obj [("username", uname), ("password", pwd), ("tenantId", tid)]) w1).session)
          t args w2).requests,
        ("Authorization", "Bearer " ++ tok) ∈ req.headers := by
  have hgo : jsOr (Js.obj [("username", uname), ("password", pwd), ("tenantId", tid)]) (.obj []) =
      Js.obj [("username", uname), ("password", pwd), ("tenantId", tid)] := rfl
  have hg1 : (Js.obj [("username", uname), ("password", pwd), ("tenantId", tid)]).get "username" = uname := rfl
  have hg2 : (Js.obj [("username", uname), ("password", pwd), ("tenantId", tid)]).get "password" = pwd := rfl
  have e : callTool env initialSession "login"
      (.obj [("username", uname), ("password", pwd), ("tenantId", tid)]) w1
      = branch_login env initialSession (.obj [("username", uname), ("password", pwd), ("tenantId", tid)]) w1 := rfl
  have hsession : (callTool env initialSession "login"
      (.obj [("username", uname), ("password", pwd), ("tenantId", tid)]) w1).session.cachedToken = .str tok := by
    rw [e]
    simp only [branch_login, hgo, hg1, hg2]
    rw [if_neg (by simp [hu, hp]), branchOut_session]
    simp only [authLogin]
    rw [if_neg (by simp [hu, hp]), hw]
    dsimp only
    rw [htok]
    have ht2 : (Js.str tok).truthy = true := by simp [Js.truthy, hne]
    rw [if_pos ht2]
    split <;> rfl
  exact ⟨hsession, c5_aux env _ tok hsession⟩

/-- Witness for C5: logging in with `u`/`p` against a response carrying
token `tok1`, then calling `getUserById`, puts `Bearer tok1` on the
outbound request. -/
theorem c5_witness :
    ((callTool env0 initialSession "login"
        (.obj [("username", .str "u"), ("password", .str "p"), ("tenantId", .undefined)]) loginOkWorld).session.cachedToken
      = .str "tok1") ∧
    ∀ req ∈ (callTool env0
        ((callTool env0 initialSession "login"
          (.obj [("username", .str "u"), ("password", .str "p"), ("tenantId", .undefined)]) loginOkWorld).session)
        "getUserById" (.obj [("id", .str "1")]) okWorld).requests,
      ("Authorization", "Bearer " ++ "tok1") ∈ req.headers :=
  ⟨(c5_login_then_auth_call_sends_bearer env0 (.str "u") (.str "p") .undefined loginOkWorld
      loginOkResp "tok1" (by decide) (by decide) rfl rfl (by decide)).1,
   (c5_login_then_auth_call_sends_bearer env0 (.str "u") (.str "p") .undefined loginOkWorld
      loginOkResp "tok1" (by decide) (by decide) rfl rfl (by decide)).2
     "getUserById" (by decide) (.obj [("id", .str "1")]) okWorld⟩

/-- C6: `refreshAuthToken` sends the supplied refresh token when truthy,
falls back to the cached one when the supplied one is falsy; on a
successful upstream response it overwrites each cached token exactly
when the corresponding field of the response body is truthy; and a
subsequent `getUserById` sends the newly rotated access token. -/
theorem c6_refresh_rotates_tokens
    (env : Env) (s : Session) (rt : Js) (w1 : World) (r : HttpResponse)
    (hrt : rt.truthy = true) (hw : w1.outcome = .ok r) :
    ((refreshAuthToken env s rt w1).requests.map (fun q => q.body) = [some rt]) ∧
    (∀ rt2 : Js, rt2.truthy = false →
      (refreshAuthToken env s rt2 w1).requests.map (fun q => q.body) =
        (if s.cachedRefreshToken.truthy then [some s.cachedRefreshToken] else [])) ∧
    ((refreshAuthToken env s rt w1).session.cachedToken =
      (if ((jsOr r.data (.obj [])).get "token").truthy then (jsOr r.data (.obj [])).get "token"
       else s.cachedToken)) ∧
    ((refreshAuthToken env s rt w1).session.cachedRefreshToken =
      (if ((jsOr r.data (.obj [])).get "refreshToken").truthy then (jsOr r.data (.obj [])).get "refreshToken"
       else s.cachedRefreshToken)) ∧
    (∀ tok : String, (jsOr r.data (.obj [])).get "token" = .str tok → tok ≠ "" →
      ∀ (id : Js) (w2 : World), ∀ req ∈ (getUserById env (refreshAuthToken env s rt w1).session id w2).requests,
        ("Authorization", "Bearer " ++ tok) ∈ req.headers) := by
  have hcond : ¬((!(jsOr rt s.cachedRefreshToken).truthy) = true) := by
    simp [jsOr, hrt]
  refine ⟨?_, ?_, ?_, ?_, ?_⟩
  · simp only [refreshAuthToken]
    rw [if_neg hcond, hw]
    dsimp only
    simp [jsOr, hrt]
  · intro rt2 h2
    have hjs2 : jsOr rt2 s.cachedRefreshToken = s.cachedRefreshToken := by simp [jsOr, h2]
    simp only [refreshAuthToken, hjs2]
    by_cases hc : s.cachedRefreshToken.truthy = true
    · rw [if_neg (by simp [hc]), hw]
      dsimp only
      simp [hc]
    · rw [if_pos (by simp only [Bool.not_eq_true] at hc; simp [hc])]
      simp [throwRun, hc]
  · simp only [refreshAuthToken]
    rw [if_neg hcond, hw]
    dsimp only
    by_cases h1 : ((jsOr r.data (.obj [])).get "token").truthy = true <;>
      by_cases h2 : ((jsOr r.data (.obj [])).get "refreshToken").truthy = true <;>
        simp [h1, h2]
  · simp only [refreshAuthToken]
    rw [if_neg hcond, hw]
    dsimp only
    by_cases h1 : ((jsOr r.data (.obj [])).get "token").truthy = true <;>
      by_cases h2 : ((jsOr r.data (.obj [])).get "refreshToken").truthy = true <;>
        simp [h1, h2]
  · intro tok htok hne id w2 req hreq
    have hsess : (refreshAuthToken env s rt w1).session.cachedToken = .str tok := by
      simp only [refreshAuthToken]
      rw [if_neg hcond, hw]
      dsimp only
      rw [htok]
      have ht2 : (Js.str tok).truthy = true := by simp [Js.truthy, hne]
      rw [if_pos ht2]
      split <;> rfl
    have hbear : bearerOf ((refreshAuthToken env s rt w1).session) = "Bearer " ++ tok := by
      simp [bearerOf, hsess, Js.toStr]
    have h := getUserById_authHeader env ((refreshAuthToken env s rt w1).session) id w2 req hreq
    rwa [hbear] at h

/-- Witness for C6: refreshing with `rt123` against a response carrying
`tok1`/`rt1` sends `rt123` as the request body, rotates the cached
access token, and a subsequent `getUserById` sends `Bearer tok1`. -/
theorem c6_witness :
    ((refreshAuthToken env0 authedSession (.str "rt123") loginOkWorld).requests.map (fun q => q.body)
      = [some (.str "rt123")]) ∧
    ((refreshAuthToken env0 authedSession (.str "rt123") loginOkWorld).session.cachedToken =
      (if ((jsOr loginOkResp.data (.obj [])).get "token").truthy then (jsOr loginOkResp.data (.obj [])).get "token"
       else authedSession.cachedToken)) ∧
    ∀ req ∈ (getUserById env0 (refreshAuthToken env0 authedSession (.str "rt123") loginOkWorld).session
        (.str "1") okWorld).requests,
      ("Authorization", "Bearer " ++ "tok1") ∈ req.headers :=
  ⟨(c6_refresh_rotates_tokens env0 authedSession (.str "rt123") loginOkWorld loginOkResp
      (by decide) rfl).1,
   (c6_refresh_rotates_tokens env0 authedSession (.str "rt123") loginOkWorld loginOkResp
      (by decide) rfl).2.2.1,
   (c6_refresh_rotates_tokens env0 authedSession (.str "rt123") loginOkWorld loginOkResp
      (by decide) rfl).2.2.2.2 "tok1" rfl (by decide) (.str "1") okWorld⟩

/-- C7: calling `refreshToken` through the dispatcher on the initial
session (no prior login) with no truthy `refreshToken` argument yields
an error-flagged result carrying the missing-refresh-token message, with
zero outbound HTTP requests: the handler refuses before any I/O. -/
theorem c7_refresh_without_any_token_fails_before_io
    (env : Env) (args : Js) (w : World)
    (h : ((jsOr args (.obj [])).get "refreshToken").truthy = false) :
    (callTool env initialSession "refreshToken" args w).requests = [] ∧
    (callTool env initialSession "refreshToken" args w).result.isError = true ∧
    ∃ b ∈ (callTool env initialSession "refreshToken" args w).result.content,
      ContainsStr b.text "Missing refreshToken and no cached refresh token available. Please provide refreshToken or login first." := by
  have e : callTool env initialSession "refreshToken" args w
      = branch_refreshToken env initialSession args w := rfl
  have hnullTok : jsOr ((jsOr args (.obj [])).get "refreshToken") initialSession.cachedRefreshToken
      = Js.null := by
    have h2 : ∀ v : Js, v.truthy = false → jsOr v initialSession.cachedRefreshToken = Js.null := by
      intro v hv
      simp [jsOr, hv, initialSession]
    exact h2 _ h
  have hrun : refreshAuthToken env initialSession ((jsOr args (.obj [])).get "refreshToken") w
      = throwRun initialSession "Missing refreshToken and no cached refresh token available. Please provide refreshToken or login first." := by
    simp only [refreshAuthToken, hnullTok]
    rfl
  rw [e]
  simp only [branch_refreshToken, hrun]
  refine ⟨by rw [branchOut_requests]; rfl, rfl, ?_⟩
  refine ⟨{ text := "Error refreshing token: " ++
      "Missing refreshToken and no cached refresh token available. Please provide refreshToken or login first." },
    by simp [branchOut, throwRun], ?_⟩
  exact containsStr_of_eq_append _ "Error refreshing token: "
    "Missing refreshToken and no cached refresh token available. Please provide refreshToken or login first." ""
    (by simp)

/-- Witness for C7 at the empty argument object. -/
theorem c7_witness :
    (callTool env0 initialSession "refreshToken" (.obj []) okWorld).requests = [] ∧
    (callTool env0 initialSession "refreshToken" (.obj []) okWorld).result.isError = true ∧
    ∃ b ∈ (callTool env0 initialSession "refreshToken" (.obj []) okWorld).result.content,
      ContainsStr b.text "Missing refreshToken and no cached refresh token available. Please provide refreshToken or login first." :=
  c7_refresh_without_any_token_fails_before_io env0 (.obj []) okWorld (by decide)


theorem jsonObjFields_skip_undefined (pre post : List (String × Js)) (k : String) :
    jsonObjFields (pre ++ (k, Js.undefined) :: post) = jsonObjFields (pre ++ post) := by
  induction pre with
  | nil => simp [jsonObjFields, jsonStringifyOpt]
  | cons a pre ih =>
    obtain ⟨k2, v⟩ := a
    simp only [List.cons_append, jsonObjFields]
    cases hv : jsonStringifyOpt v <;> simp [hv, ih]

theorem jsonStringify_skips_undefined_field (pre post : List (String × Js)) (k : String) :
    jsonStringify (.obj (pre ++ (k, Js.undefined) :: post)) = jsonStringify (.obj (pre ++ post)) := by
  simp [jsonStringify, jsonStringifyOpt, jsonObjFields_skip_undefined]

/-- A binary asset response for witnesses. -/
def assetResp : HttpResponse :=
  { status := 200, statusText := "OK", data := .null, bytes := [0, 255, 77]
  , headers := [("content-type", "image/png"), ("content-disposition", "inline")] }

/-- A world whose HTTP call answers with `assetResp`. -/
def assetWorld : World :=
  { outcome := .ok assetResp, urlParses := true, now := "2026-01-01T00:00:00.000Z" }

/-- C8: a successful `serveBrandAsset` call returns exactly three
content blocks in order — the metadata JSON block (whose `dataBase64`
field is overwritten with `undefined`, and `JSON.stringify` therefore
omits it, so the block equals the metadata without the payload), a
summary line containing the response content-type, and the
`BASE64_START`/`BASE64_END` block — and base64-decoding the payload
reproduces exactly the bytes the backend returned. -/
theorem c8_serve_brand_asset_three_blocks
    (env : Env) (s : Session) (assetId : Js) (w : World) (r : HttpResponse)
    (ha : assetId.truthy = true) (hw : w.outcome = .ok r) (hb : ∀ b ∈ r.bytes, b < 256) :
    (callTool env s "serveBrandAsset" (.obj [("assetId", assetId)]) w).result.content =
      [rawJsonBlock (Js.obj [("success", .bool true), ("assetId", assetId),
          ("contentType", .str (headerOr r.headers "content-type" "application/octet-stream")),
          ("contentDisposition", (headerLookup r.headers "content-disposition").elim Js.null Js.str),
          ("dataBase64", .undefined), ("timestamp", .str w.now)]),
       textBlock ("Downloaded brand asset " ++ assetId.toStr ++ " (content-type: " ++
          headerOr r.headers "content-type" "application/octet-stream" ++ ")."),
       textBlock ("BASE64_START\n" ++ base64Encode r.bytes ++ "\nBASE64_END")] ∧
    (callTool env s "serveBrandAsset" (.obj [("assetId", assetId)]) w).result.isError = false ∧
    jsonStringify (Js.obj [("success", .bool true), ("assetId", assetId),
        ("contentType", .str (headerOr r.headers "content-type" "application/octet-stream")),
        ("contentDisposition", (headerLookup r.headers "content-disposition").elim Js.null Js.str),
        ("dataBase64", .undefined), ("timestamp", .str w.now)]) =
      jsonStringify (Js.obj [("success", .bool true), ("assetId", assetId),
        ("contentType", .str (headerOr r.headers "content-type" "application/octet-stream")),
        ("contentDisposition", (headerLookup r.headers "content-disposition").elim Js.null Js.str),
        ("timestamp", .str w.now)]) ∧
    ContainsStr ("Downloaded brand asset " ++ assetId.toStr ++ " (content-type: " ++
        headerOr r.headers "content-type" "application/octet-stream" ++ ").")
      (headerOr r.headers "content-type" "application/octet-stream") ∧
    base64Decode (base64Encode r.bytes) = some r.bytes := by
  have e : callTool env s "serveBrandAsset" (.obj [("assetId", assetId)]) w
      = branch_serveBrandAsset env s (.obj [("assetId", assetId)]) w := rfl
  have hg : (jsOr (Js.obj [("assetId", assetId)]) (.obj [])).get "assetId" = assetId := rfl
  have hna : ¬((!assetId.truthy) = true) := by simp [ha]
  refine ⟨?_, ?_, ?_, ?_, ?_⟩
  · rw [e]
    simp only [branch_serveBrandAsset, hg]
    rw [if_neg hna]
    simp only [serveBrandAsset]
    rw [if_neg hna]
    simp only [sendRequest]
    rw [hw]
    rfl
  · rw [e]
    simp only [branch_serveBrandAsset, hg]
    rw [if_neg hna]
    simp only [serveBrandAsset]
    rw [if_neg hna]
    simp only [sendRequest]
    rw [hw]
    rfl
  · exact jsonStringify_skips_undefined_field
      [("success", .bool true), ("assetId", assetId),
       ("contentType", .str (headerOr r.headers "content-type" "application/octet-stream")),
       ("contentDisposition", (headerLookup r.headers "content-disposition").elim Js.null Js.str)]
      [("timestamp", .str w.now)] "dataBase64"
  · exact containsStr_of_eq_append _
      ("Downloaded brand asset " ++ assetId.toStr ++ " (content-type: ")
      (headerOr r.headers "content-type" "application/octet-stream") ")."
      (by simp [String.append_assoc])
  · exact base64_roundtrip r.bytes hb

/-- Witness for C8: serving asset `x` against a 3-byte PNG response is
not an error and the base64 payload decodes back to those bytes. -/
theorem c8_witness :
    (callTool env0 authedSession "serveBrandAsset" (.obj [("assetId", .str "x")]) assetWorld).result.isError = false ∧
    base64Decode (base64Encode assetResp.bytes) = some assetResp.bytes :=
  ⟨(c8_serve_brand_asset_three_blocks env0 authedSession (.str "x") assetWorld assetResp
      (by decide) rfl (by decide)).2.1,
   (c8_serve_brand_asset_three_blocks env0 authedSession (.str "x") assetWorld assetResp
      (by decide) rfl (by decide)).2.2.2.2⟩

/-- C9: the integer `0` passes both presence checks for `categoryId`:
dispatching `getBrandsByCategory` with `categoryId = 0` on an
authenticated session reaches the backend (GET
`/api/brands/category/0`), is not rejected as missing-argument, and
throws nothing. -/
theorem c9_category_zero_treated_as_present
    (env : Env) (s : Session) (w : World) (r : HttpResponse)
    (hs : s.cachedToken.truthy = true) (hw : w.outcome = .ok r) :
    (callTool env s "getBrandsByCategory" (.obj [("categoryId", .num 0)]) w).requests.map (fun q => q.url)
      = [env.apiBaseUrl ++ "/api/brands/category/0"] ∧
    (callTool env s "getBrandsByCategory" (.obj [("categoryId", .num 0)]) w).result.isError = false ∧
    (callTool env s "getBrandsByCategory" (.obj [("categoryId", .num 0)]) w).handlerThrew = none := by
  have e : callTool env s "getBrandsByCategory" (.obj [("categoryId", .num 0)]) w
      = branch_getBrandsByCategory env s (.obj [("categoryId", .num 0)]) w := rfl
  have hg : (jsOr (Js.obj [("categoryId", Js.num 0)]) (.obj [])).get "categoryId" = Js.num 0 := rfl
  have hnn : ¬((Js.num 0).isNullish = true) := by decide
  have hz : ¬((!(Js.num 0).truthy && !(jsIsNum (Js.num 0) 0)) = true) := by decide
  have hauth : ¬((!s.cachedToken.truthy) = true) := by simp [hs]
  have hurl : "/api/brands/category/" ++ encodeURIComponent (Js.num 0).toStr
      = "/api/brands/category/0" := by decide
  refine ⟨?_, ?_, ?_⟩
  · rw [e]
    simp only [branch_getBrandsByCategory, hg]
    rw [if_neg hnn, branchOut_requests]
    simp only [getBrandsByCategory]
    rw [if_neg hz, if_neg hauth, sendRequest_requests]
    simp only [List.map]
    rw [String.append_assoc, hurl]
  · rw [e]
    simp only [branch_getBrandsByCategory, hg]
    rw [if_neg hnn]
    simp only [getBrandsByCategory]
    rw [if_neg hz, if_neg hauth]
    simp only [sendRequest]
    rw [hw]
    rfl
  · rw [e]
    simp only [branch_getBrandsByCategory, hg]
    rw [if_neg hnn]
    simp only [getBrandsByCategory]
    rw [if_neg hz, if_neg hauth]
    simp only [sendRequest]
    rw [hw]
    rfl

/-- Witness for C9 at a concrete authenticated session and a successful
backend. -/
theorem c9_witness :
    (callTool env0 authedSession "getBrandsByCategory" (.obj [("categoryId", .num 0)]) okWorld).requests.map (fun q => q.url)
      = [env0.apiBaseUrl ++ "/api/brands/category/0"] ∧
    (callTool env0 authedSession "getBrandsByCategory" (.obj [("categoryId", .num 0)]) okWorld).result.isError = false ∧
    (callTool env0 authedSession "getBrandsByCategory" (.obj [("categoryId", .num 0)]) okWorld).handlerThrew = none :=
  c9_category_zero_treated_as_present env0 authedSession okWorld
    { status := 200, statusText := "OK", data := .obj [], bytes := [], headers := [] } (by decide) rfl

/-- C10 (implicit): the stdio `forward` tool performs no authentication
precondition check: dispatched on the never-logged-in initial session
with a parseable non-empty url, it still issues the POST to `/forward`
carrying the literal header `Authorization: Bearer null`, and logs the
cached token (`check the token :  null`) to stderr. -/
theorem branchOut_logs (errLead : String) (run : HandlerRun) (okf : Js → List ContentBlock) :
    (branchOut errLead run okf).logs = run.logs := by
  cases hr : run.result <;> simp [branchOut, hr]

theorem forwardRequest_run (env : Env) (s : Session) (u : String) (w : World)
    (hu : ¬((!(Js.str u).truthy) = true)) (hp : ¬((!w.urlParses) = true)) :
    (forwardRequest env s (.str u) w).logs
      = ["check the token : " ++ " " ++ s.cachedToken.toStr] ∧
    (forwardRequest env s (.str u) w).requests
      = [{ method := "POST", url := env.apiBaseUrl ++ "/forward"
         , headers := [("Authorization", bearerOf s), ("Content-Type", "application/json")]
         , params := [], body := some (.obj [("url", .str u)]), responseType := none }] := by
  simp only [forwardRequest]
  rw [if_neg hu, if_neg hp]
  cases hwo : w.outcome <;> exact ⟨rfl, rfl⟩

theorem c10_forward_sends_bearer_null_without_auth_check
    (env : Env) (u : String) (w : World) (hu : u ≠ "") (hp : w.urlParses = true) :
    (callTool env initialSession "forward" (.obj [("url", .str u)]) w).logs
      = ["check the token :  null"] ∧
    (callTool env initialSession "forward" (.obj [("url", .str u)]) w).requests
      = [{ method := "POST", url := env.apiBaseUrl ++ "/forward"
         , headers := [("Authorization", "Bearer null"), ("Content-Type", "application/json")]
         , params := [], body := some (.obj [("url", .str u)]), responseType := none }] := by
  have e : callTool env initialSession "forward" (.obj [("url", .str u)]) w
      = branch_forward env initialSession (.obj [("url", .str u)]) w := rfl
  have hg : (jsOr (Js.obj [("url", Js.str u)]) (.obj [])).get "url" = Js.str u := rfl
  have hu2 : ¬((!(Js.str u).truthy) = true) := by simp [Js.truthy, hu]
  have hp2 : ¬((!w.urlParses) = true) := by simp [hp]
  have hbear : bearerOf initialSession = "Bearer null" := by decide
  have hlog : "check the token : " ++ " " ++ initialSession.cachedToken.toStr
      = "check the token :  null" := by decide
  refine ⟨?_, ?_⟩
  · rw [e]
    simp only [branch_forward, hg]
    rw [if_neg hu2, branchOut_logs, (forwardRequest_run env initialSession u w hu2 hp2).1, hlog]
  · rw [e]
    simp only [branch_forward, hg]
    rw [if_neg hu2, branchOut_requests, (forwardRequest_run env initialSession u w hu2 hp2).2, hbear]

/-- Witness for C10 at a concrete url. -/
theorem c10_witness :
    (callTool env0 initialSession "forward" (.obj [("url", .str "https://target.example")]) okWorld).logs
      = ["check the token :  null"] ∧
    (callTool env0 initialSession "forward" (.obj [("url", .str "https://target.example")]) okWorld).requests
      = [{ method := "POST", url := env0.apiBaseUrl ++ "/forward"
         , headers := [("Authorization", "Bearer null"), ("Content-Type", "application/json")]
         , params := [], body := some (.obj [("url", .str "https://target.example")]), responseType := none }] :=
  c10_forward_sends_bearer_null_without_auth_check env0 "https://target.example" okWorld (by decide) rfl

/-- A world whose HTTP call rejects with the axios timeout error. -/
def timeoutWorld : World :=
  { outcome := .err timeoutErrShape, urlParses := true, now := "2026-01-01T00:00:00.000Z" }

/-- A world whose HTTP call rejects with a connection-refused error. -/
def connRefusedWorld : World :=
  { outcome := .err connRefusedShape, urlParses := true, now := "2026-01-01T00:00:00.000Z" }

/-- C3 is false of the code (code bug): because every catch block tests
`err.request` before `err.code === "ECONNABORTED"`, and an axios timeout
rejection carries the dispatched request object, a timed-out
`getUserById` call produces the very same "Network Error: ..." message
as a connection-refused failure — the two error kinds are NOT
distinguishable by message, and the timeout message (which would state
the configured duration) is never produced. -/
theorem c3_timeout_indistinguishable_from_network_error :
    (getUserById env0 authedSession (.str "1") timeoutWorld).result =
      .error "Network Error: Unable to reach API at http://api.example.com/api/users/userId/1" ∧
    (getUserById env0 authedSession (.str "1") connRefusedWorld).result =
      .error "Network Error: Unable to reach API at http://api.example.com/api/users/userId/1" ∧
    (getUserById env0 authedSession (.str "1") timeoutWorld).result =
      (getUserById env0 authedSession (.str "1") connRefusedWorld).result ∧
    ¬ ContainsStr "Network Error: Unable to reach API at http://api.example.com/api/users/userId/1" "timeout" :=
  ⟨rfl, rfl, rfl, by decide⟩

/-- Comma-separated join, as the unknown-tool message lists the tool
names. -/
def joinSep : List String → String
  | [] => ""
  | [x] => x
  | x :: y :: ys => x ++ (", " ++ joinSep (y :: ys))

/-- The tail of the unknown-tool message (the part after the
interpolated tool name): the closing quote, the lead-in, and the
comma-separated 35 names. -/
def availableToolsTail : String := "\x27. Available tools: " ++ joinSep availableToolsListed

theorem containsStr_head (pat post : String) : ContainsStr (pat ++ post) pat := by
  unfold ContainsStr
  have h : (pat ++ post).toList = pat.toList ++ post.toList := by
    simp [String.toList, String.data_append]
  rw [h]
  exact ⟨[], post.toList, by simp⟩

theorem joinSep_contains : ∀ (l : List String), ∀ t ∈ l, ContainsStr (joinSep l) t := by
  intro l
  induction l with
  | nil => intro t ht; exact absurd ht (List.not_mem_nil t)
  | cons x xs ih =>
    intro t ht
    rcases List.mem_cons.mp ht with h1 | h2
    · subst h1
      cases xs with
      | nil => exact List.infix_refl _
      | cons y ys => exact containsStr_head t _
    · cases xs with
      | nil => exact absurd h2 (List.not_mem_nil t)
      | cons y ys =>
        exact containsStr_append_right x _ t (containsStr_append_right ", " _ t (ih t h2))

theorem c4_tail_contains : ∀ t ∈ availableToolsListed, ContainsStr availableToolsTail t :=
  fun t ht => containsStr_append_right _ _ t (joinSep_contains availableToolsListed t ht)

/-- Counterexample to C4 as stated: the unknown-tool error text does not
list all known tool names — `getAddOnPackages` is dispatchable (it is in
the catalog `dispatcherToolNames`), yet the text's name enumeration
(`joinSep availableToolsListed`, shown equal to the literal message) does
not include it. -/
theorem c4_counterexample :
    "getAddOnPackages" ∈ dispatcherToolNames ∧
    (callTool env0 initialSession "noSuchTool" (.obj []) okWorld).result.isError = true ∧
    (callTool env0 initialSession "noSuchTool" (.obj []) okWorld).result.content =
      [{ text := unknownToolText "noSuchTool" }] ∧
    unknownToolText "noSuchTool"
      = "Error: Unknown tool \x27" ++ ("noSuchTool" ++ ("\x27. Available tools: " ++ joinSep availableToolsListed)) ∧
    "getAddOnPackages" ∉ availableToolsListed :=
  ⟨by decide, rfl, rfl,
   by simp [unknownToolText, joinSep, availableToolsListed, String.append_assoc],
   by decide⟩

/-- C4 (amended): dispatching any name outside the catalog returns the
unknown-tool error result — an error-flagged result, never a throw — but
its text enumerates only the 35 names of `availableToolsListed` (the
nine admin API-key tools and the eleven add-on tools are missing). -/
theorem c4_amended_unknown_tool_lists_35_names
    (name : String) (hn : name ∉ dispatcherToolNames)
    (env : Env) (s : Session) (args : Js) (w : World) :
    callTool env s name args w = unknownToolOut s name ∧
    (unknownToolOut s name).result.isError = true ∧
    (∀ t ∈ availableToolsListed, ContainsStr (unknownToolText name) t) := by
  have h1 : ¬(name = "fetchBrandDetails") := fun hx => hn (by rw [hx]; decide)
  have h2 : ¬(name = "login") := fun hx => hn (by rw [hx]; decide)
  have h3 : ¬(name = "refreshToken") := fun hx => hn (by rw [hx]; decide)
  have h4 : ¬(name = "getUserById") := fun hx => hn (by rw [hx]; decide)
  have h5 : ¬(name = "forward") := fun hx => hn (by rw [hx]; decide)
  have h6 : ¬(name = "updateUserProfile") := fun hx => hn (by rw [hx]; decide)
  have h7 : ¬(name = "forgotPassword") := fun hx => hn (by rw [hx]; decide)
  have h8 : ¬(name = "resetPassword") := fun hx => hn (by rw [hx]; decide)
  have h9 : ¬(name = "createRivoApiKey") := fun hx => hn (by rw [hx]; decide)
  have h10 : ¬(name = "adminGetAllApiKeys") := fun hx => hn (by rw [hx]; decide)
  have h11 : ¬(name = "adminGetApiKeysForUser") := fun hx => hn (by rw [hx]; decide)
  have h12 : ¬(name = "adminCreateApiKeyForUser") := fun hx => hn (by rw [hx]; decide)
  have h13 : ¬(name = "adminRevokeApiKey") := fun hx => hn (by rw [hx]; decide)
  have h14 : ¬(name = "adminDeleteApiKey") := fun hx => hn (by rw [hx]; decide)
  have h15 : ¬(name = "adminGetApiKeyUsage") := fun hx => hn (by rw [hx]; decide)
  have h16 : ¬(name = "adminGetApiKeySystemStats") := fun hx => hn (by rw [hx]; decide)
  have h17 : ¬(name = "adminResetApiKeyRateLimit") := fun hx => hn (by rw [hx]; decide)
  have h18 : ¬(name = "adminUpdateApiKeyScopes") := fun hx => hn (by rw [hx]; decide)
  have h19 : ¬(name = "getAddOnPackages") := fun hx => hn (by rw [hx]; decide)
  have h20 : ¬(name = "purchaseAddOn") := fun hx => hn (by rw [hx]; decide)
  have h21 : ¬(name = "getAddOnsForApiKey") := fun hx => hn (by rw [hx]; decide)
  have h22 : ¬(name = "getActiveAddOnsForApiKey") := fun hx => hn (by rw [hx]; decide)
  have h23 : ¬(name = "getAddOnRecommendations") := fun hx => hn (by rw [hx]; decide)
  have h24 : ¬(name = "cancelAddOn") := fun hx => hn (by rw [hx]; decide)
  have h25 : ¬(name = "renewAddOn") := fun hx => hn (by rw [hx]; decide)
  have h26 : ¬(name = "getExpiringAddOns") := fun hx => hn (by rw [hx]; decide)
  have h27 : ¬(name = "getNearlyExhaustedAddOns") := fun hx => hn (by rw [hx]; decide)
  have h28 : ¬(name = "processAutoRenewals") := fun hx => hn (by rw [hx]; decide)
  have h29 : ¬(name = "cleanupExpiredAddOns") := fun hx => hn (by rw [hx]; decide)
  have h30 : ¬(name = "getRivoApiKeys") := fun hx => hn (by rw [hx]; decide)
  have h31 : ¬(name = "getBrandsPaged") := fun hx => hn (by rw [hx]; decide)
  have h32 : ¬(name = "getRivoApiKeyById") := fun hx => hn (by rw [hx]; decide)
  have h33 : ¬(name = "updateRivoApiKey") := fun hx => hn (by rw [hx]; decide)
  have h34 : ¬(name = "revokeRivoApiKey") := fun hx => hn (by rw [hx]; decide)
  have h35 : ¬(name = "regenerateRivoApiKey") := fun hx => hn (by rw [hx]; decide)
  have h36 : ¬(name = "deleteRivoApiKey") := fun hx => hn (by rw [hx]; decide)
  have h37 : ¬(name = "getBrandDetailsById") := fun hx => hn (by rw [hx]; decide)
  have h38 : ¬(name = "getBrandByWebsite") := fun hx => hn (by rw [hx]; decide)
  have h39 : ¬(name = "getBrandByName") := fun hx => hn (by rw [hx]; decide)
  have h40 : ¬(name = "searchBrands") := fun hx => hn (by rw [hx]; decide)
  have h41 : ¬(name = "getBrandsByDomain") := fun hx => hn (by rw [hx]; decide)
  have h42 : ¬(name = "getBrandStatistics") := fun hx => hn (by rw [hx]; decide)
  have h43 : ¬(name = "getBrandDashboardSummary") := fun hx => hn (by rw [hx]; decide)
  have h44 : ¬(name = "getBrandDashboardSearches") := fun hx => hn (by rw [hx]; decide)
  have h45 : ¬(name = "getBrandDashboardDetails") := fun hx => hn (by rw [hx]; decide)
  have h46 : ¬(name = "getAllBrandsWithSearch") := fun hx => hn (by rw [hx]; decide)
  have h47 : ¬(name = "getAllBrandsLegacy") := fun hx => hn (by rw [hx]; decide)
  have h48 : ¬(name = "serveBrandAsset") := fun hx => hn (by rw [hx]; decide)
  have h49 : ¬(name = "serveBrandImage") := fun hx => hn (by rw [hx]; decide)
  have h50 : ¬(name = "extractBrandData") := fun hx => hn (by rw [hx]; decide)
  have h51 : ¬(name = "claimBrand") := fun hx => hn (by rw [hx]; decide)
  have h52 : ¬(name = "getBrandPerformanceTest") := fun hx => hn (by rw [hx]; decide)
  have h53 : ¬(name = "getBrandsByCategory") := fun hx => hn (by rw [hx]; decide)
  have h54 : ¬(name = "getBrandsByCategoryAndSubcategory") := fun hx => hn (by rw [hx]; decide)
  have h55 : ¬(name = "getBrandByIdCategoryAndSubcategory") := fun hx => hn (by rw [hx]; decide)
  refine ⟨?_, rfl, ?_⟩
  · unfold callTool
    rw [if_neg h1, if_neg h2, if_neg h3, if_neg h4, if_neg h5, if_neg h6, if_neg h7, if_neg h8, if_neg h9, if_neg h10, if_neg h11, if_neg h12, if_neg h13, if_neg h14, if_neg h15, if_neg h16, if_neg h17, if_neg h18, if_neg h19, if_neg h20, if_neg h21, if_neg h22, if_neg h23, if_neg h24, if_neg h25, if_neg h26, if_neg h27, if_neg h28, if_neg h29, if_neg h30, if_neg h31, if_neg h32, if_neg h33, if_neg h34, if_neg h35, if_neg h36, if_neg h37, if_neg h38, if_neg h39, if_neg h40, if_neg h41, if_neg h42, if_neg h43, if_neg h44, if_neg h45, if_neg h46, if_neg h47, if_neg h48, if_neg h49, if_neg h50, if_neg h51, if_neg h52, if_neg h53, if_neg h54, if_neg h55]
  · intro t ht
    have he : unknownToolText name
        = "Error: Unknown tool \x27" ++ (name ++ availableToolsTail) := by
      simp [unknownToolText, availableToolsTail, joinSep, availableToolsListed, String.append_assoc]
    rw [he]
    exact containsStr_append_right _ _ _ (containsStr_append_right _ _ _ (c4_tail_contains t ht))

/-- Witness for the amended C4 at a concrete unknown name. -/
theorem c4_amended_witness :
    callTool env0 initialSession "noSuchToolB" (.obj []) okWorld = unknownToolOut initialSession "noSuchToolB" ∧
    ContainsStr (unknownToolText "noSuchToolB") "getUserById" := by
  have h := c4_amended_unknown_tool_lists_35_names "noSuchToolB" (by decide) env0 initialSession (.obj []) okWorld
  exact ⟨h.1, h.2.2 "getUserById" (by decide)⟩
